import Mathlib

/-!
# bydrive-backend: rental booking core

A shallow embedding of `controllers/rentalsController.js` and of the parts of
the models it relies on.  Each handler is a pure function from the store it
reads (and the request) to the reply it sends and the store it leaves behind.

Conventions of the embedding

* JavaScript numbers that occur in the stores (ids, rates, day counts) are
  integers; `none` stands for `NaN` where a number may be `NaN`.  Arithmetic is
  exact, which agrees with IEEE doubles while magnitudes stay below `2^53`.
* Request fields that the code only reads as strings are `Option String`
  (`none` = the field is absent).
* `jwt.verify`, the non date-only part of `Date.parse` and the conversion of a
  string to an `ObjectId` are services of the host and are taken as parameters
  (`Host`).
-/

namespace Bydrive

/-! ## JavaScript values and operators -/

/-- A polymorphic identifier as it occurs in the stores: absent, a number, a
string, or (document database only) an `ObjectId`, kept as its hex string. -/
inductive Val where
  | undef : Val
  | num (n : Int) : Val
  | str (s : String) : Val
  | oid (hex : String) : Val
deriving DecidableEq, Repr

/-- UTF-16 code units of one character. -/
def utf16Units (c : Char) : List Nat :=
  if c.toNat < 65536 then [c.toNat]
  else [55296 + (c.toNat - 65536) / 1024, 56320 + (c.toNat - 65536) % 1024]

/-- UTF-16 code units of a string, the sequence JavaScript compares. -/
def codeUnits (s : String) : List Nat :=
  s.data.flatMap utf16Units

/-- Lexicographic `<` on code-unit sequences. -/
def unitsLt : List Nat → List Nat → Bool
  | [], [] => false
  | [], _ :: _ => true
  | _ :: _, [] => false
  | a :: as, b :: bs => if a < b then true else if b < a then false else unitsLt as bs

/-- The JavaScript comparison `a < b` on two strings. -/
def strLt (a b : String) : Bool :=
  unitsLt (codeUnits a) (codeUnits b)

/-- The JavaScript expression `a <= b` where each operand is a string or
`undefined`: `undefined` converts to `NaN`, so the comparison is `false`;
on two strings it is `!(b < a)`. -/
def jsLe : Option String → Option String → Bool
  | some a, some b => !(strLt b a)
  | _, _ => false

/-- The JavaScript expression `a >= b` where each operand is a string or
`undefined`: on two strings it is `!(a < b)`. -/
def jsGe : Option String → Option String → Bool
  | some a, some b => !(strLt a b)
  | _, _ => false

/-- Code points of `StrWhiteSpaceChar` (white space and line terminators). -/
def isStrWhiteSpace (c : Char) : Bool :=
  let n := c.toNat
  n == 9 || n == 10 || n == 11 || n == 12 || n == 13 || n == 32 || n == 160 ||
  n == 5760 || (8192 ≤ n && n ≤ 8202) || n == 8232 || n == 8233 || n == 8239 ||
  n == 8287 || n == 12288 || n == 65279

/-- Drop leading white space. -/
def dropWs : List Char → List Char
  | [] => []
  | c :: cs => if isStrWhiteSpace c then dropWs cs else c :: cs

/-- Trim white space at both ends. -/
def trimWs (cs : List Char) : List Char :=
  (dropWs (dropWs cs).reverse).reverse

/-- Value of a digit character in the given radix, if it is one. -/
def digitVal (radix : Nat) (c : Char) : Option Nat :=
  let n := c.toNat
  let v := if 48 ≤ n && n ≤ 57 then n - 48
    else if 97 ≤ n && n ≤ 122 then n - 87
    else if 65 ≤ n && n ≤ 90 then n - 55
    else 99
  if v < radix then some v else none

/-- Longest run of digits of the given radix at the head of the input:
(the value read so far, how many digits were read, the rest). -/
def readDigits (radix : Nat) : List Char → Nat → Nat → Nat × Nat × List Char
  | [], acc, k => (acc, k, [])
  | c :: cs, acc, k =>
    match digitVal radix c with
    | some v => readDigits radix cs (acc * radix + v) (k + 1)
    | none => (acc, k, c :: cs)

/-- An unsigned `StrDecimalLiteral` other than `Infinity`, as the pair
(mantissa `m`, decimal exponent `e`) with value `m * 10^e`. -/
def readDecimal (cs : List Char) : Option (Nat × Int) :=
  let (ip, ik, r1) := readDigits 10 cs 0 0
  let (m, fk, r2) :=
    match r1 with
    | '.' :: r => let (fp, fk, r2) := readDigits 10 r ip 0; (fp, fk, r2)
    | r => (ip, 0, r)
  let hasDot := match r1 with
    | '.' :: _ => true
    | _ => false
  if ik + fk = 0 then none
  else if ik = 0 && !hasDot then none
  else
    match r2 with
    | [] => some (m, - (fk : Int))
    | c :: r =>
      if c == 'e' || c == 'E' then
        let (neg, r3) := match r with
          | '-' :: t => (true, t)
          | '+' :: t => (false, t)
          | t => (false, t)
        let (ev, ek, r4) := readDigits 10 r3 0 0
        if ek = 0 || !r4.isEmpty then none
        else some (m, (if neg then - (ev : Int) else (ev : Int)) - (fk : Int))
      else none

/-- The integer `m * 10^e` when it is an integer. -/
def scaleToInt (m : Nat) (e : Int) : Option Int :=
  if 0 ≤ e then some ((m : Int) * 10 ^ e.toNat)
  else if m % 10 ^ (-e).toNat = 0 then some ((m / 10 ^ (-e).toNat : Nat) : Int)
  else none

/-- Abstract operation `StringToNumber`, restricted to integer results: the integer the string
denotes, or `none` when it denotes `NaN`, an infinity or a non-integer.  Such
a value is never equal to an integer, which is the only use made of it. -/
def stringToNumber (s : String) : Option Int :=
  match trimWs s.data with
  | [] => some 0
  | '0' :: x :: r =>
    let radix := if x == 'x' || x == 'X' then 16
      else if x == 'o' || x == 'O' then 8
      else if x == 'b' || x == 'B' then 2 else 0
    if radix = 0 then (readDecimal ('0' :: x :: r)).bind (fun p => scaleToInt p.1 p.2)
    else
      let (v, k, rest) := readDigits radix r 0 0
      if k = 0 || !rest.isEmpty then none else some (v : Int)
  | '-' :: r => (readDecimal r).bind (fun p => (scaleToInt p.1 p.2).map (fun v => -v))
  | '+' :: r => (readDecimal r).bind (fun p => scaleToInt p.1 p.2)
  | r => (readDecimal r).bind (fun p => scaleToInt p.1 p.2)

/-- The JavaScript expression `isNaN(s)` on a string: whether `StringToNumber`
yields `NaN`.  The empty string, the infinities, radix literals and decimal
literals are numbers. -/
def stringIsNaN (s : String) : Bool :=
  match trimWs s.data with
  | [] => false
  | '0' :: x :: r =>
    let radix := if x == 'x' || x == 'X' then 16
      else if x == 'o' || x == 'O' then 8
      else if x == 'b' || x == 'B' then 2 else 0
    if radix = 0 then (readDecimal ('0' :: x :: r)).isNone
    else
      let (_, k, rest) := readDigits radix r 0 0
      k = 0 || !rest.isEmpty
  | '-' :: r => !(r == "Infinity".data) && (readDecimal r).isNone
  | '+' :: r => !(r == "Infinity".data) && (readDecimal r).isNone
  | r => !(r == "Infinity".data) && (readDecimal r).isNone

/-- Truthiness of a stored value: `undefined`, `0` and the empty string are
falsy. -/
def valTruthy : Val → Bool
  | Val.undef => false
  | Val.num n => n != 0
  | Val.str s => s != ""
  | Val.oid _ => true

/-- The JavaScript expression `v == s` for a stored value `v` and a string `s`
(`IsLooselyEqual`): a number is compared with `StringToNumber s`, a string
with `s` itself, `undefined` is equal to no string, and an object is first
converted to its string form. -/
def looseEq (v : Val) (s : String) : Bool :=
  match v with
  | Val.undef => false
  | Val.num n => stringToNumber s == some n
  | Val.str t => t == s
  | Val.oid h => h == s

/-- Global function `parseInt(s)` (no radix argument): leading white space is
skipped, then an optional sign, an optional `0x`, and the longest run of
digits; `none` is `NaN`. -/
def parseInt (s : String) : Option Int :=
  let cs := dropWs s.data
  let (neg, r) := match cs with
    | '-' :: t => (true, t)
    | '+' :: t => (false, t)
    | t => (false, t)
  let (radix, r2) := match r with
    | '0' :: 'x' :: t => (16, t)
    | '0' :: 'X' :: t => (16, t)
    | t => (10, t)
  let (v, k, _) := readDigits radix r2 0 0
  if k = 0 then none else some (if neg then - (v : Int) else (v : Int))

/-- String form of a number (`NaN` prints as `NaN`). -/
def numToString : Option Int → String
  | none => "NaN"
  | some n => toString n

/-- Method call `v.toString()`: `none` when `v` is `undefined` and the call
throws. -/
def valToString : Val → Option String
  | Val.undef => none
  | Val.num n => some (toString n)
  | Val.str s => some s
  | Val.oid h => some h

/-- Order of two strings in the document database (simple binary collation:
order of the UTF-8 bytes, which is the order of the code points). -/
def bsonStrLt : List Char → List Char → Bool
  | [], [] => false
  | [], _ :: _ => true
  | _ :: _, [] => false
  | a :: as, b :: bs =>
    if a.toNat < b.toNat then true else if b.toNat < a.toNat then false else bsonStrLt as bs

/-- Query operator `{ field: { $lte: probe } }` on a stored string; an
`undefined` probe is sent as `null` and matches no string. -/
def bsonLte (stored : String) : Option String → Bool
  | some probe => !(bsonStrLt probe.data stored.data)
  | none => false

/-- Query operator `{ field: { $gte: probe } }` on a stored string. -/
def bsonGte (stored : String) : Option String → Bool
  | some probe => !(bsonStrLt stored.data probe.data)
  | none => false

/-- The JavaScript expression `a.split(" ")`, on the characters of `a`. -/
def splitOnSpace : List Char → List (List Char)
  | [] => [[]]
  | c :: cs =>
    match splitOnSpace cs with
    | [] => [[c]]
    | w :: ws => if c == ' ' then [] :: w :: ws else (c :: w) :: ws

/-- Array method `findIndex`: position of the first element satisfying `p`
(`none` stands for `-1`). -/
def findIndex {α : Type} (p : α → Bool) : List α → Option Nat
  | [] => none
  | x :: xs => if p x then some 0 else (findIndex p xs).map (fun i => i + 1)

/-- Mathematical floor of `a / b`. -/
def floorDiv (a : Int) (b : Nat) : Int :=
  Int.fdiv a (b : Int)

/-- Specification function `DayFromYear` of ECMAScript. -/
def dayFromYear (y : Int) : Int :=
  365 * (y - 1970) + floorDiv (y - 1969) 4 - floorDiv (y - 1901) 100 + floorDiv (y - 1601) 400

/-- Leap years of the proleptic Gregorian calendar. -/
def isLeapYear (y : Nat) : Bool :=
  y % 4 == 0 && (y % 100 != 0 || y % 400 == 0)

/-- Number of days of month `m` (1 to 12) in year `y`; 0 for no month. -/
def daysInMonth (y m : Nat) : Nat :=
  if m == 2 then (if isLeapYear y then 29 else 28)
  else if m == 4 || m == 6 || m == 9 || m == 11 then 30
  else if 1 ≤ m && m ≤ 12 then 31 else 0

/-- Days of the year that precede month `m`. -/
def daysBeforeMonth (y : Nat) : Nat → Nat
  | 0 => 0
  | m + 1 => if m = 0 then 0 else daysBeforeMonth y m + daysInMonth y m

/-- The number a run of decimal digits denotes, `none` if some character is
not a decimal digit. -/
def allDigits (cs : List Char) : Option Nat :=
  match readDigits 10 cs 0 0 with
  | (v, _, []) => some v
  | _ => none

/-- Time value (milliseconds since the epoch, UTC) of a calendar date written
`YYYY-MM-DD`; `none` when the string is not of that form or names no day of
the calendar. -/
def parseDateOnly (s : String) : Option Int :=
  match s.data with
  | [y1, y2, y3, y4, '-', m1, m2, '-', d1, d2] =>
    match allDigits [y1, y2, y3, y4], allDigits [m1, m2], allDigits [d1, d2] with
    | some y, some m, some d =>
      if 1 ≤ m && m ≤ 12 && 1 ≤ d && d ≤ daysInMonth y m then
        some ((dayFromYear y + daysBeforeMonth y m + d - 1) * 86400000)
      else none
    | _, _, _ => none
  | _ => none

/-- Services of the host that the controllers call. -/
structure Host where
  /-- Result of `jwt.verify(token, secret).email`; `none` when verification
  throws or the payload carries no email. -/
  jwtEmail : String → Option String
  /-- Result of `Date.parse` on every string that is not a calendar date written
  `YYYY-MM-DD` (time value in milliseconds, `none` = `NaN`). -/
  dateParseOther : String → Option Int
  /-- The `ObjectId` (as hex string) that a string converts to; `none` exactly
  when `mongoose.Types.ObjectId.isValid` is false. -/
  toObjectId : String → Option String
  /-- Method `String.prototype.toLowerCase`, which the `lowercase: true` setter
  of the user schema applies to emails, also in queries. -/
  toLowerCase : String → String

/-- Function `verifyToken` of `rentalsController.js`: the email in the token, `null`
(here `none`) when verification fails. -/
def verifyToken (h : Host) (token : String) : Option String :=
  h.jwtEmail token

/-- The statements `const auth = req.headers.authorization || ""` and
`const token = auth.split(" ")[1]`; `none` is `undefined`. -/
def bearerToken (authorization : Option String) : Option String :=
  let auth := authorization.getD ""
  ((splitOnSpace auth.data).get? 1).map String.mk

/-- The two guards that open every authenticated handler: the email of the
caller, or `none` when the handler answers 401 `Unauthorized`. -/
def currentUserEmail (h : Host) (authorization : Option String) : Option String :=
  match bearerToken authorization with
  | none => none
  | some token =>
    if token == "" then none
    else
      match verifyToken h token with
      | none => none
      | some email => if email == "" then none else some email

/-- Function `Date.parse`: calendar dates written `YYYY-MM-DD` are read as UTC
midnight, every other string is left to the host. -/
def dateParse (h : Host) (s : String) : Option Int :=
  match parseDateOnly s with
  | some t => some t
  | none => h.dateParseOther s

/-- Time value of `new Date(v)` for `v` a string or `undefined`. -/
def newDate (h : Host) : Option String → Option Int
  | none => none
  | some s => dateParse h s

/-- Ceiling of `a / b` for positive `b`. -/
def ceilDiv (a : Int) (b : Nat) : Int :=
  - Int.fdiv (-a) (b : Int)

/-- The statements
`const start = new Date(startDate); const end = new Date(endDate);`
`const days = Math.ceil((end - start) / (1000 * 60 * 60 * 24));`
with `none` for `NaN`. -/
def rentalDays (h : Host) (startDate endDate : Option String) : Option Int :=
  match newDate h startDate, newDate h endDate with
  | some start, some stop => some (ceilDiv (stop - start) (1000 * 60 * 60 * 24))
  | _, _ => none

/-- The JavaScript expression `a || b` on two optional numbers: `a` when it is
truthy (present and not 0), else `b`. -/
def numOr (a b : Option Int) : Option Int :=
  match a with
  | some n => if n = 0 then b else some n
  | none => b

/-- The JavaScript expression `days * rate`: `NaN` (here `none`) when `days` is
`NaN` or `rate` is `undefined`. -/
def numMul (days rate : Option Int) : Option Int :=
  match days, rate with
  | some d, some r => some (d * r)
  | _, _ => none

/-- The JavaScript expression `a || d` on an optional string: `a` unless it is
absent or empty. -/
def strOr (a : Option String) (d : String) : String :=
  match a with
  | some x => if x == "" then d else x
  | none => d

/-- What a handler sends: an error body `{ error }` with its HTTP status, or a
success body with its HTTP status. -/
inductive Reply (α : Type) where
  | error (status : Nat) (error : String) : Reply α
  | ok (status : Nat) (body : α) : Reply α
deriving DecidableEq, Repr

/-- HTTP status of a reply. -/
def Reply.status {α : Type} : Reply α → Nat
  | Reply.error st _ => st
  | Reply.ok st _ => st

/-- What `rentItem` reads from the request: the `Authorization` header, the
route parameter `:id` and the body. -/
structure RentRequest where
  authorization : Option String
  id : String
  startDate : Option String
  endDate : Option String
  pickupLocation : Option String
  dropoffLocation : Option String
  specialRequests : Option String
  paymentInfo : Option String
deriving DecidableEq, Repr

/-- What `cancelRental` reads from the request. -/
structure CancelRequest where
  authorization : Option String
  id : String
deriving DecidableEq, Repr

/-- What `updateRental` reads from the request: the route parameter `:id` and
the body fields `startDate`, `endDate`, `status`. -/
structure UpdateRequest where
  id : String
  startDate : Option String
  endDate : Option String
  status : Option String
deriving DecidableEq, Repr

/-- Truthiness of a request field that is a string or absent. -/
def truthy (a : Option String) : Bool :=
  a.getD "" != ""

/-! ## File-backed store (`USE_MONGODB` unset) -/

namespace Json

/-- An entry of `users.json`. -/
structure User where
  id : Val
  email : String
  username : Option String
  role : String
deriving DecidableEq, Repr

/-- An entry of `cars.json` (the fields the rental controller reads). -/
structure Car where
  id : Val
  price_per_day : Option Int
  pricePerDay : Option Int
deriving DecidableEq, Repr

/-- An entry of `rentItem.json`, with the fields `rentItem` writes.  Optional
fields are those `JSON.stringify` drops when `undefined`; `totalDays` and
`totalPrice` are `none` when the number was `NaN`. -/
structure Rental where
  id : Val
  carId : Val
  userId : Val
  userEmail : String
  username : Option String
  startDate : Option String
  endDate : Option String
  pickupLocation : String
  dropoffLocation : String
  specialRequests : String
  totalDays : Option Int
  pricePerDay : Option Int
  totalPrice : Option Int
  status : String
  paymentInfo : Option String
  createdAt : Nat
deriving DecidableEq, Repr

/-- The three JSON files, as `readJsonFile` returns them. -/
structure Store where
  users : List User
  cars : List Car
  rentals : List Rental
deriving DecidableEq, Repr

/-- The overlap test of `checkCarAvailability` and `rentItem`,
`existing.startDate <= endDate && existing.endDate >= startDate`, between the
interval of an existing rental and a second interval. -/
def datesOverlap (existingStart existingEnd startDate endDate : Option String) : Bool :=
  jsLe existingStart endDate && jsGe existingEnd startDate

/-- The predicate both `checkCarAvailability` and `rentItem` pass to
`rentals.some`. -/
def overlapsRequest (id : String) (startDate endDate : Option String) (rental : Rental) : Bool :=
  looseEq rental.carId id &&
  rental.status == "active" &&
  datesOverlap rental.startDate rental.endDate startDate endDate

/-- Body of a successful availability reply: `{ available, car: { id } }`. -/
structure Availability where
  available : Bool
  carId : String
deriving DecidableEq, Repr

/-- File-backed branch of `checkCarAvailability`.  `!startDate` holds for an
absent field and for the empty string. -/
def checkCarAvailability (s : Store) (id : String) (startDate endDate : Option String) :
    Reply Availability :=
  if startDate.getD "" == "" || endDate.getD "" == "" then
    Reply.error 400 "Start date and end date are required"
  else
    let isOverlapping := s.rentals.any (overlapsRequest id startDate endDate)
    Reply.ok 200 { available := !isOverlapping, carId := id }

/-- Body of a successful `rentItem` reply: the rental joined with its car. -/
structure Rented where
  rental : Rental
  car : Car
deriving DecidableEq, Repr

/-- File-backed branch of `rentItem`.  `now` is the value of `Date.now()` that
becomes the rental id, `stamp` the clock reading stored as `createdAt`.
Returns the reply and the content of the store afterwards. -/
def rentItem (h : Host) (now stamp : Nat) (s : Store) (req : RentRequest) :
    Reply Rented × Store :=
  match currentUserEmail h req.authorization with
  | none => (Reply.error 401 "Unauthorized", s)
  | some email =>
    match s.users.find? (fun u => u.email == email) with
    | none => (Reply.error 401 "Unauthorized", s)
    | some currentUser =>
      match s.cars.find? (fun c => looseEq c.id req.id) with
      | none => (Reply.error 404 "Car not found", s)
      | some car =>
        let isOverlapping := s.rentals.any (overlapsRequest req.id req.startDate req.endDate)
        if isOverlapping then
          (Reply.error 400 "Car is already rented for the selected dates", s)
        else
          let days := rentalDays h req.startDate req.endDate
          let totalPrice := numMul days (numOr car.price_per_day car.pricePerDay)
          let rentalData : Rental :=
            { id := Val.str (toString now)
              carId := car.id
              userId := currentUser.id
              userEmail := email
              username := currentUser.username
              startDate := req.startDate
              endDate := req.endDate
              pickupLocation := strOr req.pickupLocation "Default Location"
              dropoffLocation := strOr req.dropoffLocation "Default Location"
              specialRequests := strOr req.specialRequests ""
              totalDays := days
              pricePerDay := car.price_per_day
              totalPrice := totalPrice
              status := "active"
              paymentInfo := req.paymentInfo
              createdAt := stamp }
          (Reply.ok 200 { rental := rentalData, car := car },
            { s with rentals := s.rentals ++ [rentalData] })

/-- File-backed branch of `cancelRental`.  The success body is the message
`Rental cancelled successfully`. -/
def cancelRental (h : Host) (s : Store) (req : CancelRequest) : Reply String × Store :=
  match currentUserEmail h req.authorization with
  | none => (Reply.error 401 "Unauthorized", s)
  | some email =>
    match findIndex (fun r => looseEq r.id req.id) s.rentals with
    | none => (Reply.error 404 "Rental not found", s)
    | some rentalIndex =>
      match s.rentals.get? rentalIndex with
      | none => (Reply.error 500 "Server error", s)
      | some rental =>
        if rental.userEmail != email then
          (Reply.error 403 "Not authorized to cancel this rental", s)
        else
          (Reply.ok 200 "Rental cancelled successfully",
            { s with rentals := s.rentals.set rentalIndex { rental with status := "cancelled" } })

/-- The record `rental` after the assignments of `updateRental`: the block
under `if (startDate && endDate)` and the one under `if (status)`. -/
def applyUpdate (h : Host) (rental : Rental) (req : UpdateRequest) : Rental :=
  let dated : Rental :=
    if truthy req.startDate && truthy req.endDate then
      let days := rentalDays h req.startDate req.endDate
      { rental with
        startDate := req.startDate
        endDate := req.endDate
        totalDays := days
        totalPrice := numMul days rental.pricePerDay }
    else rental
  if truthy req.status then { dated with status := req.status.getD "" } else dated

/-- File-backed branch of `updateRental`; the success body is the updated
rental. -/
def updateRental (h : Host) (s : Store) (req : UpdateRequest) : Reply Rental × Store :=
  match findIndex (fun r => looseEq r.id req.id) s.rentals with
  | none => (Reply.error 404 "Rental not found", s)
  | some rentalIndex =>
    match s.rentals.get? rentalIndex with
    | none => (Reply.error 500 "Server error", s)
    | some rental =>
      let updated := applyUpdate h rental req
      (Reply.ok 200 updated, { s with rentals := s.rentals.set rentalIndex updated })

/-- File-backed branch of `getAllRentals`: the content of `rentItem.json`. -/
def getAllRentals (s : Store) : Reply (List Rental) :=
  Reply.ok 200 s.rentals

/-- File-backed branch of `getUserRentals`: the rentals whose `userEmail` is
the email in the token. -/
def getUserRentals (h : Host) (s : Store) (authorization : Option String) :
    Reply (List Rental) :=
  match currentUserEmail h authorization with
  | none => Reply.error 401 "Unauthorized"
  | some email => Reply.ok 200 (s.rentals.filter (fun r => r.userEmail == email))

/-- The fields of a rental that name it, its car and its user. -/
def references (r : Rental) : Val × Val × Val × String × Option String :=
  (r.id, r.carId, r.userId, r.userEmail, r.username)

/-- The non-overlap invariant of `rentItem.json`: two rentals at different
positions that carry the same `carId` value and are both active have
non-overlapping intervals. -/
def NoOverlap (rentals : List Rental) : Prop :=
  rentals.Pairwise (fun a b =>
    a.carId = b.carId → a.status = "active" → b.status = "active" →
      datesOverlap a.startDate a.endDate b.startDate b.endDate = false)

end Json

/-! ## Document database (`USE_MONGODB=true`) -/

namespace Mongo

/-- A document of the `users` collection (`models/User.js`): `_id` is the
surrogate key, `id` the optional legacy number. -/
structure User where
  _id : String
  id : Option Int
  email : String
  username : String
  role : String
deriving DecidableEq, Repr

/-- A document of the `cars` collection (`models/Car.js`): `id` is a required
string, `price_per_day` a required number. -/
structure Car where
  _id : String
  id : String
  price_per_day : Int
deriving DecidableEq, Repr

/-- A document of the `rentals` collection (`models/Rental.js`); `carId` and
`userId` are of type `Mixed`. -/
structure Rental where
  _id : String
  id : Option String
  carId : Val
  userId : Val
  userEmail : String
  username : String
  startDate : String
  endDate : String
  pickupLocation : String
  dropoffLocation : String
  specialRequests : String
  totalDays : Int
  pricePerDay : Int
  totalPrice : Int
  status : String
  paymentInfo : Option String
  createdAt : Nat
deriving DecidableEq, Repr

/-- The three collections. -/
structure Store where
  users : List User
  cars : List Car
  rentals : List Rental
deriving DecidableEq, Repr

/-- Validators of `rentalSchema` that `save()` runs on a document: required
paths are present (a required string is not empty), `totalDays >= 1`,
`pricePerDay >= 0`, `totalPrice >= 0`, `status` in the enum. -/
def validDoc (r : Rental) : Bool :=
  r.carId != Val.undef && r.userId != Val.undef &&
  r.userEmail != "" && r.username != "" && r.startDate != "" && r.endDate != "" &&
  decide (1 ≤ r.totalDays) && decide (0 ≤ r.pricePerDay) && decide (0 ≤ r.totalPrice) &&
  (r.status == "active" || r.status == "completed" || r.status == "cancelled")

/-- Query `User.findOne({ email })`. -/
def findUserByEmail (h : Host) (s : Store) (email : String) : Option User :=
  s.users.find? (fun u => u.email == h.toLowerCase email)

/-- Car resolution of `rentItem`: by `_id` when the raw id is a valid
`ObjectId`, otherwise by the `id` field, first with the raw string and then
with `parseInt(id)` (cast to a string by the schema). -/
def findCar (h : Host) (s : Store) (id : String) : Option Car :=
  match h.toObjectId id with
  | some key => s.cars.find? (fun c => c._id == key)
  | none =>
    match s.cars.find? (fun c => c.id == id) with
    | some car => some car
    | none => s.cars.find? (fun c => c.id == numToString (parseInt id))

/-- The filter
`{ carId, status: "active", $or: [{ startDate: { $lte: endDate }, endDate: { $gte: startDate } }] }`
applied to one document; `carId` is matched by type and value. -/
def overlapQuery (carId : Val) (startDate endDate : Option String) (r : Rental) : Bool :=
  r.carId == carId &&
  r.status == "active" &&
  bsonLte r.startDate endDate &&
  bsonGte r.endDate startDate

/-- Document-database branch of `checkCarAvailability`. -/
def checkCarAvailability (s : Store) (id : String) (startDate endDate : Option String) :
    Reply Json.Availability :=
  if startDate.getD "" == "" || endDate.getD "" == "" then
    Reply.error 400 "Start date and end date are required"
  else
    let isOverlapping := s.rentals.find? (overlapQuery (Val.str id) startDate endDate)
    Reply.ok 200 { available := isOverlapping.isNone, carId := id }

/-- Body of a successful `rentItem` reply: the rental joined with its car. -/
structure Rented where
  rental : Rental
  car : Car
deriving DecidableEq, Repr

/-- The document `new Rental({ ... })` of `rentItem` after casting, `none` when
a path cannot be cast or a required path is missing (`save()` then rejects). -/
def newRental (newId : String) (now stamp : Nat) (car : Car) (currentUser : User)
    (email : String) (req : RentRequest) (days : Option Int) : Option Rental :=
  let pricePerDay := numOr (some car.price_per_day) none
  let totalPrice := numMul days pricePerDay
  match req.startDate, req.endDate, days, pricePerDay, totalPrice with
  | some startDate, some endDate, some totalDays, some perDay, some total =>
    some
      { _id := newId
        id := some (toString now)
        carId := if car.id != "" then Val.str car.id else Val.oid car._id
        userId :=
          match currentUser.id with
          | some n => if n = 0 then Val.oid currentUser._id else Val.num n
          | none => Val.oid currentUser._id
        userEmail := strOr (some currentUser.email) email
        username := currentUser.username
        startDate := startDate
        endDate := endDate
        pickupLocation := strOr req.pickupLocation "Default Location"
        dropoffLocation := strOr req.dropoffLocation "Default Location"
        specialRequests := strOr req.specialRequests ""
        totalDays := totalDays
        pricePerDay := perDay
        totalPrice := total
        status := "active"
        paymentInfo := req.paymentInfo
        createdAt := stamp }
  | _, _, _, _, _ => none

/-- Method `rental.save()` for a new document: the validators run and the
unique index on `id` is checked; `none` when it throws. -/
def insertRental (s : Store) (doc : Option Rental) : Option Store :=
  match doc with
  | none => none
  | some r =>
    if validDoc r && !(s.rentals.any (fun x => x.id.isSome && x.id == r.id)) then
      some { s with rentals := s.rentals ++ [r] }
    else none

/-- Document-database branch of `rentItem`.  `newId` is the `ObjectId` the
driver gives the new document, `now` the value of `Date.now()` that becomes
its `id`, `stamp` the default of `createdAt`. -/
def rentItem (h : Host) (now stamp : Nat) (newId : String) (s : Store) (req : RentRequest) :
    Reply Rented × Store :=
  match currentUserEmail h req.authorization with
  | none => (Reply.error 401 "Unauthorized", s)
  | some email =>
    match findUserByEmail h s email with
    | none => (Reply.error 401 "Unauthorized", s)
    | some currentUser =>
      match findCar h s req.id with
      | none => (Reply.error 404 "Car not found", s)
      | some car =>
        let carIdForLookup := Val.oid car._id
        let isOverlapping := s.rentals.find? (overlapQuery carIdForLookup req.startDate req.endDate)
        if isOverlapping.isSome then
          (Reply.error 400 "Car is already rented for the selected dates", s)
        else
          let days := rentalDays h req.startDate req.endDate
          let rental := newRental newId now stamp car currentUser email req days
          match rental, insertRental s rental with
          | some doc, some s2 => (Reply.ok 200 { rental := doc, car := car }, s2)
          | _, _ => (Reply.error 500 "Server error", s)

/-- What `rentItem` has decided when it reaches `await rental.save()`: a reply
already sent, or the document to save together with the resolved car. -/
inductive Prepared where
  | reply (r : Reply Rented) : Prepared
  | save (doc : Option Rental) (car : Car) : Prepared
deriving DecidableEq, Repr

/-- The part of `rentItem` that only reads the database: authentication, car
resolution, the overlap query `await Rental.findOne(...)`, pricing and
`new Rental(...)`. -/
def rentItemPrepare (h : Host) (now stamp : Nat) (newId : String) (s : Store)
    (req : RentRequest) : Prepared :=
  match currentUserEmail h req.authorization with
  | none => Prepared.reply (Reply.error 401 "Unauthorized")
  | some email =>
    match findUserByEmail h s email with
    | none => Prepared.reply (Reply.error 401 "Unauthorized")
    | some currentUser =>
      match findCar h s req.id with
      | none => Prepared.reply (Reply.error 404 "Car not found")
      | some car =>
        let carIdForLookup := Val.oid car._id
        let isOverlapping := s.rentals.find? (overlapQuery carIdForLookup req.startDate req.endDate)
        if isOverlapping.isSome then
          Prepared.reply (Reply.error 400 "Car is already rented for the selected dates")
        else
          let days := rentalDays h req.startDate req.endDate
          Prepared.save (newRental newId now stamp car currentUser email req days) car

/-- The part of `rentItem` that writes: `await rental.save()` against the
database as it is at that moment, and the reply. -/
def rentItemCommit (s : Store) : Prepared → Reply Rented × Store
  | Prepared.reply r => (r, s)
  | Prepared.save doc car =>
    match doc, insertRental s doc with
    | some d, some s2 => (Reply.ok 200 { rental := d, car := car }, s2)
    | _, _ => (Reply.error 500 "Server error", s)

/-- Rental resolution of `cancelRental` and `updateRental`: position of the
document found by `_id` (when the raw id is a valid `ObjectId`), else by the
`id` field with the raw string, else with `parseInt` of it. -/
def findRentalIndex (h : Host) (s : Store) (id : String) : Option Nat :=
  let byKey :=
    match h.toObjectId id with
    | some key => findIndex (fun (r : Rental) => r._id == key) s.rentals
    | none => none
  match byKey with
  | some i => some i
  | none =>
    match findIndex (fun (r : Rental) => r.id == some id) s.rentals with
    | some i => some i
    | none => findIndex (fun (r : Rental) => r.id == some (numToString (parseInt id))) s.rentals

/-- The JavaScript expression `rentalUserId === currentUserId`, where
`currentUserId` is the `ObjectId` object of the user document just loaded: a
number or string is not an object, and an `ObjectId` held by another document
is another object, so the comparison is false. -/
def sameObject (_rentalUserId : Val) (_currentUserId : String) : Bool :=
  false

/-- Document-database branch of `cancelRental`.  `currentUserId` is
`user._id || user.id`, that is `user._id`; a throwing `toString()` and a
rejected `save()` end in the `catch` clause (500). -/
def cancelRental (h : Host) (s : Store) (req : CancelRequest) : Reply String × Store :=
  match currentUserEmail h req.authorization with
  | none => (Reply.error 401 "Unauthorized", s)
  | some email =>
    match findUserByEmail h s email with
    | none => (Reply.error 401 "Unauthorized", s)
    | some user =>
      match findRentalIndex h s req.id with
      | none => (Reply.error 404 "Rental not found", s)
      | some i =>
        match s.rentals.get? i with
        | none => (Reply.error 404 "Rental not found", s)
        | some rental =>
          let currentUserId := user._id
          let isAuthorized : Option Bool :=
            if user.role == "admin" then some true
            else
              match valToString rental.userId with
              | none => none
              | some rentalUserId =>
                some (rentalUserId == currentUserId ||
                  sameObject rental.userId currentUserId ||
                  rental.userEmail == email)
          match isAuthorized with
          | none => (Reply.error 500 "Server error", s)
          | some false => (Reply.error 403 "Not authorized to cancel this rental", s)
          | some true =>
            let updated := { rental with status := "cancelled" }
            if validDoc updated then
              (Reply.ok 200 "Rental cancelled successfully",
                { s with rentals := s.rentals.set i updated })
            else (Reply.error 500 "Server error", s)

/-- Outcome of a query that may throw. -/
inductive Lookup (α : Type) where
  | threw : Lookup α
  | missing : Lookup α
  | found (doc : α) : Lookup α
deriving DecidableEq, Repr

/-- Car resolution of `updateRental`:
`ObjectId.isValid(rental.carId) ? Car.findById(rental.carId) : Car.findOne({ id: rental.carId })`.
A string is valid when the host converts it; an `ObjectId` is valid; a number
is valid, and `findById` casts it through its string form, which throws when
that is no `ObjectId`; `undefined` is not valid and matches no `id`. -/
def carOfRental (h : Host) (s : Store) (carId : Val) : Lookup Car :=
  let byKey (key : String) : Lookup Car :=
    match s.cars.find? (fun c => c._id == key) with
    | some car => Lookup.found car
    | none => Lookup.missing
  match carId with
  | Val.oid key => byKey key
  | Val.str raw =>
    match h.toObjectId raw with
    | some key => byKey key
    | none =>
      match s.cars.find? (fun c => c.id == raw) with
      | some car => Lookup.found car
      | none => Lookup.missing
  | Val.num n =>
    match h.toObjectId (toString n) with
    | some key => byKey key
    | none => Lookup.threw
  | Val.undef => Lookup.missing

/-- Document-database branch of `updateRental`.  `populate("carId")` does
nothing on a `Mixed` path without `ref`; a rejected `save()` and a throwing
query end in the `catch` clause (500). -/
def updateRental (h : Host) (s : Store) (req : UpdateRequest) : Reply Rental × Store :=
  match findRentalIndex h s req.id with
  | none => (Reply.error 404 "Rental not found", s)
  | some i =>
    match s.rentals.get? i with
    | none => (Reply.error 404 "Rental not found", s)
    | some rental =>
      let dated : Lookup (Option Rental) :=
        if truthy req.startDate && truthy req.endDate then
          let days := rentalDays h req.startDate req.endDate
          match carOfRental h s rental.carId with
          | Lookup.threw => Lookup.threw
          | Lookup.missing => Lookup.missing
          | Lookup.found car =>
            match days with
            | none => Lookup.found none
            | some d =>
              Lookup.found (some
                { rental with
                  startDate := req.startDate.getD ""
                  endDate := req.endDate.getD ""
                  totalDays := d
                  totalPrice := d * car.price_per_day })
        else Lookup.found (some rental)
      match dated with
      | Lookup.threw => (Reply.error 500 "Server error", s)
      | Lookup.missing => (Reply.error 404 "Associated car not found", s)
      | Lookup.found none => (Reply.error 500 "Server error", s)
      | Lookup.found (some doc) =>
        let updated := if truthy req.status then { doc with status := req.status.getD "" } else doc
        if validDoc updated then
          (Reply.ok 200 updated, { s with rentals := s.rentals.set i updated })
        else (Reply.error 500 "Server error", s)

/-- A rental joined with its car (`null` = `none`). -/
structure RentalWithCar where
  rental : Rental
  car : Option Car
deriving DecidableEq, Repr

/-- A rental joined with its car and its user (the user document is selected
without `passwordHash`, which the model does not carry). -/
structure RentalWithCarUser where
  rental : Rental
  car : Option Car
  user : User
deriving DecidableEq, Repr

/-- Query `Car.findOne({ id })`. -/
def carByLegacyId (s : Store) (id : String) : Option Car :=
  s.cars.find? (fun c => c.id == id)

/-- Query `Car.findById(key)` with `key` already an `ObjectId`. -/
def carByKey (s : Store) (key : String) : Option Car :=
  s.cars.find? (fun c => c._id == key)

/-- The JavaScript expression `a || b` on two optional documents. -/
def orElseDoc {α : Type} (a b : Option α) : Option α :=
  match a with
  | some x => some x
  | none => b

/-- Car lookup of `getUserRentals`:
`isValid(carId) ? findById(carId) : findOne({ id: carId }) || findOne({ id: parseInt(carId) })`.
A numeric `carId` is valid, and `findById` casts it through its string form,
which throws when that is no `ObjectId`. -/
def carForUserListing (h : Host) (s : Store) (carId : Val) : Lookup Car :=
  let wrap (c : Option Car) : Lookup Car :=
    match c with
    | some car => Lookup.found car
    | none => Lookup.missing
  match carId with
  | Val.oid key => wrap (carByKey s key)
  | Val.str raw =>
    match h.toObjectId raw with
    | some key => wrap (carByKey s key)
    | none =>
      wrap (orElseDoc (carByLegacyId s raw) (carByLegacyId s (numToString (parseInt raw))))
  | Val.num n =>
    match h.toObjectId (toString n) with
    | some key => wrap (carByKey s key)
    | none => Lookup.threw
  | Val.undef => Lookup.missing

/-- The filter of `getUserRentals`,
`$or: [{ userId: user._id }, { userId: user.id }, { userId: parseInt(user.id) }, { userEmail }]`,
applied to one rental; `userId` is matched by type and value, and an absent
`user.id` is sent as `null`, which matches an absent `userId`. -/
def ownedBy (user : User) (email : String) (r : Rental) : Bool :=
  r.userId == Val.oid user._id ||
  (match user.id with
    | some n => r.userId == Val.num n
    | none => r.userId == Val.undef) ||
  (match user.id with
    | some n => r.userId == Val.num n
    | none => false) ||
  r.userEmail == email

/-- All joins of a listing, `none` as soon as one lookup throws
(`Promise.all` rejects). -/
def joinAll (h : Host) (s : Store) : List Rental → Option (List RentalWithCar)
  | [] => some []
  | r :: rs =>
    match carForUserListing h s r.carId, joinAll h s rs with
    | Lookup.threw, _ => none
    | _, none => none
    | Lookup.missing, some rest => some ({ rental := r, car := none } :: rest)
    | Lookup.found car, some rest => some ({ rental := r, car := some car } :: rest)

/-- Document-database branch of `getUserRentals`. -/
def getUserRentals (h : Host) (s : Store) (authorization : Option String) :
    Reply (List RentalWithCar) :=
  match currentUserEmail h authorization with
  | none => Reply.error 401 "Unauthorized"
  | some email =>
    match findUserByEmail h s email with
    | none => Reply.error 401 "Unauthorized"
    | some user =>
      let rentals := s.rentals.filter (ownedBy user email)
      match joinAll h s rentals with
      | none => Reply.error 500 "Server error"
      | some rentalsWithCars => Reply.ok 200 rentalsWithCars

/-- Car lookup of `getAllRentals`: nothing for a falsy `carId`; `findById` for
a string that is a valid `ObjectId`; otherwise the `id` field is searched
with the string form of `carId` and then with `parseInt` of it. -/
def carForAdminListing (h : Host) (s : Store) (carId : Val) : Option Car :=
  if !valTruthy carId then none
  else
    let byId (text : String) : Option Car :=
      orElseDoc (carByLegacyId s text) (carByLegacyId s (numToString (parseInt text)))
    match carId with
    | Val.str raw =>
      match h.toObjectId raw with
      | some key => carByKey s key
      | none => byId raw
    | Val.oid key => byId key
    | Val.num n => byId (toString n)
    | Val.undef => none

/-- Query `User.findOne({ id: n })` on the numeric `id` of the user schema. -/
def userByLegacyId (s : Store) (n : Int) : Option User :=
  s.users.find? (fun u => u.id == some n)

/-- Query `User.findById(key)` with `key` already an `ObjectId`. -/
def userByKey (s : Store) (key : String) : Option User :=
  s.users.find? (fun u => u._id == key)

/-- Steps 1 and 2 of the user lookup of `getAllRentals` for a truthy `userId`:
the `ObjectId` lookup (whose failure is caught) and the lookup by the custom
`id` field.  `Lookup.threw` stands for the `CastError` that `User.findOne`
raises when the value is no number (a string or an `ObjectId` whose text is
`NaN` as a number); it is caught by the `catch` around the whole rental,
which skips the rental. -/
def userByReference (h : Host) (s : Store) (userId : Val) : Lookup User :=
  let byObjectId : Option User :=
    match userId with
    | Val.oid key => userByKey s key
    | Val.str raw =>
      match h.toObjectId raw with
      | some key => userByKey s key
      | none => none
    | Val.num n =>
      match h.toObjectId (toString n) with
      | some key => userByKey s key
      | none => none
    | Val.undef => none
  match byObjectId with
  | some user => Lookup.found user
  | none =>
    match userId with
    | Val.num n =>
      match userByLegacyId s n with
      | some user => Lookup.found user
      | none => Lookup.missing
    | Val.str raw =>
      if !stringIsNaN raw then
        match parseInt raw with
        | some n =>
          match userByLegacyId s n with
          | some user => Lookup.found user
          | none => Lookup.missing
        | none => Lookup.threw
      else Lookup.threw
    | Val.oid key =>
      if stringIsNaN key then Lookup.threw
      else
        match (stringToNumber key).bind (userByLegacyId s) with
        | some user => Lookup.found user
        | none => Lookup.missing
    | Val.undef => Lookup.missing

/-- What the loop body of `getAllRentals` pushes for one rental: the joined
view, or nothing when no user is found or an error is caught. -/
def adminView (h : Host) (s : Store) (r : Rental) : Option RentalWithCarUser :=
  let carData := carForAdminListing h s r.carId
  let byId : Lookup User :=
    if valTruthy r.userId then userByReference h s r.userId else Lookup.missing
  match byId with
  | Lookup.threw => none
  | Lookup.found user => some { rental := r, car := carData, user := user }
  | Lookup.missing =>
    if r.userEmail != "" then
      match findUserByEmail h s r.userEmail with
      | some user => some { rental := r, car := carData, user := user }
      | none => none
    else none

/-- Document-database branch of `getAllRentals`. -/
def getAllRentals (h : Host) (s : Store) : Reply (List RentalWithCarUser) :=
  Reply.ok 200 (s.rentals.filterMap (adminView h s))

/-! ### Reviews (`controllers/reviewController.js`) -/

/-- A document of the `reviews` collection (`models/Review.js`). -/
structure Review where
  _id : String
  carId : Val
  userId : Val
  rentalId : Val
  rating : Int
  comment : String
  username : String
  updatedAt : Nat
deriving DecidableEq, Repr

/-- Request of `updateReview`: the path parameter `id`, the user the `protect`
middleware put in `req.user`, and the body fields `rating` and `comment`
(`none` = `undefined`).  The model covers the bodies whose `rating` is an
integer number and whose `comment` is a string. -/
structure UpdateReviewRequest where
  id : String
  user : User
  rating : Option Int
  comment : Option String
deriving DecidableEq, Repr

/-- Validators of `reviewSchema` that `save()` runs: the required paths are
present, `1 <= rating <= 5`, `comment` has at most 500 code units. -/
def validReview (r : Review) : Bool :=
  decide (1 ≤ r.rating) && decide (r.rating ≤ 5) &&
  r.carId != Val.undef && r.userId != Val.undef && r.rentalId != Val.undef &&
  decide ((codeUnits r.comment).length ≤ 500) && r.username != ""

/-- The string form of `req.user.id || req.user._id`. -/
def reviewerId (user : User) : String :=
  match user.id with
  | some n => if n != 0 then toString n else user._id
  | none => user._id

/-- The test `rating && (rating < 1 || rating > 5)` of `updateReview`. -/
def ratingRejected (rating : Option Int) : Bool :=
  match rating with
  | some r => r != 0 && (decide (r < 1) || decide (5 < r))
  | none => false

/-- Handler `updateReview`.  `now` is the value of `Date.now()` in the
`pre("save")` hook.  An `id` that is no `ObjectId`, a throwing `toString()`
and a rejected `save()` end in the `catch` clause (500).  The success body is
the saved review. -/
def updateReview (h : Host) (now : Nat) (reviews : List Review) (req : UpdateReviewRequest) :
    Reply Review × List Review :=
  let userId := reviewerId req.user
  match h.toObjectId req.id with
  | none => (Reply.error 500 "Server error", reviews)
  | some key =>
    match findIndex (fun r => r._id == key) reviews with
    | none => (Reply.error 404 "Review not found", reviews)
    | some i =>
      match reviews.get? i with
      | none => (Reply.error 404 "Review not found", reviews)
      | some review =>
        match valToString review.userId with
        | none => (Reply.error 500 "Server error", reviews)
        | some owner =>
          if owner != userId then
            (Reply.error 403 "You can only update your own reviews", reviews)
          else if ratingRejected req.rating then
            (Reply.error 400 "Rating must be between 1 and 5", reviews)
          else
            let rated : Review :=
              match req.rating with
              | some r => { review with rating := r }
              | none => review
            let commented : Review :=
              match req.comment with
              | some c => { rated with comment := String.mk (trimWs c.data) }
              | none => rated
            let saved : Review := { commented with updatedAt := now }
            if validReview saved then (Reply.ok 200 saved, reviews.set i saved)
            else (Reply.error 500 "Server error", reviews)

/-! ### Catalogue (`controllers/itemController.js`) -/

/-- The body of `POST /items`, with the fields that the handler reads or the
schema requires (`none` = absent).  The model covers the bodies whose fields
have the type the schema declares. -/
structure CarData where
  id : Option String
  make : Option String
  model : Option String
  year : Option Int
  body_type : Option String
  seats : Option Int
  transmission : Option String
  fuel_type : Option String
  price_per_day : Option Int
deriving DecidableEq, Repr

/-- A document of the `cars` collection with the required paths of
`models/Car.js`. -/
structure CarDoc where
  _id : String
  id : String
  make : String
  model : String
  year : Int
  body_type : String
  seats : Int
  transmission : String
  fuel_type : String
  price_per_day : Int
deriving DecidableEq, Repr

/-- String method `trim`. -/
def jsTrim (s : String) : String :=
  String.mk (trimWs s.data)

/-- Query `Car.findOne({ id })`. -/
def findCarDocById (cars : List CarDoc) (id : String) : Option CarDoc :=
  cars.find? (fun c => c.id == id)

/-- Query `Car.findOne({ make, model, year })`: the schema trims the two
strings of the filter; an absent value is sent as `null`, which no document
matches since the three paths are required. -/
def findCarDocBySpecs (cars : List CarDoc) (carData : CarData) : Option CarDoc :=
  match carData.make, carData.model, carData.year with
  | some make, some model, some year =>
    cars.find? (fun c => c.make == jsTrim make && c.model == jsTrim model && c.year == year)
  | _, _, _ => none

/-- The document `Car.create(carData)` builds, after the setters (`trim`,
lower case of `transmission`); `none` when a required path is absent. -/
def buildCarDoc (h : Host) (newId : String) (carData : CarData) : Option CarDoc :=
  match carData.id, carData.make, carData.model, carData.year, carData.body_type,
    carData.seats, carData.transmission, carData.fuel_type, carData.price_per_day with
  | some id, some make, some model, some year, some body_type, some seats, some transmission,
    some fuel_type, some price_per_day =>
    some
      { _id := newId
        id := id
        make := jsTrim make
        model := jsTrim model
        year := year
        body_type := jsTrim body_type
        seats := seats
        transmission := if transmission != "" then h.toLowerCase transmission else transmission
        fuel_type := jsTrim fuel_type
        price_per_day := price_per_day }
  | _, _, _, _, _, _, _, _, _ => none

/-- Validators of `carSchema` on the required paths: the strings are not
empty, `year >= 1900`, `seats >= 1`, `price_per_day >= 0`. -/
def validCarDoc (c : CarDoc) : Bool :=
  c.id != "" && c.make != "" && c.model != "" && decide (1900 ≤ c.year) &&
  c.body_type != "" && decide (1 ≤ c.seats) && c.transmission != "" &&
  c.fuel_type != "" && decide (0 ≤ c.price_per_day)

/-- Document-database branch of `addItem`.  `newId` is the `ObjectId` of the
new document and `describe` the text the library gives the validation errors
of a body.  The success body is the created document. -/
def addItem (h : Host) (describe : CarData → String) (newId : String) (cars : List CarDoc)
    (carData : CarData) : Reply CarDoc × List CarDoc :=
  let givenId := carData.id.getD ""
  if givenId != "" && (findCarDocById cars givenId).isSome then
    (Reply.error 409
      ("Car with ID \x22" ++ givenId ++ "\x22 already exists. Please use a different ID."), cars)
  else if (findCarDocBySpecs cars carData).isSome then
    (Reply.error 409
      ("Car \x22" ++ (match carData.year with
          | some y => toString y
          | none => "undefined") ++ " " ++ carData.make.getD "undefined" ++ " " ++
        carData.model.getD "undefined" ++ "\x22 already exists."), cars)
  else
    match buildCarDoc h newId carData with
    | none => (Reply.error 400 ("Validation Error: " ++ describe carData), cars)
    | some car =>
      if !validCarDoc car then
        (Reply.error 400 ("Validation Error: " ++ describe carData), cars)
      else if cars.any (fun c => c.id == car.id) then
        (Reply.error 409
          ("Car with id \x22" ++ car.id ++ "\x22 already exists. Please use a different value."),
          cars)
      else (Reply.ok 201 car, cars ++ [car])

end Mongo

/-! ## Sample data used to instantiate the statements -/

/-- A host that accepts three tokens, knows no other date format and takes the
strings of 24 hex digits as `ObjectId`s. -/
def sampleHost : Host :=
  { jwtEmail := fun t =>
      if t == "tok-alice" then some "alice@example.com"
      else if t == "tok-root" then some "root@example.com"
      else if t == "tok-carol" then some "carol@example.com" else none
    dateParseOther := fun _ => none
    toObjectId := fun s =>
      if s.data.length == 24 && s.data.all (fun c => (digitVal 16 c).isSome) then
        some (String.mk (s.data.map Char.toLower))
      else none
    toLowerCase := fun s => String.mk (s.data.map Char.toLower) }

namespace Json

/-- An ordinary user. -/
def alice : User :=
  { id := Val.num 1, email := "alice@example.com", username := some "alice", role := "user" }

/-- An administrator. -/
def root : User :=
  { id := Val.num 2, email := "root@example.com", username := some "root", role := "admin" }

/-- A car with legacy numeric id 7 at 50 per day. -/
def car7 : Car :=
  { id := Val.num 7, price_per_day := some 50, pricePerDay := none }

/-- A car offered for free. -/
def freeCar : Car :=
  { id := Val.num 8, price_per_day := some 0, pricePerDay := none }

/-- An active booking of car 7 by alice, 1 to 5 January 2024. -/
def booking1 : Rental :=
  { id := Val.str "1700000000000", carId := Val.num 7, userId := Val.num 1,
    userEmail := "alice@example.com", username := some "alice",
    startDate := some "2024-01-01", endDate := some "2024-01-05",
    pickupLocation := "Default Location", dropoffLocation := "Default Location",
    specialRequests := "", totalDays := some 4, pricePerDay := some 50,
    totalPrice := some 200, status := "active", paymentInfo := none,
    createdAt := 1700000000000 }

/-- A store with two users, two cars and no rental. -/
def emptyStore : Store :=
  { users := [alice, root], cars := [car7, freeCar], rentals := [] }

/-- A store with two users, two cars and one active rental. -/
def store1 : Store :=
  { users := [alice, root], cars := [car7, freeCar], rentals := [booking1] }

/-- A booking request by alice for car 7 that carries no dates. -/
def datelessRequest : RentRequest :=
  { authorization := some "Bearer tok-alice", id := "7", startDate := none, endDate := none,
    pickupLocation := none, dropoffLocation := none, specialRequests := none,
    paymentInfo := none }

/-- The rental `rentItem` stores for `datelessRequest`. -/
def datelessBooking : Rental :=
  { booking1 with
    startDate := none, endDate := none, totalDays := none, totalPrice := none }

/-- The store after `datelessRequest`. -/
def datelessStore : Store :=
  { users := [alice, root], cars := [car7, freeCar], rentals := [datelessBooking] }

/-- The store after the cancellation of `datelessBooking`. -/
def datelessCancelled : Store :=
  { users := [alice, root], cars := [car7, freeCar],
    rentals := [{ datelessBooking with status := "cancelled" }] }

/-- A second car, whose id is the string `07`. -/
def car07 : Car :=
  { id := Val.str "07", price_per_day := some 50, pricePerDay := none }

/-- The booking of car `07` by alice, 1 to 5 January 2024. -/
def booking07 : Rental :=
  { booking1 with
    id := Val.str "1700000000001", carId := Val.str "07", createdAt := 1700000000001 }

/-- The booking of car 7 by alice, 3 to 8 January 2024. -/
def booking7 : Rental :=
  { booking1 with
    id := Val.str "1700000000002", startDate := some "2024-01-03",
    endDate := some "2024-01-08", totalDays := some 5, totalPrice := some 250,
    createdAt := 1700000000002 }

/-- A store with the cars `07` and 7 and the given rentals. -/
def mixedStore (rentals : List Rental) : Store :=
  { users := [alice, root], cars := [car07, car7], rentals := rentals }

/-- Car 7 after its rate was raised to 80 per day. -/
def car7at80 : Car :=
  { id := Val.num 7, price_per_day := some 80, pricePerDay := none }

/-- The store `store1` after the rate of car 7 was raised. -/
def raisedStore : Store :=
  { users := [alice, root], cars := [car7at80, freeCar], rentals := [booking1] }

/-- The store `store1` after every car was deleted. -/
def danglingStore : Store :=
  { users := [alice, root], cars := [], rentals := [booking1] }

/-- The rental `booking1` moved to 1 to 3 February 2024 by the file-backed
`updateRental`. -/
def movedBooking : Rental :=
  { booking1 with
    startDate := some "2024-02-01", endDate := some "2024-02-03",
    totalDays := some 2, totalPrice := some 100 }

/-- The rental the file-backed `rentItem` stores for the free car, 1 to 4
March 2024. -/
def freeBooking : Rental :=
  { booking1 with
    id := Val.str "1700000000001", carId := Val.num 8, startDate := some "2024-03-01",
    endDate := some "2024-03-04", totalDays := some 3, pricePerDay := some 0,
    totalPrice := none, createdAt := 1700000000001 }

/-- An active booking of car 7 by alice, 1 to 3 February 2024. -/
def febBooking : Rental :=
  { booking1 with
    id := Val.str "1700000000009", startDate := some "2024-02-01",
    endDate := some "2024-02-03", totalDays := some 2, totalPrice := some 100,
    createdAt := 1700000000009 }

/-- A store with the January and the February booking of car 7. -/
def twoStore : Store :=
  { users := [alice, root], cars := [car7, freeCar], rentals := [booking1, febBooking] }

/-- The February booking as `rentItem` stores it when `Date.now()` returns the
value it returned for `booking1`. -/
def clashBooking : Rental :=
  { febBooking with id := Val.str "1700000000000", createdAt := 1700000000000 }

/-- A store whose only rental has the given status. -/
def storeWithStatus (status : String) : Store :=
  { users := [alice, root], cars := [car7, freeCar],
    rentals := [{ booking1 with status := status }] }

/-- The stored prices agree: `totalPrice = totalDays * pricePerDay`. -/
def priceConsistent (r : Rental) : Prop :=
  r.totalPrice = numMul r.totalDays r.pricePerDay

/-- The status is one of `active`, `completed`, `cancelled`. -/
def statusInDomain (r : Rental) : Prop :=
  r.status = "active" ∨ r.status = "completed" ∨ r.status = "cancelled"

/-- A user whose email was `carol@old.example.com` when she booked. -/
def carol : User :=
  { id := Val.num 3, email := "carol@example.com", username := some "carol", role := "user" }

/-- An active booking of car 7 made by carol under her former email. -/
def carolBooking : Rental :=
  { booking1 with
    id := Val.str "1700000000005", userId := Val.num 3,
    userEmail := "carol@old.example.com", username := some "carol",
    startDate := some "2024-02-01", endDate := some "2024-02-03", totalDays := some 2,
    totalPrice := some 100, createdAt := 1700000000005 }

/-- A store with three users and the bookings of alice and carol. -/
def store3 : Store :=
  { users := [alice, root, carol], cars := [car7, freeCar], rentals := [booking1, carolBooking] }

/-- A booking of car 7 whose account no longer exists. -/
def ghostBooking : Rental :=
  { booking1 with
    id := Val.str "1700000000009", userId := Val.num 99,
    userEmail := "ghost@example.com", username := some "ghost",
    startDate := some "2024-03-01", endDate := some "2024-03-03", totalDays := some 2,
    totalPrice := some 100, createdAt := 1700000000009 }

/-- A store where the second rental belongs to no user. -/
def ghostStore : Store :=
  { users := [alice, root], cars := [car7, freeCar], rentals := [booking1, ghostBooking] }

end Json

namespace Mongo

/-- An ordinary user without legacy id. -/
def alice : User :=
  { _id := "64b000000000000000000001", id := none, email := "alice@example.com",
    username := "alice", role := "user" }

/-- An administrator. -/
def root : User :=
  { _id := "64b000000000000000000002", id := none, email := "root@example.com",
    username := "root", role := "admin" }

/-- A car with legacy id `7` at 50 per day. -/
def car7 : Car :=
  { _id := "64c000000000000000000007", id := "7", price_per_day := 50 }

/-- A car offered for free. -/
def freeCar : Car :=
  { _id := "64c000000000000000000008", id := "8", price_per_day := 0 }

/-- A database with two users, two cars and no rental. -/
def emptyStore : Store :=
  { users := [alice, root], cars := [car7, freeCar], rentals := [] }

/-- An active booking of car 7 by alice, 1 to 5 January 2024, as `rentItem`
stores it. -/
def booking1 : Rental :=
  { _id := "64d000000000000000000001", id := some "1700000000001",
    carId := Val.str "7", userId := Val.oid "64b000000000000000000001",
    userEmail := "alice@example.com", username := "alice",
    startDate := "2024-01-01", endDate := "2024-01-05",
    pickupLocation := "Default Location", dropoffLocation := "Default Location",
    specialRequests := "", totalDays := 4, pricePerDay := 50, totalPrice := 200,
    status := "active", paymentInfo := none, createdAt := 1700000000001 }

/-- An active booking of car 7 by alice, 3 to 8 January 2024, as `rentItem`
stores it. -/
def booking2 : Rental :=
  { _id := "64d000000000000000000002", id := some "1700000000002",
    carId := Val.str "7", userId := Val.oid "64b000000000000000000001",
    userEmail := "alice@example.com", username := "alice",
    startDate := "2024-01-03", endDate := "2024-01-08",
    pickupLocation := "Default Location", dropoffLocation := "Default Location",
    specialRequests := "", totalDays := 5, pricePerDay := 50, totalPrice := 250,
    status := "active", paymentInfo := none, createdAt := 1700000000002 }

/-- The database after the first booking. -/
def store1 : Store :=
  { users := [alice, root], cars := [car7, freeCar], rentals := [booking1] }

/-- Car 7 after its rate was raised to 80 per day. -/
def car7at80 : Car :=
  { _id := "64c000000000000000000007", id := "7", price_per_day := 80 }

/-- The database `store1` after the rate of car 7 was raised. -/
def raisedStore : Store :=
  { users := [alice, root], cars := [car7at80, freeCar], rentals := [booking1] }

/-- The database `store1` after every car was deleted. -/
def danglingStore : Store :=
  { users := [alice, root], cars := [], rentals := [booking1] }

/-- The rental `booking1` moved to 1 to 3 February 2024 by the
document-database `updateRental` once car 7 costs 80 per day. -/
def movedBooking : Rental :=
  { booking1 with
    startDate := "2024-02-01", endDate := "2024-02-03", totalDays := 2, totalPrice := 160 }

/-- A car whose legacy id is a string of 24 hex digits. -/
def hexCar : Car :=
  { _id := "64c000000000000000000009", id := "aaaaaaaaaaaaaaaaaaaaaaaa", price_per_day := 50 }

/-- A database whose only car is `hexCar`. -/
def hexStore : Store :=
  { users := [alice, root], cars := [hexCar], rentals := [] }

/-- An active booking of car 7 whose `carId` is the surrogate key of the car,
as the migration script writes it. -/
def migratedBooking : Rental :=
  { booking1 with carId := Val.oid "64c000000000000000000007" }

/-- A database whose only rental is `migratedBooking`. -/
def migratedStore : Store :=
  { users := [alice, root], cars := [car7, freeCar], rentals := [migratedBooking] }

/-- An active booking of car 7 by alice, 1 to 3 February 2024. -/
def febBooking : Rental :=
  { booking1 with
    _id := "64d000000000000000000009", id := some "1700000000009",
    startDate := "2024-02-01", endDate := "2024-02-03", totalDays := 2, totalPrice := 100,
    createdAt := 1700000000009 }

/-- A database with the January and the February booking of car 7. -/
def twoStore : Store :=
  { users := [alice, root], cars := [car7, freeCar], rentals := [booking1, febBooking] }

/-- A database whose only rental has the given status. -/
def storeWithStatus (status : String) : Store :=
  { users := [alice, root], cars := [car7, freeCar],
    rentals := [{ booking1 with status := status }] }

/-- The stored prices agree: `totalPrice = totalDays * pricePerDay`. -/
def priceConsistent (r : Rental) : Prop :=
  r.totalPrice = r.totalDays * r.pricePerDay

/-- The status is one of `active`, `completed`, `cancelled`. -/
def statusInDomain (r : Rental) : Prop :=
  r.status = "active" ∨ r.status = "completed" ∨ r.status = "cancelled"

/-- A user with legacy id 5 whose email was `carol@old.example.com` when she
booked. -/
def carol : User :=
  { _id := "64b000000000000000000003", id := some 5, email := "carol@example.com",
    username := "carol", role := "user" }

/-- An active booking of car 7 as `rentItem` stored it for carol under her
former email: `userId` is her legacy id. -/
def carolBooking : Rental :=
  { booking1 with
    _id := "64d000000000000000000005", id := some "1700000000005", userId := Val.num 5,
    userEmail := "carol@old.example.com", username := "carol",
    startDate := "2024-02-01", endDate := "2024-02-03", totalDays := 2,
    totalPrice := 100, createdAt := 1700000000005 }

/-- A database with three users and the bookings of alice and carol. -/
def store3 : Store :=
  { users := [alice, root, carol], cars := [car7, freeCar], rentals := [booking1, carolBooking] }

/-- The rental's `userId` is an identifier of the user: its string form is
the surrogate key, or it is the legacy id as a number or as a string. -/
def refersTo (userId : Val) (u : User) : Bool :=
  valToString userId == some u._id ||
  match u.id with
  | some n => userId == Val.num n || userId == Val.str (toString n)
  | none => false

/-- The database after both bookings. -/
def store2 : Store :=
  { users := [alice, root], cars := [car7, freeCar], rentals := [booking1, booking2] }

/-- A booking of car 7 whose account no longer exists. -/
def ghostBooking : Rental :=
  { booking1 with
    _id := "64d000000000000000000009", id := some "1700000000009", userId := Val.num 99,
    userEmail := "ghost@example.com", username := "ghost",
    startDate := "2024-03-01", endDate := "2024-03-03", totalDays := 2,
    totalPrice := 100, createdAt := 1700000000009 }

/-- A database where the second rental belongs to no user. -/
def ghostStore : Store :=
  { users := [alice, root], cars := [car7, freeCar], rentals := [booking1, ghostBooking] }

/-- A booking made by alice under an account that was deleted since; her
present account has the same email. -/
def orphanBooking : Rental :=
  { booking1 with
    _id := "64d00000000000000000000a", id := some "1700000000010",
    userId := Val.oid "64b0000000000000000000ff",
    startDate := "2024-04-01", endDate := "2024-04-03", totalDays := 2,
    totalPrice := 100, createdAt := 1700000000010 }

/-- A database where the second rental names a deleted account and the email
of an existing one. -/
def orphanStore : Store :=
  { users := [alice, root], cars := [car7, freeCar], rentals := [booking1, orphanBooking] }

/-- A booking of carol under her former email with her legacy id kept as a
string. -/
def stringIdBooking : Rental :=
  { carolBooking with userId := Val.str "5" }

/-- A database with the booking of carol that keeps her legacy id as a
string. -/
def stringIdStore : Store :=
  { users := [alice, root, carol], cars := [car7, freeCar], rentals := [booking1, stringIdBooking] }

/-- A review of car 7 written by alice. -/
def review1 : Review :=
  { _id := "64e000000000000000000001", carId := Val.str "7",
    userId := Val.oid "64b000000000000000000001", rentalId := Val.str "1700000000001",
    rating := 4, comment := "Smooth ride", username := "alice", updatedAt := 1700000000050 }

/-- The request of alice to set the rating of her review. -/
def ratingRequest (rating : Int) : UpdateReviewRequest :=
  { id := "64e000000000000000000001", user := alice, rating := some rating, comment := none }

/-- A catalogue entry. -/
def corolla : CarDoc :=
  { _id := "64c000000000000000000011", id := "c1", make := "Toyota", model := "Corolla",
    year := 2020, body_type := "Sedan", seats := 5, transmission := "automatic",
    fuel_type := "Petrol", price_per_day := 40 }

/-- The body of a request that adds a second car of the same make, model and
year under an unused id. -/
def secondCorolla : CarData :=
  { id := some "c2", make := some "Toyota", model := some "Corolla", year := some 2020,
    body_type := some "Sedan", seats := some 5, transmission := some "Automatic",
    fuel_type := some "Petrol", price_per_day := some 45 }

/-- The body of a request that adds a car of another year under an unused id. -/
def newerCorolla : CarData :=
  { secondCorolla with year := some 2021 }

/-- A text for the validation errors of a body. -/
def sampleDescribe (_carData : CarData) : String :=
  "invalid"

end Mongo

/-- A non-empty string of decimal digits. -/
def isNumericString (s : String) : Bool :=
  !s.data.isEmpty && s.data.all (fun c => (digitVal 10 c).isSome)

/-- An update of the dates of the rental addressed as `id`. -/
def moveRequest (id startDate endDate : String) : UpdateRequest :=
  { id := id, startDate := some startDate, endDate := some endDate, status := none }

/-- An update of the status of the rental addressed as `id`. -/
def statusRequest (id status : String) : UpdateRequest :=
  { id := id, startDate := none, endDate := none, status := some status }

/-- A booking request by alice for the car addressed as `id`. -/
def rentRequest (id startDate endDate : String) : RentRequest :=
  { authorization := some "Bearer tok-alice", id := id,
    startDate := some startDate, endDate := some endDate,
    pickupLocation := none, dropoffLocation := none, specialRequests := none,
    paymentInfo := none }

/-! ## Properties -/

/-! ### Overlap test -/

theorem jsGe_eq_jsLe_swap (a b : Option String) : jsGe a b = jsLe b a := by
  cases a <;> cases b <;> rfl

theorem Json.datesOverlap_comm (aS aE bS bE : Option String) :
    Json.datesOverlap aS aE bS bE = Json.datesOverlap bS bE aS aE := by
  unfold Json.datesOverlap
  rw [jsGe_eq_jsLe_swap aE bS, jsGe_eq_jsLe_swap bE aS, Bool.and_comm]

/-- C5: the overlap test is symmetric in its two intervals and inclusive at
both ends: 01-01..01-05 and 01-05..01-10 overlap, 01-01..01-04 and
01-05..01-10 do not. -/
theorem overlap_symmetric_inclusive :
    (∀ aStart aEnd bStart bEnd : Option String,
      Json.datesOverlap aStart aEnd bStart bEnd = Json.datesOverlap bStart bEnd aStart aEnd) ∧
    Json.datesOverlap (some "2024-01-01") (some "2024-01-05")
      (some "2024-01-05") (some "2024-01-10") = true ∧
    Json.datesOverlap (some "2024-01-01") (some "2024-01-04")
      (some "2024-01-05") (some "2024-01-10") = false :=
  ⟨Json.datesOverlap_comm, by decide, by decide⟩

/-! ### Availability check, file-backed -/

theorem Json.overlapsRequest_iff (id : String) (sd ed : Option String) (r : Json.Rental) :
    Json.overlapsRequest id sd ed r = true ↔
      looseEq r.carId id = true ∧ r.status = "active" ∧
        jsLe r.startDate ed = true ∧ jsGe r.endDate sd = true := by
  simp [Json.overlapsRequest, Json.datesOverlap, and_assoc]

/-- C4: with both dates non-empty the file-backed availability check answers
200 with `car.id = id`, and `available` is false exactly when some stored
rental has a matching `carId`, status `active`, `startDate <= endDate` of the
request and `endDate >= startDate` of the request; a store whose rentals are
all cancelled or completed gives `available = true`. -/
theorem checkCarAvailability_file_spec (s : Json.Store) (id startDate endDate : String)
    (hs : startDate ≠ "") (he : endDate ≠ "") :
    ∃ available : Bool,
      Json.checkCarAvailability s id (some startDate) (some endDate)
        = Reply.ok 200 { available := available, carId := id } ∧
      (available = false ↔
        ∃ r ∈ s.rentals, looseEq r.carId id = true ∧ r.status = "active" ∧
          jsLe r.startDate (some endDate) = true ∧ jsGe r.endDate (some startDate) = true) ∧
      ((∀ r ∈ s.rentals, r.status = "cancelled" ∨ r.status = "completed") →
        available = true) := by
  refine ⟨!(s.rentals.any (Json.overlapsRequest id (some startDate) (some endDate))), ?_, ?_, ?_⟩
  · simp [Json.checkCarAvailability, hs, he]
  · simp only [Bool.not_eq_false_eq_eq_true, Bool.not_eq_eq_eq_not, Bool.not_false,
      List.any_eq_true, Json.overlapsRequest_iff]
  · intro hall
    simp only [Bool.not_eq_eq_eq_not, Bool.not_true, List.any_eq_false,
      Json.overlapsRequest_iff, Bool.not_eq_true]
    intro r hr hcontra
    rcases hall r hr with h1 | h1 <;> rw [h1] at hcontra <;> simp at hcontra

theorem checkCarAvailability_file_spec_witness :
    ∃ available : Bool,
      Json.checkCarAvailability Json.store1 "7" (some "2024-01-05") (some "2024-01-10")
        = Reply.ok 200 { available := available, carId := "7" } ∧
      (available = false ↔
        ∃ r ∈ Json.store1.rentals, looseEq r.carId "7" = true ∧ r.status = "active" ∧
          jsLe r.startDate (some "2024-01-10") = true ∧
          jsGe r.endDate (some "2024-01-05") = true) ∧
      ((∀ r ∈ Json.store1.rentals, r.status = "cancelled" ∨ r.status = "completed") →
        available = true) :=
  checkCarAvailability_file_spec Json.store1 "7" "2024-01-05" "2024-01-10"
    (by decide) (by decide)

/-! ### Booking, file-backed -/

theorem Json.rentItem_overlap (h : Host) (now stamp : Nat) (s : Json.Store)
    (req : RentRequest) (email : String) (user : Json.User) (car : Json.Car)
    (hemail : currentUserEmail h req.authorization = some email)
    (huser : s.users.find? (fun u => u.email == email) = some user)
    (hcar : s.cars.find? (fun c => looseEq c.id req.id) = some car)
    (hov : s.rentals.any (Json.overlapsRequest req.id req.startDate req.endDate) = true) :
    Json.rentItem h now stamp s req
      = (Reply.error 400 "Car is already rented for the selected dates", s) := by
  simp [Json.rentItem, hemail, huser, hcar, hov]

/-- C1: file-backed `rentItem`, caller authenticated and existing, `:id`
resolving to a car: if the store holds an active rental whose `carId` is that
car's id and whose dates satisfy `startDate <= endDate` of the request and
`endDate >= startDate` of the request, the reply is an error and the store is
returned unchanged. -/
theorem rentItem_file_rejects_overlap (h : Host) (now stamp : Nat) (s : Json.Store)
    (req : RentRequest) (email : String) (user : Json.User) (car : Json.Car)
    (hemail : currentUserEmail h req.authorization = some email)
    (huser : s.users.find? (fun u => u.email == email) = some user)
    (hcar : s.cars.find? (fun c => looseEq c.id req.id) = some car)
    (hov : ∃ r ∈ s.rentals, r.carId = car.id ∧ r.status = "active" ∧
      jsLe r.startDate req.endDate = true ∧ jsGe r.endDate req.startDate = true) :
    ∃ status msg, Json.rentItem h now stamp s req = (Reply.error status msg, s) := by
  refine ⟨400, "Car is already rented for the selected dates", ?_⟩
  apply Json.rentItem_overlap h now stamp s req email user car hemail huser hcar
  obtain ⟨r, hr, hid, hst, hle, hge⟩ := hov
  have hloose : looseEq car.id req.id = true := by
    have := List.find?_some hcar
    simpa using this
  rw [List.any_eq_true]
  exact ⟨r, hr, (Json.overlapsRequest_iff _ _ _ _).2 ⟨by rw [hid]; exact hloose, hst, hle, hge⟩⟩

theorem rentItem_file_rejects_overlap_witness :
    ∃ status msg,
      Json.rentItem sampleHost 1700000000001 1700000000002 Json.store1
        (rentRequest "7" "2024-01-05" "2024-01-10") = (Reply.error status msg, Json.store1) :=
  rentItem_file_rejects_overlap sampleHost 1700000000001 1700000000002 Json.store1
    (rentRequest "7" "2024-01-05" "2024-01-10") "alice@example.com" Json.alice Json.car7
    (by decide) (by decide) (by decide)
    ⟨Json.booking1, by decide, by decide, by decide, by decide, by decide⟩

/-! ### Non-overlap invariant, file-backed -/

theorem pairwise_set_of_rel {α : Type} {R : α → α → Prop} (y : α) :
    ∀ (l : List α) (i : Nat), l.Pairwise R → (∀ x ∈ l, R x y) → (∀ x ∈ l, R y x) →
      (l.set i y).Pairwise R := by
  intro l
  induction l with
  | nil => intro i _ _ _; simp
  | cons a l ih =>
    intro i hl h1 h2
    rw [List.pairwise_cons] at hl
    cases i with
    | zero =>
      rw [List.set_cons_zero, List.pairwise_cons]
      exact ⟨fun x hx => h2 x (List.mem_cons_of_mem _ hx), hl.2⟩
    | succ i =>
      rw [List.set_cons_succ, List.pairwise_cons]
      refine ⟨?_, ih i hl.2 (fun x hx => h1 x (List.mem_cons_of_mem _ hx))
        (fun x hx => h2 x (List.mem_cons_of_mem _ hx))⟩
      intro x hx
      rcases List.mem_or_eq_of_mem_set hx with hx | hx
      · exact hl.1 x hx
      · rw [hx]; exact h1 a (List.mem_cons_self _ _)

theorem Json.rentItem_noOverlap (h : Host) (now stamp : Nat) (s : Json.Store)
    (req : RentRequest) (hs : Json.NoOverlap s.rentals) :
    Json.NoOverlap (Json.rentItem h now stamp s req).2.rentals := by
  unfold Json.rentItem
  split
  · exact hs
  · split
    · exact hs
    · split
      · exact hs
      · rename_i car hcar
        dsimp only
        split
        · exact hs
        · rename_i hno
          have hloose : looseEq car.id req.id = true := by
            have := List.find?_some hcar
            simpa using this
          simp only [Bool.not_eq_true, List.any_eq_false] at hno
          show Json.NoOverlap (s.rentals ++ [_])
          unfold Json.NoOverlap
          rw [List.pairwise_append]
          refine ⟨hs, List.pairwise_singleton _ _, ?_⟩
          intro a ha b hb hid hact _
          rw [List.mem_singleton] at hb
          subst hb
          have hna := hno a ha
          have hl : looseEq a.carId req.id = true := by rw [hid]; exact hloose
          have hb : (a.status == "active") = true := by rw [hact]; rfl
          simpa [Json.overlapsRequest, hl, hb] using hna

theorem Json.cancelRental_noOverlap (h : Host) (s : Json.Store)
    (req : CancelRequest) (hs : Json.NoOverlap s.rentals) :
    Json.NoOverlap (Json.cancelRental h s req).2.rentals := by
  unfold Json.cancelRental
  split
  · exact hs
  · split
    · exact hs
    · split
      · exact hs
      · split
        · exact hs
        · apply pairwise_set_of_rel _ _ _ hs
          · intro x _ _ _ hact
            simp at hact
          · intro x _ _ hact
            simp at hact

/-- C3: file-backed path: if the active rentals of `rentItem.json` are pairwise
non-overlapping per `carId` value before a call of `rentItem` or of
`cancelRental`, they are so after it, whatever the reply is. -/
theorem noOverlap_preserved_file (h : Host) (s : Json.Store)
    (hs : Json.NoOverlap s.rentals) :
    (∀ (now stamp : Nat) (req : RentRequest),
      Json.NoOverlap (Json.rentItem h now stamp s req).2.rentals) ∧
    (∀ req : CancelRequest, Json.NoOverlap (Json.cancelRental h s req).2.rentals) :=
  ⟨fun now stamp req => Json.rentItem_noOverlap h now stamp s req hs,
    fun req => Json.cancelRental_noOverlap h s req hs⟩

theorem noOverlap_preserved_file_witness :
    Json.NoOverlap Json.store1.rentals ∧
    (∀ (now stamp : Nat) (req : RentRequest),
      Json.NoOverlap (Json.rentItem sampleHost now stamp Json.store1 req).2.rentals) ∧
    (∀ req : CancelRequest,
      Json.NoOverlap (Json.cancelRental sampleHost Json.store1 req).2.rentals) :=
  ⟨List.pairwise_singleton _ _,
    noOverlap_preserved_file sampleHost Json.store1 (List.pairwise_singleton _ _)⟩

/-! ### Booking, document database -/

theorem Mongo.overlapQuery_key_mismatch (key : String) (startDate endDate : Option String)
    (r : Mongo.Rental) (carId : String) (hr : r.carId = Val.str carId) :
    Mongo.overlapQuery (Val.oid key) startDate endDate r = false := by
  simp [Mongo.overlapQuery, hr]

theorem Mongo.newRental_carId (newId : String) (now stamp : Nat) (car : Mongo.Car)
    (user : Mongo.User) (email : String) (req : RentRequest) (days : Option Int)
    (doc : Mongo.Rental) (hid : car.id ≠ "")
    (hdoc : Mongo.newRental newId now stamp car user email req days = some doc) :
    doc.carId = Val.str car.id := by
  unfold Mongo.newRental at hdoc
  simp only at hdoc
  split at hdoc
  · simp only [Option.some.injEq] at hdoc
    rw [← hdoc]
    simp [hid]
  · simp at hdoc

/-- C2 (refuted on the code): in the document database `rentItem` stores the
rental under `carId = car.id` (the string `7`) but queries overlaps under
`car._id` (an `ObjectId`), so after a first booking of car 7 for
2024-01-01..2024-01-05 a second booking of the same car for
2024-01-03..2024-01-08 is accepted too, and both rentals are stored active. -/
theorem rentItem_mongo_double_booking :
    Mongo.rentItem sampleHost 1700000000001 1700000000001 "64d000000000000000000001"
        Mongo.emptyStore (rentRequest "7" "2024-01-01" "2024-01-05")
      = (Reply.ok 200 { rental := Mongo.booking1, car := Mongo.car7 }, Mongo.store1) ∧
    Mongo.rentItem sampleHost 1700000000002 1700000000002 "64d000000000000000000002"
        Mongo.store1 (rentRequest "7" "2024-01-03" "2024-01-08")
      = (Reply.ok 200 { rental := Mongo.booking2, car := Mongo.car7 }, Mongo.store2) ∧
    Mongo.store2.rentals = [Mongo.booking1, Mongo.booking2] ∧
    Mongo.booking1.carId = Mongo.booking2.carId ∧
    Mongo.booking1.status = "active" ∧ Mongo.booking2.status = "active" ∧
    bsonLte Mongo.booking1.startDate (some Mongo.booking2.endDate) = true ∧
    bsonGte Mongo.booking1.endDate (some Mongo.booking2.startDate) = true := by
  refine ⟨by decide, by decide, by decide, by decide, by decide, by decide,
    by decide, by decide⟩

/-! ### Pricing -/

theorem Json.rentItem_pricing (h : Host) (now stamp : Nat) (s : Json.Store)
    (req : RentRequest) (email : String) (user : Json.User) (car : Json.Car)
    (hemail : currentUserEmail h req.authorization = some email)
    (huser : s.users.find? (fun u => u.email == email) = some user)
    (hcar : s.cars.find? (fun c => looseEq c.id req.id) = some car)
    (hfree : s.rentals.any (Json.overlapsRequest req.id req.startDate req.endDate) = false) :
    ∃ rental : Json.Rental,
      Json.rentItem h now stamp s req
        = (Reply.ok 200 { rental := rental, car := car },
            { s with rentals := s.rentals ++ [rental] }) ∧
      rental.totalDays = rentalDays h req.startDate req.endDate ∧
      rental.pricePerDay = car.price_per_day ∧
      rental.totalPrice
        = numMul (rentalDays h req.startDate req.endDate)
            (numOr car.price_per_day car.pricePerDay) := by
  simp [Json.rentItem, hemail, huser, hcar, hfree]

theorem rentalDays_dateOnly (h : Host) (startDate endDate : String) (a b : Int)
    (ha : parseDateOnly startDate = some a) (hb : parseDateOnly endDate = some b) :
    rentalDays h (some startDate) (some endDate) = some (ceilDiv (b - a) 86400000) := by
  simp [rentalDays, newDate, dateParse, ha, hb]

/-- C6 (refuted on the code): for 2024-03-01..2024-03-04 at 50 per day the
rental has 3 days and total 150, but for a car whose `price_per_day` is 0 the
file-backed `rentItem` stores `totalPrice = NaN` (`none`) instead of 0, and
the document-database `rentItem` answers 500 and stores nothing. -/
theorem rentItem_zero_rate_price :
    (Json.rentItem sampleHost 1700000000001 1700000000001 Json.emptyStore
        (rentRequest "7" "2024-03-01" "2024-03-04")).2.rentals.map
      (fun r => (r.totalDays, r.pricePerDay, r.totalPrice)) = [(some 3, some 50, some 150)] ∧
    Json.freeCar.price_per_day = some 0 ∧
    (Json.rentItem sampleHost 1700000000001 1700000000001 Json.emptyStore
        (rentRequest "8" "2024-03-01" "2024-03-04")).1.status = 200 ∧
    (Json.rentItem sampleHost 1700000000001 1700000000001 Json.emptyStore
        (rentRequest "8" "2024-03-01" "2024-03-04")).2.rentals.map
      (fun r => (r.carId, r.totalDays, r.pricePerDay, r.totalPrice))
        = [(Val.num 8, some 3, some 0, none)] ∧
    Mongo.rentItem sampleHost 1700000000001 1700000000001 "64d000000000000000000001"
        Mongo.emptyStore (rentRequest "8" "2024-03-01" "2024-03-04")
      = (Reply.error 500 "Server error", Mongo.emptyStore) := by
  refine ⟨by decide, by decide, by decide, by decide, by decide⟩

/-- C7 (refuted on the code): the file-backed `rentItem` accepts a same-day
range, an inverted range and an unparseable date with status 200 and stores
rentals with `totalDays` 0, -3 and `NaN`; the document-database `rentItem`
stores nothing for the same-day range but answers 500, not 400. -/
theorem rentItem_accepts_invalid_range :
    (Json.rentItem sampleHost 1700000000001 1700000000001 Json.emptyStore
        (rentRequest "7" "2024-03-01" "2024-03-01")).1.status = 200 ∧
    (Json.rentItem sampleHost 1700000000001 1700000000001 Json.emptyStore
        (rentRequest "7" "2024-03-01" "2024-03-01")).2.rentals.map
      (fun r => (r.totalDays, r.totalPrice)) = [(some 0, some 0)] ∧
    (Json.rentItem sampleHost 1700000000001 1700000000001 Json.emptyStore
        (rentRequest "7" "2024-03-04" "2024-03-01")).1.status = 200 ∧
    (Json.rentItem sampleHost 1700000000001 1700000000001 Json.emptyStore
        (rentRequest "7" "2024-03-04" "2024-03-01")).2.rentals.map
      (fun r => (r.totalDays, r.totalPrice)) = [(some (-3), some (-150))] ∧
    (Json.rentItem sampleHost 1700000000001 1700000000001 Json.emptyStore
        (rentRequest "7" "soon" "2024-03-01")).1.status = 200 ∧
    (Json.rentItem sampleHost 1700000000001 1700000000001 Json.emptyStore
        (rentRequest "7" "soon" "2024-03-01")).2.rentals.map
      (fun r => (r.totalDays, r.totalPrice)) = [(none, none)] ∧
    Mongo.rentItem sampleHost 1700000000001 1700000000001 "64d000000000000000000001"
        Mongo.emptyStore (rentRequest "7" "2024-03-01" "2024-03-01")
      = (Reply.error 500 "Server error", Mongo.emptyStore) := by
  refine ⟨by decide, by decide, by decide, by decide, by decide, by decide, by decide⟩

/-! ### Validation of the availability request -/

/-- C8 (counterexample): with an inverted range, and with dates that do not
parse, the availability check answers 200 `available: true`. -/
theorem checkCarAvailability_accepts_bad_dates :
    Json.checkCarAvailability Json.emptyStore "7" (some "2024-01-10") (some "2024-01-01")
      = Reply.ok 200 { available := true, carId := "7" } ∧
    Json.checkCarAvailability Json.emptyStore "7" (some "soon") (some "later")
      = Reply.ok 200 { available := true, carId := "7" } ∧
    Mongo.checkCarAvailability Mongo.emptyStore "7" (some "2024-01-10") (some "2024-01-01")
      = Reply.ok 200 { available := true, carId := "7" } ∧
    parseDateOnly "soon" = none ∧ sampleHost.dateParseOther "soon" = none := by
  refine ⟨by decide, by decide, by decide, by decide, by decide⟩

/-- C8 (amended): in both backends the availability check answers the 400
validation error, whatever the rental store holds, exactly when `startDate`
or `endDate` is missing or empty; every other request is answered 200. -/
theorem checkCarAvailability_rejects_missing_dates (js : Json.Store) (ms : Mongo.Store)
    (id : String) (startDate endDate : Option String) :
    (Json.checkCarAvailability js id startDate endDate
        = Reply.error 400 "Start date and end date are required" ↔
      (startDate.getD "" = "" ∨ endDate.getD "" = "")) ∧
    (Mongo.checkCarAvailability ms id startDate endDate
        = Reply.error 400 "Start date and end date are required" ↔
      (startDate.getD "" = "" ∨ endDate.getD "" = "")) ∧
    (¬ (startDate.getD "" = "" ∨ endDate.getD "" = "") →
      (Json.checkCarAvailability js id startDate endDate).status = 200 ∧
      (Mongo.checkCarAvailability ms id startDate endDate).status = 200) := by
  by_cases hm : startDate.getD "" = "" ∨ endDate.getD "" = ""
  · have hb : (startDate.getD "" == "" || endDate.getD "" == "") = true := by
      simpa using hm
    simp [Json.checkCarAvailability, Mongo.checkCarAvailability, hb, hm]
  · have hb : (startDate.getD "" == "" || endDate.getD "" == "") = false := by
      simpa using hm
    simp [Json.checkCarAvailability, Mongo.checkCarAvailability, hb, hm, Reply.status]

/-! ### Cancellation -/

theorem cancelRental_file_forbidden (h : Host) (s : Json.Store) (req : CancelRequest)
    (email : String) (i : Nat) (rental : Json.Rental)
    (hemail : currentUserEmail h req.authorization = some email)
    (hidx : findIndex (fun r : Json.Rental => looseEq r.id req.id) s.rentals = some i)
    (hget : s.rentals.get? i = some rental) (hne : rental.userEmail ≠ email) :
    Json.cancelRental h s req = (Reply.error 403 "Not authorized to cancel this rental", s) := by
  rw [List.get?_eq_getElem?] at hget
  simp [Json.cancelRental, hemail, hidx, hget, hne]

theorem cancelRental_file_notFound (h : Host) (s : Json.Store) (req : CancelRequest)
    (email : String) (hemail : currentUserEmail h req.authorization = some email)
    (hidx : findIndex (fun r : Json.Rental => looseEq r.id req.id) s.rentals = none) :
    Json.cancelRental h s req = (Reply.error 404 "Rental not found", s) := by
  simp [Json.cancelRental, hemail, hidx]

theorem cancelRental_mongo_forbidden (h : Host) (s : Mongo.Store) (req : CancelRequest)
    (email : String) (user : Mongo.User) (i : Nat) (rental : Mongo.Rental)
    (hemail : currentUserEmail h req.authorization = some email)
    (huser : Mongo.findUserByEmail h s email = some user)
    (hidx : Mongo.findRentalIndex h s req.id = some i)
    (hget : s.rentals.get? i = some rental)
    (hrole : user.role ≠ "admin") (hpresent : rental.userId ≠ Val.undef)
    (hother : Mongo.refersTo rental.userId user = false) (hne : rental.userEmail ≠ email) :
    Mongo.cancelRental h s req = (Reply.error 403 "Not authorized to cancel this rental", s) := by
  have hstr : ∃ t, valToString rental.userId = some t ∧ t ≠ user._id := by
    cases hv : valToString rental.userId with
    | none =>
      exfalso
      cases hu : rental.userId <;> rw [hu] at hv <;> simp [valToString] at hv
      exact hpresent hu
    | some t =>
      refine ⟨t, rfl, fun ht => ?_⟩
      rw [Mongo.refersTo, hv, ht] at hother
      simp at hother
  obtain ⟨t, ht, htne⟩ := hstr
  rw [List.get?_eq_getElem?] at hget
  have hb : (t == user._id || rental.userEmail == email) = false := by
    simp [htne, hne]
  simp [Mongo.cancelRental, hemail, huser, hidx, hget, hrole, ht, hb, Mongo.sameObject]

theorem cancelRental_mongo_notFound (h : Host) (s : Mongo.Store) (req : CancelRequest)
    (email : String) (user : Mongo.User)
    (hemail : currentUserEmail h req.authorization = some email)
    (huser : Mongo.findUserByEmail h s email = some user)
    (hidx : Mongo.findRentalIndex h s req.id = none) :
    Mongo.cancelRental h s req = (Reply.error 404 "Rental not found", s) := by
  simp [Mongo.cancelRental, hemail, huser, hidx]

/-- C9: `cancelRental` of an authenticated caller, both backends.  If the id
resolves to a rental, the caller is no admin, the rental's `userId` is no
identifier of the caller and the rental's `userEmail` is not the caller's
email, the reply is 403 and the store is unchanged; if the id resolves to no
rental the reply is 404 and the store is unchanged.  (In the file-backed
store the email alone decides; in the database the stored `userId` is
present, as the schema requires.) -/
theorem cancelRental_forbidden_or_missing (h : Host) (js : Json.Store) (ms : Mongo.Store)
    (req : CancelRequest) (email : String) (user : Mongo.User)
    (hemail : currentUserEmail h req.authorization = some email)
    (huser : Mongo.findUserByEmail h ms email = some user) :
    (∀ (i : Nat) (rental : Json.Rental),
      findIndex (fun r : Json.Rental => looseEq r.id req.id) js.rentals = some i →
      js.rentals.get? i = some rental → rental.userEmail ≠ email →
      Json.cancelRental h js req
        = (Reply.error 403 "Not authorized to cancel this rental", js)) ∧
    (findIndex (fun r : Json.Rental => looseEq r.id req.id) js.rentals = none →
      Json.cancelRental h js req = (Reply.error 404 "Rental not found", js)) ∧
    (∀ (i : Nat) (rental : Mongo.Rental),
      Mongo.findRentalIndex h ms req.id = some i → ms.rentals.get? i = some rental →
      user.role ≠ "admin" → rental.userId ≠ Val.undef →
      Mongo.refersTo rental.userId user = false → rental.userEmail ≠ email →
      Mongo.cancelRental h ms req
        = (Reply.error 403 "Not authorized to cancel this rental", ms)) ∧
    (Mongo.findRentalIndex h ms req.id = none →
      Mongo.cancelRental h ms req = (Reply.error 404 "Rental not found", ms)) :=
  ⟨fun i rental hidx hget hne => cancelRental_file_forbidden h js req email i rental hemail hidx hget hne,
    fun hidx => cancelRental_file_notFound h js req email hemail hidx,
    fun i rental hidx hget hrole hp ho hne =>
      cancelRental_mongo_forbidden h ms req email user i rental hemail huser hidx hget hrole hp ho hne,
    fun hidx => cancelRental_mongo_notFound h ms req email user hemail huser hidx⟩

theorem cancelRental_forbidden_or_missing_witness :
    Json.cancelRental sampleHost Json.store3
        { authorization := some "Bearer tok-carol", id := "1700000000000" }
      = (Reply.error 403 "Not authorized to cancel this rental", Json.store3) ∧
    Mongo.cancelRental sampleHost Mongo.store3
        { authorization := some "Bearer tok-carol", id := "1700000000001" }
      = (Reply.error 403 "Not authorized to cancel this rental", Mongo.store3) :=
  have key := cancelRental_forbidden_or_missing sampleHost Json.store3 Mongo.store3
    { authorization := some "Bearer tok-carol", id := "1700000000000" }
    "carol@example.com" Mongo.carol (by decide) (by decide)
  have key2 := cancelRental_forbidden_or_missing sampleHost Json.store3 Mongo.store3
    { authorization := some "Bearer tok-carol", id := "1700000000001" }
    "carol@example.com" Mongo.carol (by decide) (by decide)
  ⟨key.1 0 Json.booking1 (by decide) (by decide) (by decide),
    key2.2.2.1 0 Mongo.booking1 (by decide) (by decide) (by decide) (by decide)
      (by decide) (by decide)⟩

/-- C10 (refuted on the code): an administrator whose email differs from the
rental's is answered 403 by the file-backed `cancelRental`, and so is the
owner whose `userId` matches but whose email has changed, in the file-backed
store and, when `userId` is her legacy id, in the database; the rentals stay
active.  The database does let the administrator cancel. -/
theorem cancelRental_refuses_admin_and_owner :
    Json.root.role = "admin" ∧
    Json.cancelRental sampleHost Json.store3
        { authorization := some "Bearer tok-root", id := "1700000000000" }
      = (Reply.error 403 "Not authorized to cancel this rental", Json.store3) ∧
    Json.carolBooking.userId = Json.carol.id ∧
    Json.cancelRental sampleHost Json.store3
        { authorization := some "Bearer tok-carol", id := "1700000000005" }
      = (Reply.error 403 "Not authorized to cancel this rental", Json.store3) ∧
    Mongo.carol.id = some 5 ∧ Mongo.carolBooking.userId = Val.num 5 ∧
    Mongo.cancelRental sampleHost Mongo.store3
        { authorization := some "Bearer tok-carol", id := "1700000000005" }
      = (Reply.error 403 "Not authorized to cancel this rental", Mongo.store3) ∧
    (Mongo.cancelRental sampleHost Mongo.store3
        { authorization := some "Bearer tok-root", id := "1700000000005" }).1
      = Reply.ok 200 "Rental cancelled successfully" := by
  refine ⟨by decide, by decide, by decide, by decide, by decide, by decide, by decide,
    by decide⟩

/-! ### Successful booking, file-backed -/

/-- C12: when the file-backed `rentItem` succeeds (status 200) it appends
exactly one rental to `rentItem.json`, the earlier rentals staying as they
were and where they were; the new rental is active, carries the id of the
resolved car, the id, email and username of the caller, the requested dates,
the locations (default `Default Location`) and special requests (default
empty); the reply holds that rental together with the resolved car. -/
theorem rentItem_file_success (h : Host) (now stamp : Nat) (s s2 : Json.Store)
    (req : RentRequest) (status : Nat) (body : Json.Rented)
    (hok : Json.rentItem h now stamp s req = (Reply.ok status body, s2)) :
    status = 200 ∧ s2.users = s.users ∧ s2.cars = s.cars ∧
    s2.rentals = s.rentals ++ [body.rental] ∧
    ∃ (email : String) (user : Json.User),
      currentUserEmail h req.authorization = some email ∧
      s.users.find? (fun u => u.email == email) = some user ∧ user.email = email ∧
      s.cars.find? (fun c => looseEq c.id req.id) = some body.car ∧
      body.rental.status = "active" ∧
      body.rental.carId = body.car.id ∧
      body.rental.userId = user.id ∧
      body.rental.userEmail = email ∧
      body.rental.username = user.username ∧
      body.rental.startDate = req.startDate ∧
      body.rental.endDate = req.endDate ∧
      body.rental.pickupLocation = strOr req.pickupLocation "Default Location" ∧
      body.rental.dropoffLocation = strOr req.dropoffLocation "Default Location" ∧
      body.rental.specialRequests = strOr req.specialRequests "" ∧
      (req.pickupLocation = none → body.rental.pickupLocation = "Default Location") ∧
      (req.dropoffLocation = none → body.rental.dropoffLocation = "Default Location") ∧
      (req.specialRequests = none → body.rental.specialRequests = "") := by
  unfold Json.rentItem at hok
  split at hok
  · simp at hok
  · rename_i email hemail
    split at hok
    · simp at hok
    · rename_i user huser
      split at hok
      · simp at hok
      · rename_i car hcar
        dsimp only at hok
        split at hok
        · simp at hok
        · simp only [Prod.mk.injEq, Reply.ok.injEq] at hok
          obtain ⟨⟨hst, hbody⟩, hs2⟩ := hok
          have hue : user.email = email := by
            have := List.find?_some huser
            simpa using this
          subst hbody
          subst hs2
          refine ⟨hst.symm, rfl, rfl, rfl, email, user, hemail, huser, hue, hcar,
            rfl, rfl, rfl, rfl, rfl, rfl, rfl, rfl, rfl, rfl, ?_, ?_, ?_⟩
          · intro hn; simp [hn, strOr]
          · intro hn; simp [hn, strOr]
          · intro hn; simp [hn, strOr]

theorem rentItem_file_success_witness :
    (200 : Nat) = 200 ∧ Json.store1.users = Json.emptyStore.users ∧
    Json.store1.cars = Json.emptyStore.cars ∧
    Json.store1.rentals = Json.emptyStore.rentals ++ [Json.booking1] :=
  have key := rentItem_file_success sampleHost 1700000000000 1700000000000
    Json.emptyStore Json.store1 (rentRequest "7" "2024-01-01" "2024-01-05") 200
    { rental := Json.booking1, car := Json.car7 } (by decide)
  ⟨key.1, key.2.1, key.2.2.1, key.2.2.2.1⟩

/-! ### Failure precedence of booking -/

theorem currentUserEmail_eq_none_iff (h : Host) (authorization : Option String) :
    currentUserEmail h authorization = none ↔
      (bearerToken authorization = none ∨ bearerToken authorization = some "" ∨
        ∃ token, bearerToken authorization = some token ∧
          (verifyToken h token = none ∨ verifyToken h token = some "")) := by
  unfold currentUserEmail
  cases hb : bearerToken authorization with
  | none => simp
  | some token =>
    by_cases ht : token = ""
    · simp [ht]
    · cases hv : verifyToken h token with
      | none => simp [ht, hv]
      | some email =>
        by_cases he : email = ""
        · simp [ht, hv, he]
        · simp [ht, hv, he]

theorem rentItem_error_store_file (h : Host) (now stamp : Nat) (s : Json.Store)
    (req : RentRequest) (status : Nat) (msg : String)
    (herr : (Json.rentItem h now stamp s req).1 = Reply.error status msg) :
    (Json.rentItem h now stamp s req).2 = s := by
  unfold Json.rentItem at herr ⊢
  split
  · rfl
  · split
    · rfl
    · split
      · rfl
      · dsimp only
        split
        · rfl
        · rename_i hemail _ _ huser _ _ hcar hov
          simp [hemail, huser, hcar, hov] at herr

theorem rentItem_error_store_mongo (h : Host) (now stamp : Nat) (newId : String)
    (s : Mongo.Store) (req : RentRequest) (status : Nat) (msg : String)
    (herr : (Mongo.rentItem h now stamp newId s req).1 = Reply.error status msg) :
    (Mongo.rentItem h now stamp newId s req).2 = s := by
  unfold Mongo.rentItem at herr ⊢
  split
  · rfl
  · split
    · rfl
    · split
      · rfl
      · dsimp only
        split
        · rfl
        · split
          · rename_i hemail _ _ huser _ _ hcar hov _ _ doc s2 hdoc hins
            rw [hdoc] at hins
            simp [hemail, huser, hcar, hov, hdoc, hins] at herr
          · rfl

/-- C13: `rentItem` in both backends.  A missing or unverifiable token, or a
token whose email matches no user, is answered 401 whatever the car id and
the dates are; otherwise an id that resolves to no car is answered 404; in
these cases, and whenever the reply is an error (the overlap case included),
the store is returned unchanged, so nothing is written before identity and
car are resolved. -/
theorem rentItem_failure_precedence (h : Host) (now stamp : Nat) (newId : String)
    (js : Json.Store) (ms : Mongo.Store) (req : RentRequest) :
    (currentUserEmail h req.authorization = none →
      Json.rentItem h now stamp js req = (Reply.error 401 "Unauthorized", js) ∧
      Mongo.rentItem h now stamp newId ms req = (Reply.error 401 "Unauthorized", ms)) ∧
    (∀ email, currentUserEmail h req.authorization = some email →
      (js.users.find? (fun u => u.email == email) = none →
        Json.rentItem h now stamp js req = (Reply.error 401 "Unauthorized", js)) ∧
      (Mongo.findUserByEmail h ms email = none →
        Mongo.rentItem h now stamp newId ms req = (Reply.error 401 "Unauthorized", ms)) ∧
      (∀ user, js.users.find? (fun u => u.email == email) = some user →
        js.cars.find? (fun c => looseEq c.id req.id) = none →
        Json.rentItem h now stamp js req = (Reply.error 404 "Car not found", js)) ∧
      (∀ user, Mongo.findUserByEmail h ms email = some user →
        Mongo.findCar h ms req.id = none →
        Mongo.rentItem h now stamp newId ms req = (Reply.error 404 "Car not found", ms))) ∧
    (∀ status msg, (Json.rentItem h now stamp js req).1 = Reply.error status msg →
      (Json.rentItem h now stamp js req).2 = js) ∧
    (∀ status msg, (Mongo.rentItem h now stamp newId ms req).1 = Reply.error status msg →
      (Mongo.rentItem h now stamp newId ms req).2 = ms) := by
  refine ⟨?_, ?_, ?_, ?_⟩
  · intro hnone
    simp [Json.rentItem, Mongo.rentItem, hnone]
  · intro email hemail
    refine ⟨?_, ?_, ?_, ?_⟩
    · intro hu; simp [Json.rentItem, hemail, hu]
    · intro hu; simp [Mongo.rentItem, hemail, hu]
    · intro user hu hc; simp [Json.rentItem, hemail, hu, hc]
    · intro user hu hc; simp [Mongo.rentItem, hemail, hu, hc]
  · intro status msg herr
    exact rentItem_error_store_file h now stamp js req status msg herr
  · intro status msg herr
    exact rentItem_error_store_mongo h now stamp newId ms req status msg herr

theorem rentItem_failure_precedence_witness :
    Json.rentItem sampleHost 1700000000001 1700000000001 Json.store1
        { rentRequest "7" "2024-02-01" "2024-02-03" with authorization := none }
      = (Reply.error 401 "Unauthorized", Json.store1) ∧
    Mongo.rentItem sampleHost 1700000000001 1700000000001 "64d000000000000000000001"
        Mongo.store1 { rentRequest "7" "2024-02-01" "2024-02-03" with authorization := none }
      = (Reply.error 401 "Unauthorized", Mongo.store1) :=
  (rentItem_failure_precedence sampleHost 1700000000001 1700000000001
    "64d000000000000000000001" Json.store1 Mongo.store1
    { rentRequest "7" "2024-02-01" "2024-02-03" with authorization := none }).1 (by decide)

/-! ### Availability after cancellation, file-backed -/

theorem pairwise_mem_set {α : Type} {R : α → α → Prop} (y r : α) :
    ∀ (l : List α) (i : Nat), l.Pairwise R → l[i]? = some r →
      ∀ x ∈ l.set i y, x = y ∨ (x ∈ l ∧ (R x r ∨ R r x)) := by
  intro l
  induction l with
  | nil => intro i _ hget; simp at hget
  | cons a l ih =>
    intro i hl hget x hx
    rw [List.pairwise_cons] at hl
    cases i with
    | zero =>
      simp only [List.getElem?_cons_zero, Option.some.injEq] at hget
      rw [List.set_cons_zero, List.mem_cons] at hx
      rcases hx with hx | hx
      · exact Or.inl hx
      · exact Or.inr ⟨List.mem_cons_of_mem _ hx, Or.inr (hget ▸ hl.1 x hx)⟩
    | succ i =>
      simp only [List.getElem?_cons_succ] at hget
      rw [List.set_cons_succ, List.mem_cons] at hx
      rcases hx with hx | hx
      · have hr : r ∈ l := List.mem_iff_getElem?.2 ⟨i, hget⟩
        exact Or.inr ⟨hx ▸ List.mem_cons_self _ _, Or.inl (hx ▸ hl.1 r hr)⟩
      · rcases ih i hl.2 hget x hx with h1 | ⟨h1, h2⟩
        · exact Or.inl h1
        · exact Or.inr ⟨List.mem_cons_of_mem _ h1, h2⟩

theorem cancelRental_file_ok (h : Host) (s : Json.Store) (req : CancelRequest)
    (email : String) (i : Nat) (rental : Json.Rental)
    (hemail : currentUserEmail h req.authorization = some email)
    (hidx : findIndex (fun r : Json.Rental => looseEq r.id req.id) s.rentals = some i)
    (hget : s.rentals.get? i = some rental) (hown : rental.userEmail = email) :
    Json.cancelRental h s req
      = (Reply.ok 200 "Rental cancelled successfully",
          { s with rentals := s.rentals.set i { rental with status := "cancelled" } }) := by
  rw [List.get?_eq_getElem?] at hget
  simp [Json.cancelRental, hemail, hidx, hget, hown]

/-- C11 (counterexample): a booking made without dates is accepted and can be
cancelled, and the availability check with its (absent) dates answers 400;
and with cars `07` and 7 both booked on overlapping days, which the invariant
per `carId` value allows, cancelling the booking of `07` leaves
`/rentals/07/availability` unavailable, because `7 == "07"`. -/
theorem cancel_then_check_not_available :
    Json.rentItem sampleHost 1700000000000 1700000000000 Json.emptyStore Json.datelessRequest
      = (Reply.ok 200 { rental := Json.datelessBooking, car := Json.car7 },
          Json.datelessStore) ∧
    Json.NoOverlap Json.datelessStore.rentals ∧
    Json.datelessBooking.status = "active" ∧
    Json.cancelRental sampleHost Json.datelessStore
        { authorization := some "Bearer tok-alice", id := "1700000000000" }
      = (Reply.ok 200 "Rental cancelled successfully", Json.datelessCancelled) ∧
    Json.checkCarAvailability Json.datelessCancelled "7"
        Json.datelessBooking.startDate Json.datelessBooking.endDate
      = Reply.error 400 "Start date and end date are required" ∧
    Json.rentItem sampleHost 1700000000001 1700000000001 (Json.mixedStore [])
        (rentRequest "07" "2024-01-01" "2024-01-05")
      = (Reply.ok 200 { rental := Json.booking07, car := Json.car07 },
          Json.mixedStore [Json.booking07]) ∧
    Json.rentItem sampleHost 1700000000002 1700000000002 (Json.mixedStore [Json.booking07])
        (rentRequest "7" "2024-01-03" "2024-01-08")
      = (Reply.ok 200 { rental := Json.booking7, car := Json.car7 },
          Json.mixedStore [Json.booking07, Json.booking7]) ∧
    Json.NoOverlap (Json.mixedStore [Json.booking07, Json.booking7]).rentals ∧
    Json.cancelRental sampleHost (Json.mixedStore [Json.booking07, Json.booking7])
        { authorization := some "Bearer tok-alice", id := "1700000000001" }
      = (Reply.ok 200 "Rental cancelled successfully",
          Json.mixedStore [{ Json.booking07 with status := "cancelled" }, Json.booking7]) ∧
    Json.checkCarAvailability
        (Json.mixedStore [{ Json.booking07 with status := "cancelled" }, Json.booking7])
        "07" Json.booking07.startDate Json.booking07.endDate
      = Reply.ok 200 { available := false, carId := "07" } := by
  refine ⟨by decide, ?_, by decide, by decide, by decide, by decide, by decide, ?_,
    by decide, by decide⟩
  · exact List.pairwise_singleton _ _
  · unfold Json.NoOverlap
    simp only [Json.mixedStore, List.pairwise_cons, List.mem_singleton, forall_eq,
      List.not_mem_nil, false_implies, implies_true, List.Pairwise.nil, and_true]
    intro hc
    exact absurd hc (by decide)

/-- C11 (amended): file-backed path, store with active rentals pairwise
non-overlapping per `carId` value.  If the caller cancels an active rental
`r` of theirs whose `startDate` and `endDate` are non-empty, and every stored
rental whose `carId` matches `id` under `==` carries the same value as
`r.carId`, then the cancellation succeeds and the availability check for
`id` with the dates of `r` answers 200 `available: true`. -/
theorem cancel_then_available_file (h : Host) (s : Json.Store) (req : CancelRequest)
    (email : String) (i : Nat) (r : Json.Rental) (id startDate endDate : String)
    (hinv : Json.NoOverlap s.rentals)
    (hemail : currentUserEmail h req.authorization = some email)
    (hidx : findIndex (fun x : Json.Rental => looseEq x.id req.id) s.rentals = some i)
    (hget : s.rentals.get? i = some r) (hown : r.userEmail = email)
    (hact : r.status = "active")
    (hsd : r.startDate = some startDate) (hsd0 : startDate ≠ "")
    (hed : r.endDate = some endDate) (hed0 : endDate ≠ "")
    (hsame : ∀ x ∈ s.rentals, looseEq x.carId id = true → x.carId = r.carId) :
    (Json.cancelRental h s req).1 = Reply.ok 200 "Rental cancelled successfully" ∧
    Json.checkCarAvailability (Json.cancelRental h s req).2 id (some startDate) (some endDate)
      = Reply.ok 200 { available := true, carId := id } := by
  rw [cancelRental_file_ok h s req email i r hemail hidx hget hown]
  refine ⟨rfl, ?_⟩
  rw [List.get?_eq_getElem?] at hget
  have hnone : (s.rentals.set i { r with status := "cancelled" }).any
      (Json.overlapsRequest id (some startDate) (some endDate)) = false := by
    rw [List.any_eq_false]
    intro x hx
    rcases pairwise_mem_set _ r s.rentals i hinv hget x hx with hxy | ⟨hxl, hrel⟩
    · rw [hxy]; simp [Json.overlapsRequest]
    · intro hov
      rw [Json.overlapsRequest_iff] at hov
      obtain ⟨hl, hst, hle, hge⟩ := hov
      have hcar := hsame x hxl hl
      have hd : Json.datesOverlap x.startDate x.endDate r.startDate r.endDate = false := by
        rcases hrel with hrel | hrel
        · exact hrel hcar hst hact
        · rw [Json.datesOverlap_comm]; exact hrel hcar.symm hact hst
      rw [hsd, hed] at hd
      simp [Json.datesOverlap, hle, hge] at hd
  simp [Json.checkCarAvailability, hsd0, hed0, hnone]

theorem cancel_then_available_file_witness :
    (Json.cancelRental sampleHost Json.store1
        { authorization := some "Bearer tok-alice", id := "1700000000000" }).1
      = Reply.ok 200 "Rental cancelled successfully" ∧
    Json.checkCarAvailability (Json.cancelRental sampleHost Json.store1
        { authorization := some "Bearer tok-alice", id := "1700000000000" }).2
        "7" (some "2024-01-01") (some "2024-01-05")
      = Reply.ok 200 { available := true, carId := "7" } :=
  cancel_then_available_file sampleHost Json.store1
    { authorization := some "Bearer tok-alice", id := "1700000000000" }
    "alice@example.com" 0 Json.booking1 "7" "2024-01-01" "2024-01-05"
    (List.pairwise_singleton _ _) (by decide) (by decide) (by decide) (by decide) (by decide)
    (by decide) (by decide) (by decide) (by decide)
    (by intro x hx _; simp [Json.store1] at hx; rw [hx])

/-! ### Administrative update -/

theorem updateRental_file_ok (h : Host) (s : Json.Store) (req : UpdateRequest)
    (i : Nat) (r : Json.Rental)
    (hidx : findIndex (fun x : Json.Rental => looseEq x.id req.id) s.rentals = some i)
    (hget : s.rentals.get? i = some r) :
    Json.updateRental h s req
      = (Reply.ok 200 (Json.applyUpdate h r req),
          { s with rentals := s.rentals.set i (Json.applyUpdate h r req) }) := by
  rw [List.get?_eq_getElem?] at hget
  simp [Json.updateRental, hidx, hget]

theorem applyUpdate_dates (h : Host) (r : Json.Rental) (req : UpdateRequest)
    (hs : truthy req.startDate = true) (he : truthy req.endDate = true) :
    (Json.applyUpdate h r req).startDate = req.startDate ∧
    (Json.applyUpdate h r req).endDate = req.endDate ∧
    (Json.applyUpdate h r req).totalDays = rentalDays h req.startDate req.endDate ∧
    (Json.applyUpdate h r req).totalPrice
      = numMul (rentalDays h req.startDate req.endDate) r.pricePerDay ∧
    (Json.applyUpdate h r req).pricePerDay = r.pricePerDay := by
  unfold Json.applyUpdate
  simp only [hs, he, Bool.and_self, if_true]
  split <;> simp

theorem updateRental_mongo_dates (h : Host) (s : Mongo.Store) (req : UpdateRequest)
    (i : Nat) (r : Mongo.Rental) (car : Mongo.Car) (startDate endDate : String) (d : Int)
    (hidx : Mongo.findRentalIndex h s req.id = some i)
    (hget : s.rentals.get? i = some r)
    (hs : req.startDate = some startDate) (hs0 : startDate ≠ "")
    (he : req.endDate = some endDate) (he0 : endDate ≠ "")
    (hst : req.status = none)
    (hcar : Mongo.carOfRental h s r.carId = Mongo.Lookup.found car)
    (hdays : rentalDays h req.startDate req.endDate = some d)
    (hvalid : Mongo.validDoc
      { r with
        startDate := startDate, endDate := endDate,
        totalDays := d, totalPrice := d * car.price_per_day } = true) :
    Mongo.updateRental h s req
      = (Reply.ok 200
          { r with
            startDate := startDate, endDate := endDate,
            totalDays := d, totalPrice := d * car.price_per_day },
          { s with
            rentals := s.rentals.set i
              { r with
                startDate := startDate, endDate := endDate,
                totalDays := d, totalPrice := d * car.price_per_day } }) := by
  rw [List.get?_eq_getElem?] at hget
  rw [hs, he] at hdays
  simp [Mongo.updateRental, hidx, hget, hs, he, hst, truthy, hs0, he0, hcar, hdays, hvalid]

theorem updateRental_mongo_dangling (h : Host) (s : Mongo.Store) (req : UpdateRequest)
    (i : Nat) (r : Mongo.Rental)
    (hidx : Mongo.findRentalIndex h s req.id = some i)
    (hget : s.rentals.get? i = some r)
    (hs : truthy req.startDate = true) (he : truthy req.endDate = true)
    (hcar : Mongo.carOfRental h s r.carId = Mongo.Lookup.missing) :
    Mongo.updateRental h s req = (Reply.error 404 "Associated car not found", s) := by
  rw [List.get?_eq_getElem?] at hget
  simp [Mongo.updateRental, hidx, hget, hs, he, hcar]

/-- C14 (refuted on the code): with both dates supplied the file-backed
`updateRental` multiplies the days by the rate stored in the rental, not by
the current rate of the car (2 days at a car now at 80 give 100, not 160),
and it answers 200 when the car no longer exists; the document-database
branch uses the current rate (160) and answers 404 for the missing car. -/
theorem updateRental_file_uses_stored_rate :
    Json.car7at80.price_per_day = some 80 ∧
    Json.updateRental sampleHost Json.raisedStore
        (moveRequest "1700000000000" "2024-02-01" "2024-02-03")
      = (Reply.ok 200 Json.movedBooking,
          { Json.raisedStore with rentals := [Json.movedBooking] }) ∧
    Json.movedBooking.totalDays = some 2 ∧ Json.movedBooking.totalPrice = some 100 ∧
    (Json.updateRental sampleHost Json.danglingStore
        (moveRequest "1700000000000" "2024-02-01" "2024-02-03")).1.status = 200 ∧
    (Json.updateRental sampleHost Json.danglingStore
        (moveRequest "1700000000000" "2024-02-01" "2024-02-03")).2 ≠ Json.danglingStore ∧
    (Mongo.updateRental sampleHost Mongo.raisedStore
        (moveRequest "1700000000001" "2024-02-01" "2024-02-03")).1
      = Reply.ok 200 Mongo.movedBooking ∧
    Mongo.movedBooking.totalDays = 2 ∧ Mongo.movedBooking.totalPrice = 160 ∧
    Mongo.updateRental sampleHost Mongo.danglingStore
        (moveRequest "1700000000001" "2024-02-01" "2024-02-03")
      = (Reply.error 404 "Associated car not found", Mongo.danglingStore) := by
  refine ⟨by decide, by decide, by decide, by decide, by decide, by decide, by decide,
    by decide, by decide, by decide⟩

/-! ### Shape of the store after each operation -/

theorem set_getElem?_self {α : Type} (a : α) :
    ∀ (l : List α) (i : Nat), l[i]? = some a → l.set i a = l := by
  intro l
  induction l with
  | nil => intro i _; rfl
  | cons b l ih =>
    intro i hget
    cases i with
    | zero =>
      simp only [List.getElem?_cons_zero, Option.some.injEq] at hget
      rw [List.set_cons_zero, hget]
    | succ i =>
      simp only [List.getElem?_cons_succ] at hget
      rw [List.set_cons_succ, ih i hget]

theorem map_set_of_eq {α β : Type} (f : α → β) (x y : α) (hf : f y = f x)
    (l : List α) (i : Nat) (hget : l[i]? = some x) :
    (l.set i y).map f = l.map f := by
  rw [List.map_set, hf]
  apply set_getElem?_self
  rw [List.getElem?_map, hget]
  rfl

theorem findIndex_set_of_eq {α : Type} (p : α → Bool) (x y : α) (hp : p y = p x) :
    ∀ (l : List α) (i : Nat), l[i]? = some x → findIndex p (l.set i y) = findIndex p l := by
  intro l
  induction l with
  | nil => intro i _; rfl
  | cons b l ih =>
    intro i hget
    cases i with
    | zero =>
      simp only [List.getElem?_cons_zero, Option.some.injEq] at hget
      rw [List.set_cons_zero]
      simp only [findIndex, hp, hget]
    | succ i =>
      simp only [List.getElem?_cons_succ] at hget
      rw [List.set_cons_succ]
      simp only [findIndex, ih i hget]

theorem findIndex_getElem? {α : Type} (p : α → Bool) :
    ∀ (l : List α) (i : Nat), findIndex p l = some i → ∃ x, l[i]? = some x ∧ p x = true := by
  intro l
  induction l with
  | nil => intro i hi; simp [findIndex] at hi
  | cons b l ih =>
    intro i hi
    unfold findIndex at hi
    by_cases hb : p b = true
    · simp only [hb, if_true, Option.some.injEq] at hi
      subst hi
      exact ⟨b, by simp, hb⟩
    · simp only [hb, Bool.false_eq_true, if_false, Option.map_eq_some'] at hi
      obtain ⟨j, hj, hji⟩ := hi
      subst hji
      obtain ⟨x, hx, hpx⟩ := ih j hj
      exact ⟨x, by simpa using hx, hpx⟩

theorem cancelRental_shape_file (h : Host) (s : Json.Store) (req : CancelRequest) :
    (Json.cancelRental h s req).2 = s ∨
    ∃ (i : Nat) (r : Json.Rental), s.rentals[i]? = some r ∧
      (Json.cancelRental h s req).2
        = { s with rentals := s.rentals.set i { r with status := "cancelled" } } := by
  unfold Json.cancelRental
  split
  · exact Or.inl rfl
  · split
    · exact Or.inl rfl
    · rename_i i _
      split
      · exact Or.inl rfl
      · rename_i r hget
        rw [List.get?_eq_getElem?] at hget
        split
        · exact Or.inl rfl
        · exact Or.inr ⟨i, r, hget, rfl⟩

theorem updateRental_shape_file (h : Host) (s : Json.Store) (req : UpdateRequest) :
    (Json.updateRental h s req).2 = s ∨
    ∃ (i : Nat) (r : Json.Rental), s.rentals[i]? = some r ∧
      Json.updateRental h s req
        = (Reply.ok 200 (Json.applyUpdate h r req),
            { s with rentals := s.rentals.set i (Json.applyUpdate h r req) }) := by
  unfold Json.updateRental
  split
  · exact Or.inl rfl
  · rename_i i _
    split
    · exact Or.inl rfl
    · rename_i r hget
      rw [List.get?_eq_getElem?] at hget
      exact Or.inr ⟨i, r, hget, rfl⟩

theorem rentItem_shape_file (h : Host) (now stamp : Nat) (s : Json.Store) (req : RentRequest) :
    (Json.rentItem h now stamp s req).2 = s ∨
    ∃ r : Json.Rental, r.status = "active" ∧
      (Json.rentItem h now stamp s req).2 = { s with rentals := s.rentals ++ [r] } := by
  unfold Json.rentItem
  split
  · exact Or.inl rfl
  · split
    · exact Or.inl rfl
    · split
      · exact Or.inl rfl
      · dsimp only
        split
        · exact Or.inl rfl
        · exact Or.inr ⟨_, rfl, rfl⟩

theorem cancelRental_shape_mongo (h : Host) (s : Mongo.Store) (req : CancelRequest) :
    (Mongo.cancelRental h s req).2 = s ∨
    ∃ (i : Nat) (r : Mongo.Rental), s.rentals[i]? = some r ∧
      Mongo.validDoc { r with status := "cancelled" } = true ∧
      (Mongo.cancelRental h s req).2
        = { s with rentals := s.rentals.set i { r with status := "cancelled" } } := by
  unfold Mongo.cancelRental
  split
  · exact Or.inl rfl
  · split
    · exact Or.inl rfl
    · split
      · exact Or.inl rfl
      · rename_i i _
        split
        · exact Or.inl rfl
        · rename_i r hget
          rw [List.get?_eq_getElem?] at hget
          dsimp only
          split
          · exact Or.inl rfl
          · exact Or.inl rfl
          · split
            · rename_i hv
              exact Or.inr ⟨i, r, hget, hv, rfl⟩
            · exact Or.inl rfl

theorem updateRental_shape_mongo (h : Host) (s : Mongo.Store) (req : UpdateRequest) :
    (Mongo.updateRental h s req).2 = s ∨
    ∃ (i : Nat) (r doc : Mongo.Rental), s.rentals[i]? = some r ∧
      Mongo.validDoc doc = true ∧
      (doc.status = r.status ∨ (truthy req.status = true ∧ some doc.status = req.status)) ∧
      Mongo.updateRental h s req = (Reply.ok 200 doc, { s with rentals := s.rentals.set i doc }) := by
  unfold Mongo.updateRental
  split
  · exact Or.inl rfl
  · rename_i i _
    split
    · exact Or.inl rfl
    · rename_i r hget
      rw [List.get?_eq_getElem?] at hget
      dsimp only
      split
      · exact Or.inl rfl
      · exact Or.inl rfl
      · exact Or.inl rfl
      · rename_i doc hdoc
        have hdocst : doc.status = r.status := by
          split at hdoc
          · split at hdoc
            · simp at hdoc
            · simp at hdoc
            · split at hdoc
              · simp at hdoc
              · simp only [Mongo.Lookup.found.injEq, Option.some.injEq] at hdoc
                rw [← hdoc]
          · simp only [Mongo.Lookup.found.injEq, Option.some.injEq] at hdoc
            rw [← hdoc]
        generalize hu : (if truthy req.status = true then
          { doc with status := req.status.getD "" } else doc) = updated
        have hust : updated.status = r.status ∨
            (truthy req.status = true ∧ some updated.status = req.status) := by
          by_cases hst : truthy req.status = true
          · right
            refine ⟨hst, ?_⟩
            rw [if_pos hst] at hu
            rw [← hu]
            cases hs : req.status with
            | none => simp [truthy, hs] at hst
            | some v => rfl
          · left
            rw [if_neg hst] at hu
            rw [← hu]
            exact hdocst
        by_cases hv : Mongo.validDoc updated = true
        · rw [if_pos hv]
          exact Or.inr ⟨i, r, updated, hget, hv, hust, rfl⟩
        · rw [if_neg hv]
          exact Or.inl rfl

theorem rentItem_shape_mongo (h : Host) (now stamp : Nat) (newId : String) (s : Mongo.Store)
    (req : RentRequest) :
    (Mongo.rentItem h now stamp newId s req).2 = s ∨
    ∃ r : Mongo.Rental, Mongo.validDoc r = true ∧
      (Mongo.rentItem h now stamp newId s req).2 = { s with rentals := s.rentals ++ [r] } := by
  unfold Mongo.rentItem
  split
  · exact Or.inl rfl
  · split
    · exact Or.inl rfl
    · split
      · exact Or.inl rfl
      · dsimp only
        split
        · exact Or.inl rfl
        · split
          · rename_i doc s2 hdoc hins
            rw [hdoc] at hins
            unfold Mongo.insertRental at hins
            simp only at hins
            split at hins
            · rename_i hv
              simp only [Bool.and_eq_true] at hv
              simp only [Option.some.injEq] at hins
              exact Or.inr ⟨doc, hv.1, hins.symm⟩
            · simp at hins
          · exact Or.inl rfl

/-! ### Price equation -/

theorem applyUpdate_priceConsistent (h : Host) (r : Json.Rental) (req : UpdateRequest)
    (hr : Json.priceConsistent r) : Json.priceConsistent (Json.applyUpdate h r req) := by
  unfold Json.priceConsistent Json.applyUpdate at *
  by_cases hd : (truthy req.startDate && truthy req.endDate) = true
  · by_cases hst : truthy req.status = true <;> simp [hd, hst]
  · by_cases hst : truthy req.status = true <;> simp [hd, hst, hr]

theorem updateRental_file_priceConsistent (h : Host) (s : Json.Store) (req : UpdateRequest)
    (hs : ∀ r ∈ s.rentals, Json.priceConsistent r) :
    ∀ r ∈ (Json.updateRental h s req).2.rentals, Json.priceConsistent r := by
  rcases updateRental_shape_file h s req with hsame | ⟨i, r0, hget, heq⟩
  · rw [hsame]; exact hs
  · rw [heq]
    intro r hr
    rcases List.mem_or_eq_of_mem_set hr with hr | hr
    · exact hs r hr
    · rw [hr]
      exact applyUpdate_priceConsistent h r0 req (hs r0 (List.mem_iff_getElem?.2 ⟨i, hget⟩))

/-- C15 (refuted on the code): in the document database `updateRental` sets
`totalPrice` from the current rate of the car and leaves `pricePerDay` as it
was stored, so after the rate of car 7 went from 50 to 80 the updated rental
has 2 days, 50 per day and total 160; and the file-backed `rentItem` stores
`totalPrice = NaN` with 3 days at 0 per day for a car whose rate is 0. -/
theorem price_equation_broken :
    Mongo.priceConsistent Mongo.booking1 ∧
    (Mongo.updateRental sampleHost Mongo.raisedStore
        (moveRequest "1700000000001" "2024-02-01" "2024-02-03"))
      = (Reply.ok 200 Mongo.movedBooking,
          { Mongo.raisedStore with rentals := [Mongo.movedBooking] }) ∧
    Mongo.movedBooking.totalDays = 2 ∧ Mongo.movedBooking.pricePerDay = 50 ∧
    Mongo.movedBooking.totalPrice = 160 ∧
    ¬ Mongo.priceConsistent Mongo.movedBooking ∧
    (Json.rentItem sampleHost 1700000000001 1700000000001 Json.emptyStore
        (rentRequest "8" "2024-03-01" "2024-03-04")).2.rentals = [Json.freeBooking] ∧
    Json.freeBooking.totalDays = some 3 ∧ Json.freeBooking.pricePerDay = some 0 ∧
    Json.freeBooking.totalPrice = none ∧
    ¬ Json.priceConsistent Json.freeBooking := by
  refine ⟨by unfold Mongo.priceConsistent; decide, by decide, by decide, by decide,
    by decide, by unfold Mongo.priceConsistent; decide, by decide, by decide,
    by decide, by decide, by unfold Json.priceConsistent; decide⟩

/-! ### Update without overlap check, file-backed -/

/-- C16: the file-backed `updateRental` runs no overlap check.  Whenever
`:id` resolves to a rental and both dates are supplied, it answers 200 and
overwrites the dates with the supplied ones, whatever the other rentals are;
and moving the February booking of car 7 onto 3 to 8 January, while the
January booking 1 to 5 is active, turns a store that satisfies the
non-overlap invariant into one that violates it. -/
theorem updateRental_file_no_overlap_check :
    (∀ (h : Host) (s : Json.Store) (req : UpdateRequest) (i : Nat) (r : Json.Rental),
      findIndex (fun x : Json.Rental => looseEq x.id req.id) s.rentals = some i →
      s.rentals.get? i = some r →
      truthy req.startDate = true → truthy req.endDate = true →
      ∃ updated : Json.Rental,
        Json.updateRental h s req
          = (Reply.ok 200 updated, { s with rentals := s.rentals.set i updated }) ∧
        updated.startDate = req.startDate ∧ updated.endDate = req.endDate) ∧
    Json.NoOverlap Json.twoStore.rentals ∧
    (Json.updateRental sampleHost Json.twoStore
        (moveRequest "1700000000009" "2024-01-03" "2024-01-08")).1.status = 200 ∧
    ¬ Json.NoOverlap (Json.updateRental sampleHost Json.twoStore
        (moveRequest "1700000000009" "2024-01-03" "2024-01-08")).2.rentals := by
  refine ⟨?_, ?_, by decide, ?_⟩
  · intro h s req i r hidx hget hs he
    refine ⟨Json.applyUpdate h r req, updateRental_file_ok h s req i r hidx hget, ?_, ?_⟩
    · exact (applyUpdate_dates h r req hs he).1
    · exact (applyUpdate_dates h r req hs he).2.1
  · unfold Json.NoOverlap
    simp only [Json.twoStore, List.pairwise_cons, List.mem_singleton, forall_eq,
      List.not_mem_nil, false_implies, implies_true, List.Pairwise.nil, and_true]
    intro _ _ _
    decide
  · have hres : (Json.updateRental sampleHost Json.twoStore
        (moveRequest "1700000000009" "2024-01-03" "2024-01-08")).2.rentals
        = [Json.booking1, { Json.febBooking with
            startDate := some "2024-01-03", endDate := some "2024-01-08",
            totalDays := some 5, totalPrice := some 250 }] := by decide
    rw [hres]
    unfold Json.NoOverlap
    simp only [List.pairwise_cons, List.mem_singleton, forall_eq,
      List.not_mem_nil, false_implies, implies_true, List.Pairwise.nil, and_true]
    intro hno
    exact absurd (hno (by decide) (by decide) (by decide)) (by decide)

theorem updateRental_file_no_overlap_check_witness :
    ∃ updated : Json.Rental,
      Json.updateRental sampleHost Json.twoStore
          (moveRequest "1700000000009" "2024-01-03" "2024-01-08")
        = (Reply.ok 200 updated,
            { Json.twoStore with rentals := Json.twoStore.rentals.set 1 updated }) ∧
      updated.startDate = some "2024-01-03" ∧ updated.endDate = some "2024-01-08" :=
  updateRental_file_no_overlap_check.1 sampleHost Json.twoStore
    (moveRequest "1700000000009" "2024-01-03" "2024-01-08") 1 Json.febBooking
    (by decide) (by decide) (by decide) (by decide)

theorem updateRental_mongo_overlap_example :
    Mongo.updateRental sampleHost Mongo.twoStore
        (moveRequest "1700000000009" "2024-01-03" "2024-01-08")
      = (Reply.ok 200
          { Mongo.febBooking with
            startDate := "2024-01-03", endDate := "2024-01-08", totalDays := 5,
            totalPrice := 250 },
          { Mongo.twoStore with
            rentals := [Mongo.booking1,
              { Mongo.febBooking with
                startDate := "2024-01-03", endDate := "2024-01-08", totalDays := 5,
                totalPrice := 250 }] }) ∧
    Mongo.overlapQuery Mongo.booking1.carId (some "2024-01-03") (some "2024-01-08")
      Mongo.booking1 = true := by
  refine ⟨by decide, by decide⟩

/-! ### Frame of cancellation and update, file-backed -/

theorem applyUpdate_frame (h : Host) (r : Json.Rental) (req : UpdateRequest) :
    { Json.applyUpdate h r req with
      startDate := r.startDate, endDate := r.endDate, totalDays := r.totalDays,
      totalPrice := r.totalPrice, status := r.status } = r := by
  unfold Json.applyUpdate
  by_cases hd : (truthy req.startDate && truthy req.endDate) = true <;>
    by_cases hst : truthy req.status = true <;> simp [hd, hst]

theorem applyUpdate_status_only (h : Host) (r : Json.Rental) (req : UpdateRequest)
    (hd : (truthy req.startDate && truthy req.endDate) = false) :
    { Json.applyUpdate h r req with status := r.status } = r := by
  unfold Json.applyUpdate
  by_cases hst : truthy req.status = true <;> simp [hd, hst]

theorem cancelRental_resolved_file (h : Host) (s : Json.Store) (req : CancelRequest) :
    (Json.cancelRental h s req).2 = s ∨
    ∃ (i : Nat) (r : Json.Rental),
      findIndex (fun x : Json.Rental => looseEq x.id req.id) s.rentals = some i ∧
      s.rentals[i]? = some r ∧
      (Json.cancelRental h s req).2
        = { s with rentals := s.rentals.set i { r with status := "cancelled" } } := by
  unfold Json.cancelRental
  split
  · exact Or.inl rfl
  · split
    · exact Or.inl rfl
    · rename_i i hidx
      split
      · exact Or.inl rfl
      · rename_i r hget
        rw [List.get?_eq_getElem?] at hget
        split
        · exact Or.inl rfl
        · exact Or.inr ⟨i, r, hidx, hget, rfl⟩

theorem updateRental_resolved_file (h : Host) (s : Json.Store) (req : UpdateRequest) :
    (Json.updateRental h s req).2 = s ∨
    ∃ (i : Nat) (r : Json.Rental),
      findIndex (fun x : Json.Rental => looseEq x.id req.id) s.rentals = some i ∧
      s.rentals[i]? = some r ∧
      Json.updateRental h s req
        = (Reply.ok 200 (Json.applyUpdate h r req),
            { s with rentals := s.rentals.set i (Json.applyUpdate h r req) }) := by
  unfold Json.updateRental
  split
  · exact Or.inl rfl
  · rename_i i hidx
    split
    · exact Or.inl rfl
    · rename_i r hget
      rw [List.get?_eq_getElem?] at hget
      exact Or.inr ⟨i, r, hidx, hget, rfl⟩

/-- C17: frame of the file-backed mutations.  `cancelRental` returns the
store unchanged, or with the `status` of the resolved rental set to
`cancelled`, where the resolved rental is the one at the position that
`findIndex` gives for the requested id (the first rental whose `id` is
loosely equal to it); `updateRental` returns the store unchanged, or with the
rental at that position replaced by the record the handler computes from it,
which differs from it at most in `startDate`, `endDate`, `totalDays`,
`totalPrice`, `status`, and at most in `status` when the two dates are not
both supplied.  Users and cars are untouched, and the list of (`id`, `carId`,
`userId`, `userEmail`, `username`) of the rentals is the same list
afterwards: nothing is added, removed or reordered. -/
theorem cancel_update_frame_file (h : Host) (s : Json.Store) :
    (∀ req : CancelRequest,
      ((Json.cancelRental h s req).2 = s ∨
        ∃ (i : Nat) (r : Json.Rental),
          findIndex (fun x : Json.Rental => looseEq x.id req.id) s.rentals = some i ∧
          s.rentals[i]? = some r ∧ looseEq r.id req.id = true ∧
          (Json.cancelRental h s req).2
            = { s with rentals := s.rentals.set i { r with status := "cancelled" } }) ∧
      (Json.cancelRental h s req).2.users = s.users ∧
      (Json.cancelRental h s req).2.cars = s.cars ∧
      (Json.cancelRental h s req).2.rentals.map Json.references
        = s.rentals.map Json.references) ∧
    (∀ req : UpdateRequest,
      ((Json.updateRental h s req).2 = s ∨
        ∃ (i : Nat) (r : Json.Rental),
          findIndex (fun x : Json.Rental => looseEq x.id req.id) s.rentals = some i ∧
          s.rentals[i]? = some r ∧ looseEq r.id req.id = true ∧
          (Json.updateRental h s req).2
            = { s with rentals := s.rentals.set i (Json.applyUpdate h r req) } ∧
          { Json.applyUpdate h r req with
            startDate := r.startDate, endDate := r.endDate, totalDays := r.totalDays,
            totalPrice := r.totalPrice, status := r.status } = r ∧
          ((truthy req.startDate && truthy req.endDate) = false →
            { Json.applyUpdate h r req with status := r.status } = r)) ∧
      (Json.updateRental h s req).2.users = s.users ∧
      (Json.updateRental h s req).2.cars = s.cars ∧
      (Json.updateRental h s req).2.rentals.map Json.references
        = s.rentals.map Json.references) := by
  constructor
  · intro req
    rcases cancelRental_resolved_file h s req with hsame | ⟨i, r, hidx, hget, heq⟩
    · exact ⟨Or.inl hsame, by rw [hsame], by rw [hsame], by rw [hsame]⟩
    · have hloose : looseEq r.id req.id = true := by
        obtain ⟨x, hx, hpx⟩ := findIndex_getElem?
          (fun x : Json.Rental => looseEq x.id req.id) s.rentals i hidx
        rw [hget] at hx
        injection hx with hx
        rw [hx]
        exact hpx
      refine ⟨Or.inr ⟨i, r, hidx, hget, hloose, heq⟩, by rw [heq], by rw [heq], ?_⟩
      rw [heq]
      exact map_set_of_eq Json.references r { r with status := "cancelled" } rfl
        s.rentals i hget
  · intro req
    rcases updateRental_resolved_file h s req with hsame | ⟨i, r, hidx, hget, heq⟩
    · exact ⟨Or.inl hsame, by rw [hsame], by rw [hsame], by rw [hsame]⟩
    · have hloose : looseEq r.id req.id = true := by
        obtain ⟨x, hx, hpx⟩ := findIndex_getElem?
          (fun x : Json.Rental => looseEq x.id req.id) s.rentals i hidx
        rw [hget] at hx
        injection hx with hx
        rw [hx]
        exact hpx
      have hrefs : Json.references (Json.applyUpdate h r req) = Json.references r := by
        unfold Json.references Json.applyUpdate
        by_cases hd : (truthy req.startDate && truthy req.endDate) = true <;>
          by_cases hst : truthy req.status = true <;> simp [hd, hst]
      refine ⟨Or.inr ⟨i, r, hidx, hget, hloose, by rw [heq], applyUpdate_frame h r req,
        applyUpdate_status_only h r req⟩, by rw [heq], by rw [heq], ?_⟩
      rw [heq]
      exact map_set_of_eq Json.references r (Json.applyUpdate h r req) hrefs
        s.rentals i hget

/-! ### Status transitions -/

theorem getElem?_set_rel {α : Type} (P : α → α → Prop) (hrefl : ∀ a, P a a)
    (l : List α) (i : Nat) (x y : α) (hget : l[i]? = some x) (hxy : P x y)
    (j : Nat) (r : α) (hj : l[j]? = some r) :
    ∃ r2, (l.set i y)[j]? = some r2 ∧ P r r2 := by
  rw [List.getElem?_set]
  by_cases hij : i = j
  · subst hij
    obtain ⟨hlt, _⟩ := List.getElem?_eq_some.1 hget
    rw [hget] at hj
    simp only [Option.some.injEq] at hj
    subst hj
    exact ⟨y, by simp [hlt], hxy⟩
  · exact ⟨r, by simp [hij, hj], hrefl r⟩

theorem getElem?_append_singleton_of_some {α : Type} (l : List α) (a r : α) (j : Nat)
    (hj : l[j]? = some r) : (l ++ [a])[j]? = some r := by
  obtain ⟨hlt, _⟩ := List.getElem?_eq_some.1 hj
  rw [List.getElem?_append_left hlt, hj]

/-- C18 (counterexample): `updateRental` with `status: "active"` turns a
cancelled rental active again, in both backends, and `cancelRental` turns a
completed rental into a cancelled one. -/
theorem cancelled_is_not_terminal :
    Json.updateRental sampleHost (Json.storeWithStatus "cancelled")
        (statusRequest "1700000000000" "active")
      = (Reply.ok 200 { Json.booking1 with status := "active" },
          Json.storeWithStatus "active") ∧
    Mongo.updateRental sampleHost (Mongo.storeWithStatus "cancelled")
        (statusRequest "1700000000001" "active")
      = (Reply.ok 200 { Mongo.booking1 with status := "active" },
          Mongo.storeWithStatus "active") ∧
    Json.cancelRental sampleHost (Json.storeWithStatus "completed")
        { authorization := some "Bearer tok-alice", id := "1700000000000" }
      = (Reply.ok 200 "Rental cancelled successfully", Json.storeWithStatus "cancelled") := by
  refine ⟨by decide, by decide, by decide⟩

/-- C18 (amended): in both backends, for the rental at any position of the
store, `rentItem` leaves it as it is, `cancelRental` leaves its status as it
is or sets it to `cancelled`, and `updateRental` leaves its status as it is
or sets it to the non-empty `status` of the request.  So a cancelled rental
stays cancelled under `rentItem` and `cancelRental`, while `updateRental`
can give it any status. -/
theorem status_transitions (h : Host) (js : Json.Store) (ms : Mongo.Store) (j : Nat) :
    (∀ (r : Json.Rental), js.rentals[j]? = some r →
      (∀ (now stamp : Nat) (req : RentRequest),
        (Json.rentItem h now stamp js req).2.rentals[j]? = some r) ∧
      (∀ req : CancelRequest, ∃ r2, (Json.cancelRental h js req).2.rentals[j]? = some r2 ∧
        (r2.status = r.status ∨ r2.status = "cancelled")) ∧
      (∀ req : UpdateRequest, ∃ r2, (Json.updateRental h js req).2.rentals[j]? = some r2 ∧
        (r2.status = r.status ∨ (truthy req.status = true ∧ some r2.status = req.status)))) ∧
    (∀ (r : Mongo.Rental), ms.rentals[j]? = some r →
      (∀ (now stamp : Nat) (newId : String) (req : RentRequest),
        (Mongo.rentItem h now stamp newId ms req).2.rentals[j]? = some r) ∧
      (∀ req : CancelRequest, ∃ r2, (Mongo.cancelRental h ms req).2.rentals[j]? = some r2 ∧
        (r2.status = r.status ∨ r2.status = "cancelled")) ∧
      (∀ req : UpdateRequest, ∃ r2, (Mongo.updateRental h ms req).2.rentals[j]? = some r2 ∧
        (r2.status = r.status ∨ (truthy req.status = true ∧ some r2.status = req.status)))) := by
  constructor
  · intro r hj
    refine ⟨?_, ?_, ?_⟩
    · intro now stamp req
      rcases rentItem_shape_file h now stamp js req with hsame | ⟨a, _, heq⟩
      · rw [hsame]; exact hj
      · rw [heq]; exact getElem?_append_singleton_of_some js.rentals a r j hj
    · intro req
      rcases cancelRental_shape_file h js req with hsame | ⟨i, x, hget, heq⟩
      · rw [hsame]; exact ⟨r, hj, Or.inl rfl⟩
      · rw [heq]
        exact getElem?_set_rel (fun a b => b.status = a.status ∨ b.status = "cancelled")
          (fun a => Or.inl rfl) js.rentals i x { x with status := "cancelled" } hget
          (Or.inr rfl) j r hj
    · intro req
      rcases updateRental_shape_file h js req with hsame | ⟨i, x, hget, heq⟩
      · rw [hsame]; exact ⟨r, hj, Or.inl rfl⟩
      · rw [heq]
        refine getElem?_set_rel (fun a b => b.status = a.status ∨
            (truthy req.status = true ∧ some b.status = req.status))
          (fun a => Or.inl rfl) js.rentals i x _ hget ?_ j r hj
        unfold Json.applyUpdate
        by_cases hst : truthy req.status = true
        · right
          refine ⟨hst, ?_⟩
          cases hs : req.status with
          | none => simp [truthy, hs] at hst
          | some v => rw [hs] at hst; simp [hst]
        · left
          by_cases hd : (truthy req.startDate && truthy req.endDate) = true <;>
            simp [hst, hd]
  · intro r hj
    refine ⟨?_, ?_, ?_⟩
    · intro now stamp newId req
      rcases rentItem_shape_mongo h now stamp newId ms req with hsame | ⟨a, _, heq⟩
      · rw [hsame]; exact hj
      · rw [heq]; exact getElem?_append_singleton_of_some ms.rentals a r j hj
    · intro req
      rcases cancelRental_shape_mongo h ms req with hsame | ⟨i, x, hget, _, heq⟩
      · rw [hsame]; exact ⟨r, hj, Or.inl rfl⟩
      · rw [heq]
        exact getElem?_set_rel (fun a b => b.status = a.status ∨ b.status = "cancelled")
          (fun a => Or.inl rfl) ms.rentals i x { x with status := "cancelled" } hget
          (Or.inr rfl) j r hj
    · intro req
      rcases updateRental_shape_mongo h ms req with hsame | ⟨i, x, doc, hget, _, hst, heq⟩
      · rw [hsame]; exact ⟨r, hj, Or.inl rfl⟩
      · rw [heq]
        exact getElem?_set_rel (fun a b => b.status = a.status ∨
            (truthy req.status = true ∧ some b.status = req.status))
          (fun a => Or.inl rfl) ms.rentals i x doc hget hst j r hj

/-! ### Status domain -/

theorem Mongo.statusInDomain_of_validDoc (r : Mongo.Rental) (hv : Mongo.validDoc r = true) :
    Mongo.statusInDomain r := by
  unfold Mongo.validDoc at hv
  simp only [Bool.and_eq_true, Bool.or_eq_true, beq_iff_eq] at hv
  unfold Mongo.statusInDomain
  rcases hv.2 with (h1 | h1) | h1
  · exact Or.inl h1
  · exact Or.inr (Or.inl h1)
  · exact Or.inr (Or.inr h1)

theorem statusInDomain_preserved_mongo (h : Host) (s : Mongo.Store)
    (hs : ∀ r ∈ s.rentals, Mongo.statusInDomain r) :
    (∀ (now stamp : Nat) (newId : String) (req : RentRequest),
      ∀ r ∈ (Mongo.rentItem h now stamp newId s req).2.rentals, Mongo.statusInDomain r) ∧
    (∀ req : CancelRequest,
      ∀ r ∈ (Mongo.cancelRental h s req).2.rentals, Mongo.statusInDomain r) ∧
    (∀ req : UpdateRequest,
      ∀ r ∈ (Mongo.updateRental h s req).2.rentals, Mongo.statusInDomain r) := by
  refine ⟨?_, ?_, ?_⟩
  · intro now stamp newId req
    rcases rentItem_shape_mongo h now stamp newId s req with hsame | ⟨a, hv, heq⟩
    · rw [hsame]; exact hs
    · rw [heq]
      intro r hr
      rcases List.mem_append.1 hr with hr | hr
      · exact hs r hr
      · rw [List.mem_singleton.1 hr]; exact Mongo.statusInDomain_of_validDoc a hv
  · intro req
    rcases cancelRental_shape_mongo h s req with hsame | ⟨i, x, _, hv, heq⟩
    · rw [hsame]; exact hs
    · rw [heq]
      intro r hr
      rcases List.mem_or_eq_of_mem_set hr with hr | hr
      · exact hs r hr
      · rw [hr]; exact Mongo.statusInDomain_of_validDoc _ hv
  · intro req
    rcases updateRental_shape_mongo h s req with hsame | ⟨i, x, doc, _, hv, _, heq⟩
    · rw [hsame]; exact hs
    · rw [heq]
      intro r hr
      rcases List.mem_or_eq_of_mem_set hr with hr | hr
      · exact hs r hr
      · rw [hr]; exact Mongo.statusInDomain_of_validDoc _ hv

theorem statusInDomain_preserved_file_rent_cancel (h : Host) (s : Json.Store)
    (hs : ∀ r ∈ s.rentals, Json.statusInDomain r) :
    (∀ (now stamp : Nat) (req : RentRequest),
      ∀ r ∈ (Json.rentItem h now stamp s req).2.rentals, Json.statusInDomain r) ∧
    (∀ req : CancelRequest,
      ∀ r ∈ (Json.cancelRental h s req).2.rentals, Json.statusInDomain r) := by
  refine ⟨?_, ?_⟩
  · intro now stamp req
    rcases rentItem_shape_file h now stamp s req with hsame | ⟨a, ha, heq⟩
    · rw [hsame]; exact hs
    · rw [heq]
      intro r hr
      rcases List.mem_append.1 hr with hr | hr
      · exact hs r hr
      · rw [List.mem_singleton.1 hr]; exact Or.inl ha
  · intro req
    rcases cancelRental_shape_file h s req with hsame | ⟨i, x, _, heq⟩
    · rw [hsame]; exact hs
    · rw [heq]
      intro r hr
      rcases List.mem_or_eq_of_mem_set hr with hr | hr
      · exact hs r hr
      · rw [hr]; exact Or.inr (Or.inr rfl)

/-- C19 (refuted on the code): the file-backed `updateRental` stores whatever
non-empty `status` the request carries: from a store whose only rental is
active, the body `{ status: "bogus" }` is answered 200 and leaves a rental
with status `bogus`.  The document database rejects the same request (500)
and keeps the store, because the schema restricts `status` to the enum. -/
theorem updateRental_file_stores_any_status :
    (∀ r ∈ Json.store1.rentals, Json.statusInDomain r) ∧
    Json.updateRental sampleHost Json.store1 (statusRequest "1700000000000" "bogus")
      = (Reply.ok 200 { Json.booking1 with status := "bogus" },
          Json.storeWithStatus "bogus") ∧
    (∃ r ∈ (Json.storeWithStatus "bogus").rentals, ¬ Json.statusInDomain r) ∧
    Mongo.updateRental sampleHost Mongo.store1 (statusRequest "1700000000001" "bogus")
      = (Reply.error 500 "Server error", Mongo.store1) := by
  refine ⟨?_, by decide, ?_, by decide⟩
  · intro r hr
    simp only [Json.store1, List.mem_singleton] at hr
    rw [hr]
    exact Or.inl rfl
  · refine ⟨{ Json.booking1 with status := "bogus" }, by simp [Json.storeWithStatus], ?_⟩
    unfold Json.statusInDomain
    decide

/-! ### Idempotence of cancellation -/

theorem getElem?_set_same {α : Type} (l : List α) (i : Nat) (x y : α)
    (hget : l[i]? = some x) : (l.set i y)[i]? = some y := by
  obtain ⟨hlt, _⟩ := List.getElem?_eq_some.1 hget
  rw [List.getElem?_set]
  simp [hlt]

theorem cancelRental_file_ok_inv (h : Host) (s : Json.Store) (req : CancelRequest)
    (status : Nat) (msg : String)
    (hok : (Json.cancelRental h s req).1 = Reply.ok status msg) :
    ∃ (email : String) (i : Nat) (r : Json.Rental),
      currentUserEmail h req.authorization = some email ∧
      findIndex (fun x : Json.Rental => looseEq x.id req.id) s.rentals = some i ∧
      s.rentals.get? i = some r ∧ r.userEmail = email := by
  unfold Json.cancelRental at hok
  split at hok
  · simp at hok
  · rename_i email hemail
    split at hok
    · simp at hok
    · rename_i i hidx
      split at hok
      · simp at hok
      · rename_i r hget
        split at hok
        · simp at hok
        · rename_i hne
          exact ⟨email, i, r, hemail, hidx, hget, by simpa using hne⟩

theorem cancelRental_file_twice (h : Host) (s : Json.Store) (req : CancelRequest)
    (status : Nat) (msg : String)
    (hok : (Json.cancelRental h s req).1 = Reply.ok status msg) :
    Json.cancelRental h (Json.cancelRental h s req).2 req = Json.cancelRental h s req := by
  obtain ⟨email, i, r, hemail, hidx, hget, hown⟩ := cancelRental_file_ok_inv h s req status msg hok
  have hfirst := cancelRental_file_ok h s req email i r hemail hidx hget hown
  rw [hfirst]
  rw [List.get?_eq_getElem?] at hget
  have hidx2 : findIndex (fun x : Json.Rental => looseEq x.id req.id)
      (s.rentals.set i { r with status := "cancelled" }) = some i := by
    rw [findIndex_set_of_eq (fun x : Json.Rental => looseEq x.id req.id) r
      { r with status := "cancelled" } rfl s.rentals i hget]
    exact hidx
  have hget2 : (s.rentals.set i { r with status := "cancelled" }).get? i
      = some { r with status := "cancelled" } := by
    rw [List.get?_eq_getElem?]
    exact getElem?_set_same s.rentals i r _ hget
  rw [cancelRental_file_ok h
    { s with rentals := s.rentals.set i { r with status := "cancelled" } } req email i
    { r with status := "cancelled" } hemail hidx2 hget2 hown]
  simp [List.set_set]

theorem Mongo.validDoc_cancelled (r : Mongo.Rental) (hv : Mongo.validDoc r = true) :
    Mongo.validDoc { r with status := "cancelled" } = true := by
  unfold Mongo.validDoc at hv ⊢
  simp only [Bool.and_eq_true] at hv ⊢
  exact ⟨hv.1, by simp⟩

theorem cancelRental_mongo_ok (h : Host) (s : Mongo.Store) (req : CancelRequest)
    (email : String) (user : Mongo.User) (i : Nat) (r : Mongo.Rental)
    (hemail : currentUserEmail h req.authorization = some email)
    (huser : Mongo.findUserByEmail h s email = some user)
    (hidx : Mongo.findRentalIndex h s req.id = some i)
    (hget : s.rentals.get? i = some r)
    (hvalid : Mongo.validDoc { r with status := "cancelled" } = true)
    (hauth : user.role = "admin" ∨
      ∃ t, valToString r.userId = some t ∧ (t = user._id ∨ r.userEmail = email)) :
    Mongo.cancelRental h s req
      = (Reply.ok 200 "Rental cancelled successfully",
          { s with rentals := s.rentals.set i { r with status := "cancelled" } }) := by
  rw [List.get?_eq_getElem?] at hget
  by_cases hadmin : user.role = "admin"
  · simp [Mongo.cancelRental, hemail, huser, hidx, hget, hadmin, hvalid]
  · rcases hauth with hauth | ⟨t, ht, hor⟩
    · exact absurd hauth hadmin
    · have hb : (t == user._id || Mongo.sameObject r.userId user._id ||
          r.userEmail == email) = true := by
        rcases hor with hor | hor <;> simp [hor]
      simp [Mongo.cancelRental, hemail, huser, hidx, hget, hadmin, ht, hb, hvalid]

theorem cancelRental_mongo_ok_inv (h : Host) (s : Mongo.Store) (req : CancelRequest)
    (status : Nat) (msg : String)
    (hok : (Mongo.cancelRental h s req).1 = Reply.ok status msg) :
    ∃ (email : String) (user : Mongo.User) (i : Nat) (r : Mongo.Rental),
      currentUserEmail h req.authorization = some email ∧
      Mongo.findUserByEmail h s email = some user ∧
      Mongo.findRentalIndex h s req.id = some i ∧
      s.rentals.get? i = some r ∧
      Mongo.validDoc { r with status := "cancelled" } = true ∧
      (user.role = "admin" ∨
        ∃ t, valToString r.userId = some t ∧ (t = user._id ∨ r.userEmail = email)) := by
  unfold Mongo.cancelRental at hok
  split at hok
  · simp at hok
  · rename_i email hemail
    split at hok
    · simp at hok
    · rename_i user huser
      split at hok
      · simp at hok
      · rename_i i hidx
        split at hok
        · simp at hok
        · rename_i r hget
          dsimp only at hok
          split at hok
          · simp at hok
          · simp at hok
          · rename_i hauth
            split at hok
            · rename_i hv
              refine ⟨email, user, i, r, hemail, huser, hidx, hget, hv, ?_⟩
              by_cases hadmin : user.role = "admin"
              · exact Or.inl hadmin
              · right
                simp only [hadmin, beq_iff_eq, if_false] at hauth
                cases ht : valToString r.userId with
                | none => simp [ht] at hauth
                | some t =>
                  simp only [ht, Option.some.injEq, Bool.or_eq_true, beq_iff_eq,
                    Mongo.sameObject, Bool.or_false] at hauth
                  exact ⟨t, rfl, hauth⟩
            · simp at hok

theorem Mongo.findRentalIndex_set (h : Host) (s : Mongo.Store) (id : String) (i : Nat)
    (r r2 : Mongo.Rental) (hget : s.rentals[i]? = some r)
    (hkey : r2._id = r._id) (hid : r2.id = r.id) :
    Mongo.findRentalIndex h { s with rentals := s.rentals.set i r2 } id
      = Mongo.findRentalIndex h s id := by
  unfold Mongo.findRentalIndex
  simp only
  rw [findIndex_set_of_eq (fun x : Mongo.Rental => x.id == some id) r r2 (by simp [hid])
      s.rentals i hget,
    findIndex_set_of_eq (fun x : Mongo.Rental => x.id == some (numToString (parseInt id)))
      r r2 (by simp [hid]) s.rentals i hget]
  cases hk : h.toObjectId id with
  | none => rfl
  | some key =>
    simp only
    rw [findIndex_set_of_eq (fun x : Mongo.Rental => x._id == key) r r2 (by simp [hkey])
      s.rentals i hget]

theorem cancelRental_mongo_twice (h : Host) (s : Mongo.Store) (req : CancelRequest)
    (status : Nat) (msg : String)
    (hok : (Mongo.cancelRental h s req).1 = Reply.ok status msg) :
    Mongo.cancelRental h (Mongo.cancelRental h s req).2 req = Mongo.cancelRental h s req := by
  obtain ⟨email, user, i, r, hemail, huser, hidx, hget, hv, hauth⟩ :=
    cancelRental_mongo_ok_inv h s req status msg hok
  have hfirst := cancelRental_mongo_ok h s req email user i r hemail huser hidx hget hv hauth
  rw [hfirst]
  rw [List.get?_eq_getElem?] at hget
  have hidx2 : Mongo.findRentalIndex h
      { s with rentals := s.rentals.set i { r with status := "cancelled" } } req.id = some i := by
    rw [Mongo.findRentalIndex_set h s req.id i r { r with status := "cancelled" } hget rfl rfl]
    exact hidx
  have hget2 : (s.rentals.set i { r with status := "cancelled" }).get? i
      = some { r with status := "cancelled" } := by
    rw [List.get?_eq_getElem?]
    exact getElem?_set_same s.rentals i r _ hget
  have huser2 : Mongo.findUserByEmail h
      { s with rentals := s.rentals.set i { r with status := "cancelled" } } email
      = some user := huser
  rw [cancelRental_mongo_ok h
    { s with rentals := s.rentals.set i { r with status := "cancelled" } } req email user i
    { r with status := "cancelled" } hemail huser2 hidx2 hget2 hv hauth]
  simp [List.set_set]

/-- C20: `cancelRental` is idempotent for a caller the code authorises, in
both backends.  Such a call is answered 200 whatever the status of the rental
is (cancelled and completed included), and leaves the store as it is when
the rental is already cancelled; and after any successful cancellation the
same request gives the same reply and the same store again.  (In the
database the stored rental is assumed to satisfy its schema, which `save()`
checks.) -/
theorem cancelRental_idempotent (h : Host) (js : Json.Store) (ms : Mongo.Store)
    (req : CancelRequest) :
    (∀ (email : String) (i : Nat) (r : Json.Rental),
      currentUserEmail h req.authorization = some email →
      findIndex (fun x : Json.Rental => looseEq x.id req.id) js.rentals = some i →
      js.rentals.get? i = some r → r.userEmail = email →
      (Json.cancelRental h js req).1 = Reply.ok 200 "Rental cancelled successfully" ∧
      (r.status = "cancelled" → (Json.cancelRental h js req).2 = js)) ∧
    (∀ (status : Nat) (msg : String),
      (Json.cancelRental h js req).1 = Reply.ok status msg →
      Json.cancelRental h (Json.cancelRental h js req).2 req = Json.cancelRental h js req) ∧
    (∀ (email : String) (user : Mongo.User) (i : Nat) (r : Mongo.Rental),
      currentUserEmail h req.authorization = some email →
      Mongo.findUserByEmail h ms email = some user →
      Mongo.findRentalIndex h ms req.id = some i →
      ms.rentals.get? i = some r → Mongo.validDoc r = true →
      (user.role = "admin" ∨ valToString r.userId = some user._id ∨ r.userEmail = email) →
      (Mongo.cancelRental h ms req).1 = Reply.ok 200 "Rental cancelled successfully" ∧
      (r.status = "cancelled" → (Mongo.cancelRental h ms req).2 = ms)) ∧
    (∀ (status : Nat) (msg : String),
      (Mongo.cancelRental h ms req).1 = Reply.ok status msg →
      Mongo.cancelRental h (Mongo.cancelRental h ms req).2 req
        = Mongo.cancelRental h ms req) := by
  refine ⟨?_, cancelRental_file_twice h js req, ?_, cancelRental_mongo_twice h ms req⟩
  · intro email i r hemail hidx hget hown
    rw [cancelRental_file_ok h js req email i r hemail hidx hget hown]
    refine ⟨rfl, fun hst => ?_⟩
    rw [List.get?_eq_getElem?] at hget
    have hr : { r with status := "cancelled" } = r := by rw [← hst]
    simp only [hr, set_getElem?_self r js.rentals i hget]
  · intro email user i r hemail huser hidx hget hv hauth
    have hauth2 : user.role = "admin" ∨
        ∃ t, valToString r.userId = some t ∧ (t = user._id ∨ r.userEmail = email) := by
      rcases hauth with ha | ha | ha
      · exact Or.inl ha
      · exact Or.inr ⟨user._id, ha, Or.inl rfl⟩
      · right
        cases ht : valToString r.userId with
        | none =>
          exfalso
          have hu : r.userId = Val.undef := by
            cases hc : r.userId <;> rw [hc] at ht <;> simp [valToString] at ht
          unfold Mongo.validDoc at hv
          simp [hu] at hv
        | some t => exact ⟨t, rfl, Or.inr ha⟩
    rw [cancelRental_mongo_ok h ms req email user i r hemail huser hidx hget
      (Mongo.validDoc_cancelled r hv) hauth2]
    refine ⟨rfl, fun hst => ?_⟩
    rw [List.get?_eq_getElem?] at hget
    have hr : { r with status := "cancelled" } = r := by rw [← hst]
    simp only [hr, set_getElem?_self r ms.rentals i hget]

theorem cancelRental_idempotent_witness :
    ((Json.cancelRental sampleHost (Json.storeWithStatus "cancelled")
        { authorization := some "Bearer tok-alice", id := "1700000000000" }).1
      = Reply.ok 200 "Rental cancelled successfully" ∧
     (Json.cancelRental sampleHost (Json.storeWithStatus "cancelled")
        { authorization := some "Bearer tok-alice", id := "1700000000000" }).2
      = Json.storeWithStatus "cancelled") ∧
    ((Mongo.cancelRental sampleHost (Mongo.storeWithStatus "cancelled")
        { authorization := some "Bearer tok-alice", id := "1700000000001" }).1
      = Reply.ok 200 "Rental cancelled successfully" ∧
     (Mongo.cancelRental sampleHost (Mongo.storeWithStatus "cancelled")
        { authorization := some "Bearer tok-alice", id := "1700000000001" }).2
      = Mongo.storeWithStatus "cancelled") :=
  have key := cancelRental_idempotent sampleHost (Json.storeWithStatus "cancelled")
    (Mongo.storeWithStatus "cancelled")
    { authorization := some "Bearer tok-alice", id := "1700000000000" }
  have key2 := cancelRental_idempotent sampleHost (Json.storeWithStatus "cancelled")
    (Mongo.storeWithStatus "cancelled")
    { authorization := some "Bearer tok-alice", id := "1700000000001" }
  have a := key.1 "alice@example.com" 0 { Json.booking1 with status := "cancelled" }
    (by decide) (by decide) (by decide) (by decide)
  have b := key2.2.2.1 "alice@example.com" Mongo.alice 0
    { Mongo.booking1 with status := "cancelled" }
    (by decide) (by decide) (by decide) (by decide) (by decide) (by decide)
  ⟨⟨a.1, a.2 rfl⟩, ⟨b.1, b.2 rfl⟩⟩

/-! ### Agreement of booking and availability check, file-backed -/

/-- C28: file-backed path, caller authenticated and existing, `:id` resolving
to a car, both dates non-empty: `rentItem` rejects with
`Car is already rented for the selected dates` if and only if
`checkCarAvailability` for the same id and dates answers `available: false`. -/
theorem rentItem_agrees_with_availability (h : Host) (now stamp : Nat) (s : Json.Store)
    (req : RentRequest) (email : String) (user : Json.User) (car : Json.Car)
    (startDate endDate : String)
    (hemail : currentUserEmail h req.authorization = some email)
    (huser : s.users.find? (fun u => u.email == email) = some user)
    (hcar : s.cars.find? (fun c => looseEq c.id req.id) = some car)
    (hsd : req.startDate = some startDate) (hsd0 : startDate ≠ "")
    (hed : req.endDate = some endDate) (hed0 : endDate ≠ "") :
    (∃ status, (Json.rentItem h now stamp s req).1
        = Reply.error status "Car is already rented for the selected dates") ↔
      Json.checkCarAvailability s req.id req.startDate req.endDate
        = Reply.ok 200 { available := false, carId := req.id } := by
  by_cases hov : s.rentals.any (Json.overlapsRequest req.id req.startDate req.endDate) = true
  · rw [Json.rentItem_overlap h now stamp s req email user car hemail huser hcar hov]
    constructor
    · intro _
      rw [hsd, hed] at hov ⊢
      simp [Json.checkCarAvailability, hsd0, hed0, hov]
    · intro _
      exact ⟨400, rfl⟩
  · have hov2 : s.rentals.any (Json.overlapsRequest req.id req.startDate req.endDate) = false := by
      simpa using hov
    obtain ⟨rental, hres, _⟩ :=
      Json.rentItem_pricing h now stamp s req email user car hemail huser hcar hov2
    rw [hres]
    constructor
    · rintro ⟨status, hst⟩
      simp at hst
    · intro hcheck
      rw [hsd, hed] at hov2 hcheck
      simp [Json.checkCarAvailability, hsd0, hed0, hov2] at hcheck

theorem rentItem_agrees_with_availability_witness :
    (∃ status, (Json.rentItem sampleHost 1700000000001 1700000000002 Json.store1
        (rentRequest "7" "2024-01-05" "2024-01-10")).1
        = Reply.error status "Car is already rented for the selected dates") ↔
      Json.checkCarAvailability Json.store1 "7" (some "2024-01-05") (some "2024-01-10")
        = Reply.ok 200 { available := false, carId := "7" } :=
  rentItem_agrees_with_availability sampleHost 1700000000001 1700000000002 Json.store1
    (rentRequest "7" "2024-01-05" "2024-01-10") "alice@example.com" Json.alice Json.car7
    "2024-01-05" "2024-01-10" (by decide) (by decide) (by decide) rfl (by decide) rfl
    (by decide)

/-! ### Status code of the overlap rejection -/

/-- C26 (counterexample): the overlap rejection carries status 400, not 409,
in the file-backed store and in the database. -/
theorem overlap_rejection_is_not_409 :
    Json.rentItem sampleHost 1700000000001 1700000000002 Json.store1
        (rentRequest "7" "2024-01-05" "2024-01-10")
      = (Reply.error 400 "Car is already rented for the selected dates", Json.store1) ∧
    Mongo.rentItem sampleHost 1700000000001 1700000000002 "64d000000000000000000002"
        Mongo.migratedStore (rentRequest "7" "2024-01-05" "2024-01-10")
      = (Reply.error 400 "Car is already rented for the selected dates",
          Mongo.migratedStore) ∧
    (400 : Nat) ≠ 409 := by
  refine ⟨by decide, by decide, by decide⟩

/-- C26 (amended): whenever `rentItem` rejects a booking with
`Car is already rented for the selected dates`, in either backend, the HTTP
status of the reply is 400. -/
theorem overlap_rejection_status (h : Host) (now stamp : Nat) (newId : String)
    (js : Json.Store) (ms : Mongo.Store) (req : RentRequest) (status : Nat)
    (hrej : (Json.rentItem h now stamp js req).1
        = Reply.error status "Car is already rented for the selected dates" ∨
      (Mongo.rentItem h now stamp newId ms req).1
        = Reply.error status "Car is already rented for the selected dates") :
    status = 400 := by
  rcases hrej with hrej | hrej
  · unfold Json.rentItem at hrej
    split at hrej
    · simp at hrej
    · split at hrej
      · simp at hrej
      · split at hrej
        · simp at hrej
        · dsimp only at hrej
          split at hrej
          · simp only [Reply.error.injEq] at hrej
            exact hrej.1.symm
          · simp at hrej
  · unfold Mongo.rentItem at hrej
    split at hrej
    · simp at hrej
    · split at hrej
      · simp at hrej
      · split at hrej
        · simp at hrej
        · dsimp only at hrej
          split at hrej
          · simp only [Reply.error.injEq] at hrej
            exact hrej.1.symm
          · split at hrej
            · simp at hrej
            · simp at hrej

theorem overlap_rejection_status_witness :
    (Json.rentItem sampleHost 1700000000001 1700000000002 Json.store1
        (rentRequest "7" "2024-01-05" "2024-01-10")).1
      = Reply.error 400 "Car is already rented for the selected dates" ∧
    (400 : Nat) = 400 :=
  ⟨by decide,
    overlap_rejection_status sampleHost 1700000000001 1700000000002
      "64d000000000000000000002" Json.store1 Mongo.migratedStore
      (rentRequest "7" "2024-01-05" "2024-01-10") 400 (Or.inl (by decide))⟩

/-! ### Vehicle identifier resolution -/

theorem natRepr_data_ne_nil (n : Nat) : (Nat.repr n).data ≠ [] := by
  unfold Nat.repr Nat.toDigits
  rw [Nat.toDigitsCore]
  simp only [List.asString]
  split
  · simp
  · intro hnil
    have := Nat.toDigitsCore_lens_eq 10 n (n / 10) (Nat.digitChar (n % 10)) []
    rw [hnil] at this
    simp at this

theorem intToString_ne_empty (n : Int) : toString n ≠ "" := by
  intro h
  have hd : (toString n).data = [] := by rw [h]
  cases n with
  | ofNat m =>
    exact natRepr_data_ne_nil m hd
  | negSucc m =>
    have : (toString (Int.negSucc m)).data = '-' :: (Nat.repr (m + 1)).data := rfl
    rw [this] at hd
    simp at hd

theorem numToString_ne_empty (n : Option Int) : numToString n ≠ "" := by
  cases n with
  | none => decide
  | some v => exact intToString_ne_empty v

theorem find?_of_mem {α : Type} (p : α → Bool) (l : List α) (a : α) (ha : a ∈ l)
    (hp : p a = true) :
    ∃ c, l.find? p = some c ∧ p c = true ∧ ((∀ x ∈ l, p x = true → x = a) → c = a) := by
  cases hf : l.find? p with
  | none =>
    rw [List.find?_eq_none] at hf
    exact absurd hp (hf a ha)
  | some c =>
    have hpc : p c = true := List.find?_some hf
    exact ⟨c, rfl, hpc, fun hu => hu c (List.mem_of_find?_eq_some hf) hpc⟩

theorem Mongo.findCar_legacy (h : Host) (s : Mongo.Store) (id : String) (car : Mongo.Car)
    (hvalid : h.toObjectId id = none) (hcar : car ∈ s.cars) (hid : car.id = id) :
    ∃ c, Mongo.findCar h s id = some c ∧ c.id = id ∧
      ((∀ x ∈ s.cars, x.id = id → x = car) → c = car) := by
  obtain ⟨c, hc, hpc, hu⟩ := find?_of_mem (fun c : Mongo.Car => c.id == id) s.cars car hcar
    (by simp [hid])
  refine ⟨c, ?_, by simpa using hpc, fun hall => hu (fun x hx hpx => hall x hx (by simpa using hpx))⟩
  simp [Mongo.findCar, hvalid, hc]

theorem Mongo.findCar_not_keyless (h : Host) (s : Mongo.Store) (id : String) (car : Mongo.Car)
    (hid : car.id = "") (hnum : isNumericString id = true)
    (hkey : h.toObjectId id ≠ some car._id) :
    Mongo.findCar h s id ≠ some car := by
  intro hfind
  have hne : id ≠ "" := by
    intro he
    rw [he] at hnum
    simp [isNumericString] at hnum
  unfold Mongo.findCar at hfind
  split at hfind
  · rename_i key hk
    have := List.find?_some hfind
    simp only [beq_iff_eq] at this
    exact hkey (by rw [hk, this])
  · split at hfind
    · rename_i c hc
      have := List.find?_some hc
      simp only [beq_iff_eq, Option.some.injEq] at this hfind
      rw [hfind, hid] at this
      exact hne this.symm
    · have := List.find?_some hfind
      simp only [beq_iff_eq] at this
      rw [hid] at this
      exact numToString_ne_empty _ this.symm

theorem rentItem_file_ok_car (h : Host) (now stamp : Nat) (s : Json.Store) (req : RentRequest)
    (status : Nat) (body : Json.Rented)
    (hok : (Json.rentItem h now stamp s req).1 = Reply.ok status body) :
    s.cars.find? (fun c => looseEq c.id req.id) = some body.car := by
  unfold Json.rentItem at hok
  split at hok
  · exact Reply.noConfusion hok
  · split at hok
    · exact Reply.noConfusion hok
    · split at hok
      · exact Reply.noConfusion hok
      · rename_i car hcar
        dsimp only at hok
        split at hok
        · exact Reply.noConfusion hok
        · injection hok with _ hbody
          rw [hcar, ← hbody]

theorem rentItem_file_found (h : Host) (now stamp : Nat) (s : Json.Store) (req : RentRequest)
    (email : String) (user : Json.User) (car : Json.Car)
    (hemail : currentUserEmail h req.authorization = some email)
    (huser : s.users.find? (fun u => u.email == email) = some user)
    (hcar : s.cars.find? (fun c => looseEq c.id req.id) = some car) :
    (Json.rentItem h now stamp s req).1 ≠ Reply.error 404 "Car not found" := by
  unfold Json.rentItem
  simp only [hemail, huser, hcar]
  split
  · simp
  · simp

theorem rentItem_mongo_ok_car (h : Host) (now stamp : Nat) (newId : String) (s : Mongo.Store)
    (req : RentRequest) (status : Nat) (body : Mongo.Rented)
    (hok : (Mongo.rentItem h now stamp newId s req).1 = Reply.ok status body) :
    Mongo.findCar h s req.id = some body.car := by
  unfold Mongo.rentItem at hok
  split at hok
  · exact Reply.noConfusion hok
  · split at hok
    · exact Reply.noConfusion hok
    · split at hok
      · exact Reply.noConfusion hok
      · rename_i car hcar
        dsimp only at hok
        split at hok
        · exact Reply.noConfusion hok
        · split at hok
          · injection hok with _ hbody
            rw [hcar, ← hbody]
          · exact Reply.noConfusion hok

theorem rentItem_mongo_found (h : Host) (now stamp : Nat) (newId : String) (s : Mongo.Store)
    (req : RentRequest) (email : String) (user : Mongo.User) (car : Mongo.Car)
    (hemail : currentUserEmail h req.authorization = some email)
    (huser : Mongo.findUserByEmail h s email = some user)
    (hcar : Mongo.findCar h s req.id = some car) :
    (Mongo.rentItem h now stamp newId s req).1 ≠ Reply.error 404 "Car not found" := by
  unfold Mongo.rentItem
  simp only [hemail, huser, hcar]
  split
  · simp
  · split
    · simp
    · simp

/-- C21: car resolution of `rentItem` in both backends, for a caller whose
token is accepted and whose account exists.  When a car is stored with legacy
id 7 (in the database the schema keeps it as the string `7`, which is no
valid `ObjectId`) and the raw id is `7`, `rentItem` does not answer 404
`Car not found`, and the car of every successful reply carries that id and is
that very car when no other car carries the id.  A car without legacy id is
never the car of a successful reply, in the file-backed store for any raw id,
in the database for any numeric string that is not its surrogate key; and
when no car of the store has a legacy id (nor, in the database, the raw id as
surrogate key) `rentItem` answers 404 `Car not found` and leaves the store as
it was. -/
theorem car_resolution_by_legacy_id (h : Host) (now stamp : Nat) (newId : String)
    (js : Json.Store) (ms : Mongo.Store) (req : RentRequest) (email : String)
    (juser : Json.User) (muser : Mongo.User)
    (hemail : currentUserEmail h req.authorization = some email)
    (hjuser : js.users.find? (fun u => u.email == email) = some juser)
    (hmuser : Mongo.findUserByEmail h ms email = some muser) :
    (req.id = "7" → ∀ car ∈ js.cars, car.id = Val.num 7 →
      (Json.rentItem h now stamp js req).1 ≠ Reply.error 404 "Car not found" ∧
      ∀ (status : Nat) (body : Json.Rented),
        (Json.rentItem h now stamp js req).1 = Reply.ok status body →
          looseEq body.car.id "7" = true ∧
          ((∀ x ∈ js.cars, looseEq x.id "7" = true → x = car) → body.car = car)) ∧
    (∀ (status : Nat) (body : Json.Rented),
      (Json.rentItem h now stamp js req).1 = Reply.ok status body →
        body.car.id ≠ Val.undef) ∧
    ((∀ c ∈ js.cars, c.id = Val.undef) →
      Json.rentItem h now stamp js req = (Reply.error 404 "Car not found", js)) ∧
    (req.id = "7" → h.toObjectId "7" = none → ∀ car ∈ ms.cars, car.id = "7" →
      (Mongo.rentItem h now stamp newId ms req).1 ≠ Reply.error 404 "Car not found" ∧
      ∀ (status : Nat) (body : Mongo.Rented),
        (Mongo.rentItem h now stamp newId ms req).1 = Reply.ok status body →
          body.car.id = "7" ∧ ((∀ x ∈ ms.cars, x.id = "7" → x = car) → body.car = car)) ∧
    (isNumericString req.id = true → ∀ car : Mongo.Car, car.id = "" →
      h.toObjectId req.id ≠ some car._id →
      ∀ (status : Nat) (body : Mongo.Rented),
        (Mongo.rentItem h now stamp newId ms req).1 = Reply.ok status body →
          body.car ≠ car) ∧
    (isNumericString req.id = true →
      (∀ c ∈ ms.cars, c.id = "" ∧ h.toObjectId req.id ≠ some c._id) →
      Mongo.rentItem h now stamp newId ms req = (Reply.error 404 "Car not found", ms)) := by
  refine ⟨?_, ?_, ?_, ?_, ?_, ?_⟩
  · intro hreq car hcar hid
    obtain ⟨c, hc, hpc, hu⟩ := find?_of_mem (fun c : Json.Car => looseEq c.id "7") js.cars car
      hcar (by show looseEq car.id "7" = true; rw [hid]; decide)
    have hfind : js.cars.find? (fun c => looseEq c.id req.id) = some c := by rw [hreq]; exact hc
    refine ⟨rentItem_file_found h now stamp js req email juser c hemail hjuser hfind, ?_⟩
    intro status body hok
    have hb := rentItem_file_ok_car h now stamp js req status body hok
    rw [hfind] at hb
    injection hb with hb
    rw [← hb]
    exact ⟨hpc, hu⟩
  · intro status body hok hundef
    have hb := rentItem_file_ok_car h now stamp js req status body hok
    have := List.find?_some hb
    simp [hundef, looseEq] at this
  · intro hall
    have hnone : js.cars.find? (fun c => looseEq c.id req.id) = none := by
      rw [List.find?_eq_none]
      intro c hc
      simp [hall c hc, looseEq]
    simp [Json.rentItem, hemail, hjuser, hnone]
  · intro hreq hvalid car hcar hid
    obtain ⟨c, hc, hcid, hu⟩ := Mongo.findCar_legacy h ms "7" car hvalid hcar hid
    have hfind : Mongo.findCar h ms req.id = some c := by rw [hreq]; exact hc
    refine ⟨rentItem_mongo_found h now stamp newId ms req email muser c hemail hmuser hfind, ?_⟩
    intro status body hok
    have hb := rentItem_mongo_ok_car h now stamp newId ms req status body hok
    rw [hfind] at hb
    injection hb with hb
    rw [← hb]
    exact ⟨hcid, hu⟩
  · intro hnum car hid hkey status body hok hbody
    have hb := rentItem_mongo_ok_car h now stamp newId ms req status body hok
    rw [hbody] at hb
    exact Mongo.findCar_not_keyless h ms req.id car hid hnum hkey hb
  · intro hnum hall
    have hnone : Mongo.findCar h ms req.id = none := by
      cases hf : Mongo.findCar h ms req.id with
      | none => rfl
      | some c =>
        exfalso
        have hmem : c ∈ ms.cars := by
          unfold Mongo.findCar at hf
          split at hf
          · exact List.mem_of_find?_eq_some hf
          · split at hf
            · rename_i c2 hc2
              injection hf with hf
              rw [← hf]
              exact List.mem_of_find?_eq_some hc2
            · exact List.mem_of_find?_eq_some hf
        exact Mongo.findCar_not_keyless h ms req.id c (hall c hmem).1 hnum (hall c hmem).2 hf
    simp [Mongo.rentItem, hemail, hmuser, hnone]

theorem car_resolution_by_legacy_id_witness :
    (Json.rentItem sampleHost 1700000000001 1700000000002 Json.emptyStore
        (rentRequest "7" "2024-02-01" "2024-02-03")).1.status = 200 ∧
    (Mongo.rentItem sampleHost 1700000000001 1700000000002 "64d000000000000000000001"
        Mongo.emptyStore (rentRequest "7" "2024-02-01" "2024-02-03")).1.status = 200 ∧
    (Json.rentItem sampleHost 1700000000001 1700000000002 Json.emptyStore
        (rentRequest "7" "2024-02-01" "2024-02-03")).1 ≠ Reply.error 404 "Car not found" ∧
    (Mongo.rentItem sampleHost 1700000000001 1700000000002 "64d000000000000000000001"
        Mongo.emptyStore (rentRequest "7" "2024-02-01" "2024-02-03")).1
      ≠ Reply.error 404 "Car not found" :=
  ⟨by decide, by decide, ((car_resolution_by_legacy_id sampleHost 1700000000001 1700000000002
      "64d000000000000000000001" Json.emptyStore Mongo.emptyStore
      (rentRequest "7" "2024-02-01" "2024-02-03") "alice@example.com" Json.alice Mongo.alice
      (by decide) (by decide) (by decide)).1 rfl Json.car7 (by decide) (by decide)).1,
    ((car_resolution_by_legacy_id sampleHost 1700000000001 1700000000002
      "64d000000000000000000001" Json.emptyStore Mongo.emptyStore
      (rentRequest "7" "2024-02-01" "2024-02-03") "alice@example.com" Json.alice Mongo.alice
      (by decide) (by decide) (by decide)).2.2.2.1 rfl (by decide) Mongo.car7 (by decide)
      (by decide)).1⟩

/-- C22 (counterexample): in the database a car whose legacy id is a string
of 24 hex digits is not resolved by that id: the id is a valid `ObjectId`, the
lookup by `_id` misses and `rentItem` answers 404 without trying the legacy
id. -/
theorem rentItem_mongo_no_fall_through :
    Mongo.hexCar ∈ Mongo.hexStore.cars ∧
    Mongo.hexCar.id = "aaaaaaaaaaaaaaaaaaaaaaaa" ∧
    sampleHost.toObjectId "aaaaaaaaaaaaaaaaaaaaaaaa" = some "aaaaaaaaaaaaaaaaaaaaaaaa" ∧
    Mongo.rentItem sampleHost 1700000000001 1700000000001 "64d000000000000000000001"
        Mongo.hexStore (rentRequest "aaaaaaaaaaaaaaaaaaaaaaaa" "2024-01-01" "2024-01-05")
      = (Reply.error 404 "Car not found", Mongo.hexStore) := by
  refine ⟨by decide, by decide, by decide, by decide⟩

theorem Mongo.findCar_eq_none_iff (h : Host) (s : Mongo.Store) (id : String) :
    Mongo.findCar h s id = none ↔
      ((∃ key, h.toObjectId id = some key ∧ ∀ c ∈ s.cars, c._id ≠ key) ∨
        (h.toObjectId id = none ∧ (∀ c ∈ s.cars, c.id ≠ id) ∧
          ∀ c ∈ s.cars, c.id ≠ numToString (parseInt id))) := by
  unfold Mongo.findCar
  cases hk : h.toObjectId id with
  | some key =>
    simp only [List.find?_eq_none, beq_iff_eq, Option.some.injEq, exists_eq_left', false_and,
      or_false, reduceCtorEq]
  | none =>
    simp only [reduceCtorEq, false_and, exists_false, true_and, false_or]
    cases hf : s.cars.find? (fun c => c.id == id) with
    | some c =>
      have hc := List.find?_some hf
      have hm := List.mem_of_find?_eq_some hf
      simp only [beq_iff_eq] at hc
      simp only [reduceCtorEq, false_iff, not_and]
      intro hno
      exact absurd hc (hno c hm)
    | none =>
      rw [List.find?_eq_none] at hf
      simp only [List.find?_eq_none, beq_iff_eq]
      constructor
      · intro h2
        exact ⟨fun c hc => by simpa using hf c hc, h2⟩
      · intro h2
        exact h2.2

/-- C22 (amended): database path, caller authenticated and existing.
`rentItem` answers 404 `Car not found` exactly when either the raw id is a
valid `ObjectId` and no car has it as surrogate key (the legacy lookups are
then not tried), or the raw id is no valid `ObjectId` and no car has it, or
the string form of `parseInt(id)`, as legacy id. -/
theorem rentItem_mongo_not_found_iff (h : Host) (now stamp : Nat) (newId : String)
    (s : Mongo.Store) (req : RentRequest) (email : String) (user : Mongo.User)
    (hemail : currentUserEmail h req.authorization = some email)
    (huser : Mongo.findUserByEmail h s email = some user) :
    Mongo.rentItem h now stamp newId s req = (Reply.error 404 "Car not found", s) ↔
      ((∃ key, h.toObjectId req.id = some key ∧ ∀ c ∈ s.cars, c._id ≠ key) ∨
        (h.toObjectId req.id = none ∧ (∀ c ∈ s.cars, c.id ≠ req.id) ∧
          ∀ c ∈ s.cars, c.id ≠ numToString (parseInt req.id))) := by
  rw [← Mongo.findCar_eq_none_iff]
  constructor
  · intro hres
    cases hc : Mongo.findCar h s req.id with
    | none => rfl
    | some car =>
      exfalso
      unfold Mongo.rentItem at hres
      simp only [hemail, huser, hc] at hres
      split at hres
      · simp at hres
      · split at hres
        · simp at hres
        · simp at hres
  · intro hc
    simp [Mongo.rentItem, hemail, huser, hc]

theorem rentItem_mongo_not_found_iff_witness :
    Mongo.rentItem sampleHost 1700000000001 1700000000001 "64d000000000000000000001"
        Mongo.store1 (rentRequest "99" "2024-01-01" "2024-01-05")
      = (Reply.error 404 "Car not found", Mongo.store1) :=
  (rentItem_mongo_not_found_iff sampleHost 1700000000001 1700000000001
    "64d000000000000000000001" Mongo.store1 (rentRequest "99" "2024-01-01" "2024-01-05")
    "alice@example.com" Mongo.alice (by decide) (by decide)).2
    (Or.inr ⟨by decide, by decide, by decide⟩)

/-! ### Uniqueness of rental identifiers -/

theorem rentItem_mongo_fresh_id (h : Host) (now stamp : Nat) (newId : String)
    (s s2 : Mongo.Store) (req : RentRequest) (status : Nat) (body : Mongo.Rented)
    (hok : Mongo.rentItem h now stamp newId s req = (Reply.ok status body, s2)) :
    ∀ r ∈ s.rentals, r.id ≠ body.rental.id := by
  unfold Mongo.rentItem at hok
  split at hok
  · simp at hok
  · split at hok
    · simp at hok
    · split at hok
      · simp at hok
      · dsimp only at hok
        split at hok
        · simp at hok
        · split at hok
          · rename_i doc s3 hdoc hins
            simp only [Prod.mk.injEq, Reply.ok.injEq] at hok
            obtain ⟨⟨_, hbody⟩, _⟩ := hok
            rw [hdoc] at hins
            unfold Mongo.insertRental at hins
            simp only at hins
            split at hins
            · rename_i hv
              simp only [Bool.and_eq_true, Bool.not_eq_true', List.any_eq_false,
                Bool.not_eq_true] at hv
              have hid : doc.id = some (toString now) := by
                unfold Mongo.newRental at hdoc
                simp only at hdoc
                split at hdoc
                · simp only [Option.some.injEq] at hdoc
                  rw [← hdoc]
                · simp at hdoc
              intro r hr hrid
              have := hv.2 r hr
              rw [← hbody] at hrid
              simp [hrid, hid] at this
            · simp at hins
          · simp at hok

/-- C23 (refuted on the code): the file-backed `rentItem` does not compare the
new id with the stored ones: when `Date.now()` returns 1700000000000 again,
the new rental is stored under the id of the existing one.  The database
rejects the same request through the unique index on `id` (500). -/
theorem rentItem_file_reuses_id :
    Json.booking1.id = Val.str "1700000000000" ∧
    Json.rentItem sampleHost 1700000000000 1700000000000 Json.store1
        (rentRequest "7" "2024-02-01" "2024-02-03")
      = (Reply.ok 200 { rental := Json.clashBooking, car := Json.car7 },
          { Json.store1 with rentals := [Json.booking1, Json.clashBooking] }) ∧
    Json.clashBooking.id = Json.booking1.id ∧
    Mongo.booking1.id = some "1700000000001" ∧
    Mongo.rentItem sampleHost 1700000000001 1700000000001 "64d000000000000000000002"
        Mongo.store1 (rentRequest "7" "2024-02-01" "2024-02-03")
      = (Reply.error 500 "Server error", Mongo.store1) := by
  refine ⟨by decide, by decide, by decide, by decide, by decide⟩

/-! ### Two booking requests at once -/

theorem rentItem_eq_commit_prepare (h : Host) (now stamp : Nat) (newId : String)
    (s : Mongo.Store) (req : RentRequest) :
    Mongo.rentItem h now stamp newId s req
      = Mongo.rentItemCommit s (Mongo.rentItemPrepare h now stamp newId s req) := by
  unfold Mongo.rentItem Mongo.rentItemPrepare
  split
  · rfl
  · split
    · rfl
    · split
      · rfl
      · dsimp only
        split
        · rfl
        · rfl

/-- C27 (counterexample): in the database, when the two requests for car 7
(1 to 5 January and 3 to 8 January) both run their read part on the empty
database and then both save, both are answered 200 and both rentals are
stored active. -/
theorem rentItem_mongo_both_persist :
    Mongo.rentItemCommit Mongo.emptyStore
        (Mongo.rentItemPrepare sampleHost 1700000000001 1700000000001
          "64d000000000000000000001" Mongo.emptyStore (rentRequest "7" "2024-01-01" "2024-01-05"))
      = (Reply.ok 200 { rental := Mongo.booking1, car := Mongo.car7 }, Mongo.store1) ∧
    Mongo.rentItemCommit Mongo.store1
        (Mongo.rentItemPrepare sampleHost 1700000000002 1700000000002
          "64d000000000000000000002" Mongo.emptyStore (rentRequest "7" "2024-01-03" "2024-01-08"))
      = (Reply.ok 200 { rental := Mongo.booking2, car := Mongo.car7 }, Mongo.store2) ∧
    Mongo.store2.rentals = [Mongo.booking1, Mongo.booking2] ∧
    Mongo.booking1.status = "active" ∧ Mongo.booking2.status = "active" ∧
    Mongo.booking1.carId = Mongo.booking2.carId ∧
    bsonLte Mongo.booking1.startDate (some Mongo.booking2.endDate) = true ∧
    bsonGte Mongo.booking1.endDate (some Mongo.booking2.startDate) = true := by
  refine ⟨by decide, by decide, by decide, by decide, by decide, by decide, by decide,
    by decide⟩

theorem Mongo.insertRental_after (s s1 s2 : Mongo.Store) (d1 d2 : Mongo.Rental)
    (h1 : Mongo.insertRental s (some d1) = some s1)
    (h2 : Mongo.insertRental s (some d2) = some s2) (hne : d1.id ≠ d2.id) :
    Mongo.insertRental s1 (some d2)
      = some { s with rentals := s.rentals ++ [d1, d2] } := by
  unfold Mongo.insertRental at h1 h2 ⊢
  simp only at h1 h2 ⊢
  split at h1
  · simp only [Option.some.injEq] at h1
    split at h2
    · rename_i hv2
      simp only [Bool.and_eq_true, Bool.not_eq_true', List.any_eq_false] at hv2
      rw [← h1]
      have hfresh : (s.rentals ++ [d1]).any (fun x => x.id.isSome && x.id == d2.id) = false := by
        rw [List.any_eq_false]
        intro x hx
        rcases List.mem_append.1 hx with hx | hx
        · simpa using hv2.2 x hx
        · rw [List.mem_singleton.1 hx]
          simp [hne]
      simp [hv2.1, hfresh]
    · simp at h2
  · simp at h1

theorem rentItemPrepare_reply_error (h : Host) (now stamp : Nat) (newId : String)
    (s : Mongo.Store) (req : RentRequest) (r : Reply Mongo.Rented)
    (hp : Mongo.rentItemPrepare h now stamp newId s req = Mongo.Prepared.reply r) :
    ∃ status msg, r = Reply.error status msg := by
  unfold Mongo.rentItemPrepare at hp
  split at hp
  · simp only [Mongo.Prepared.reply.injEq] at hp
    exact ⟨_, _, hp.symm⟩
  · split at hp
    · simp only [Mongo.Prepared.reply.injEq] at hp
      exact ⟨_, _, hp.symm⟩
    · split at hp
      · simp only [Mongo.Prepared.reply.injEq] at hp
        exact ⟨_, _, hp.symm⟩
      · dsimp only at hp
        split at hp
        · simp only [Mongo.Prepared.reply.injEq] at hp
          exact ⟨_, _, hp.symm⟩
        · simp at hp

theorem rentItemCommit_ok (s s2 : Mongo.Store) (doc : Option Mongo.Rental) (car : Mongo.Car)
    (status : Nat) (body : Mongo.Rented)
    (hc : Mongo.rentItemCommit s (Mongo.Prepared.save doc car) = (Reply.ok status body, s2)) :
    ∃ d, doc = some d ∧ Mongo.insertRental s (some d) = some s2 ∧
      body = { rental := d, car := car } := by
  cases doc with
  | none =>
    exfalso
    have h1 := congrArg Prod.fst hc
    exact Reply.noConfusion h1
  | some d =>
    cases hi : Mongo.insertRental s (some d) with
    | none =>
      exfalso
      unfold Mongo.rentItemCommit at hc
      simp only [hi] at hc
      have h1 := congrArg Prod.fst hc
      exact Reply.noConfusion h1
    | some s3 =>
      unfold Mongo.rentItemCommit at hc
      simp only [hi, Prod.mk.injEq, Reply.ok.injEq] at hc
      exact ⟨d, rfl, by rw [hi, hc.2], hc.1.2.symm⟩

/-- C27 (amended): `rentItem` has no lock or transaction around its check and
its write.  File-backed path (check and write are one block without `await`,
so calls run one after the other): if a booking succeeds, a following request
for the same raw id whose interval overlaps the booked one, from an
authenticated existing caller, is rejected and persists nothing.  Database
path (check and write are separate `await`s): if each of two requests would
succeed on the database as both read it, and their `Date.now()` ids differ,
then with both reads before both writes both are answered 200 and both
rentals are stored. -/
theorem rentItem_check_then_write (h : Host) (js : Json.Store) (ms : Mongo.Store)
    (req1 req2 : RentRequest) (now1 stamp1 now2 stamp2 : Nat) (id1 id2 : String) :
    (∀ (body1 : Json.Rented) (js1 : Json.Store) (email2 : String) (user2 : Json.User),
      Json.rentItem h now1 stamp1 js req1 = (Reply.ok 200 body1, js1) →
      req2.id = req1.id →
      jsLe req1.startDate req2.endDate = true → jsGe req1.endDate req2.startDate = true →
      currentUserEmail h req2.authorization = some email2 →
      js.users.find? (fun u => u.email == email2) = some user2 →
      Json.rentItem h now2 stamp2 js1 req2
        = (Reply.error 400 "Car is already rented for the selected dates", js1)) ∧
    (∀ (body1 body2 : Mongo.Rented) (ms1 ms2 : Mongo.Store),
      Mongo.rentItem h now1 stamp1 id1 ms req1 = (Reply.ok 200 body1, ms1) →
      Mongo.rentItem h now2 stamp2 id2 ms req2 = (Reply.ok 200 body2, ms2) →
      body1.rental.id ≠ body2.rental.id →
      Mongo.rentItemCommit ms (Mongo.rentItemPrepare h now1 stamp1 id1 ms req1)
        = (Reply.ok 200 body1, ms1) ∧
      Mongo.rentItemCommit ms1 (Mongo.rentItemPrepare h now2 stamp2 id2 ms req2)
        = (Reply.ok 200 body2,
            { ms with rentals := ms.rentals ++ [body1.rental, body2.rental] })) := by
  constructor
  · intro body1 js1 email2 user2 h1 hid hle hge hemail2 huser2
    obtain ⟨_, husers, hcars, hrentals, email, user, _, _, _, hcar, hact, hcarId, _, _, _,
      hsd, hed, _⟩ := rentItem_file_success h now1 stamp1 js js1 req1 200 body1 h1
    apply Json.rentItem_overlap h now2 stamp2 js1 req2 email2 user2 body1.car hemail2
    · rw [husers]; exact huser2
    · rw [hcars, hid]; exact hcar
    · rw [hrentals, List.any_append]
      have hloose : looseEq body1.car.id req1.id = true := by
        have := List.find?_some hcar
        simpa using this
      have : Json.overlapsRequest req2.id req2.startDate req2.endDate body1.rental = true := by
        rw [Json.overlapsRequest_iff]
        refine ⟨by rw [hcarId, hid]; exact hloose, hact, ?_, ?_⟩
        · rw [hsd]; exact hle
        · rw [hed]; exact hge
      simp [this]
  · intro body1 body2 ms1 ms2 h1 h2 hne
    rw [rentItem_eq_commit_prepare] at h1 h2
    refine ⟨h1, ?_⟩
    cases hp1 : Mongo.rentItemPrepare h now1 stamp1 id1 ms req1 with
    | reply r =>
      exfalso
      obtain ⟨st, msg, hr⟩ := rentItemPrepare_reply_error h now1 stamp1 id1 ms req1 r hp1
      rw [hp1, hr] at h1
      have h1a := congrArg Prod.fst h1
      exact Reply.noConfusion h1a
    | save doc1 car1 =>
      cases hp2 : Mongo.rentItemPrepare h now2 stamp2 id2 ms req2 with
      | reply r =>
        exfalso
        obtain ⟨st, msg, hr⟩ := rentItemPrepare_reply_error h now2 stamp2 id2 ms req2 r hp2
        rw [hp2, hr] at h2
        have h2a := congrArg Prod.fst h2
        exact Reply.noConfusion h2a
      | save doc2 car2 =>
        rw [hp1] at h1
        rw [hp2] at h2
        obtain ⟨d1, hd1, hi1, hb1⟩ := rentItemCommit_ok ms ms1 doc1 car1 200 body1 h1
        obtain ⟨d2, hd2, hi2, hb2⟩ := rentItemCommit_ok ms ms2 doc2 car2 200 body2 h2
        have hr1 : body1.rental = d1 := by rw [hb1]
        have hr2 : body2.rental = d2 := by rw [hb2]
        rw [hr1, hr2] at hne ⊢
        have hi3 := Mongo.insertRental_after ms ms1 ms2 d1 d2 hi1 hi2 hne
        rw [hd2]
        unfold Mongo.rentItemCommit
        simp only [hi3, hb2]

theorem rentItem_check_then_write_witness :
    Json.rentItem sampleHost 1700000000002 1700000000002 Json.store1
        (rentRequest "7" "2024-01-03" "2024-01-08")
      = (Reply.error 400 "Car is already rented for the selected dates", Json.store1) :=
  (rentItem_check_then_write sampleHost Json.emptyStore Mongo.emptyStore
    (rentRequest "7" "2024-01-01" "2024-01-05") (rentRequest "7" "2024-01-03" "2024-01-08")
    1700000000000 1700000000000 1700000000002 1700000000002
    "64d000000000000000000001" "64d000000000000000000002").1
    { rental := Json.booking1, car := Json.car7 } Json.store1 "alice@example.com" Json.alice
    (by decide) rfl (by decide) (by decide) (by decide) (by decide)

/-! ### Listings -/

/-- C24 (`getAllRentals`): the file-backed branch answers 200 with every
stored rental as it is, for every store; on a store whose second rental has a
`userId` and a `userEmail` that belong to no user, that rental is part of the
response, whereas the document-database branch on the same data returns only
the first rental, joined with its car and its user.  In the document
database a rental that names a deleted account by `ObjectId` is skipped
although its `userEmail` is the email of an existing user. -/
theorem getAllRentals_file_returns_every_rental :
    (∀ s : Json.Store, Json.getAllRentals s = Reply.ok 200 s.rentals) ∧
    (∀ u ∈ Json.ghostStore.users,
      u.id ≠ Json.ghostBooking.userId ∧ u.email ≠ Json.ghostBooking.userEmail) ∧
    Json.getAllRentals Json.ghostStore
      = Reply.ok 200 [Json.booking1, Json.ghostBooking] ∧
    Mongo.getAllRentals sampleHost Mongo.ghostStore
      = Reply.ok 200 [{ rental := Mongo.booking1, car := some Mongo.car7, user := Mongo.alice }] ∧
    Mongo.findUserByEmail sampleHost Mongo.orphanStore Mongo.orphanBooking.userEmail
      = some Mongo.alice ∧
    Mongo.getAllRentals sampleHost Mongo.orphanStore
      = Reply.ok 200 [{ rental := Mongo.booking1, car := some Mongo.car7, user := Mongo.alice }] := by
  refine ⟨fun _ => rfl, by decide, by decide, by decide, by decide, by decide⟩

/-- C25 (`getUserRentals`): the file-backed branch answers with the rentals
whose `userEmail` is the email of the token and nothing else, without a `car`
field.  The rental carol made under her former email carries her `id` as
`userId`, yet her listing is empty, whereas the document-database branch on
the same data returns that rental joined with its car.  The document
database in turn does not return a rental whose `userId` is her legacy id
written as a string. -/
theorem getUserRentals_file_filters_by_email_only :
    (∀ (h : Host) (s : Json.Store) (a : Option String) (body : List Json.Rental),
      Json.getUserRentals h s a = Reply.ok 200 body →
        ∃ email, currentUserEmail h a = some email ∧
          body = s.rentals.filter (fun r => r.userEmail == email)) ∧
    Json.carolBooking ∈ Json.store3.rentals ∧
    Json.carol ∈ Json.store3.users ∧
    Json.carolBooking.userId = Json.carol.id ∧
    Json.getUserRentals sampleHost Json.store3 (some "Bearer tok-carol") = Reply.ok 200 [] ∧
    Mongo.getUserRentals sampleHost Mongo.store3 (some "Bearer tok-carol")
      = Reply.ok 200 [{ rental := Mongo.carolBooking, car := some Mongo.car7 }] ∧
    Mongo.refersTo Mongo.stringIdBooking.userId Mongo.carol = true ∧
    Mongo.getUserRentals sampleHost Mongo.stringIdStore (some "Bearer tok-carol")
      = Reply.ok 200 [] := by
  refine ⟨?_, by decide, by decide, by decide, by decide, by decide, by decide, by decide⟩
  intro h s a body hb
  unfold Json.getUserRentals at hb
  cases he : currentUserEmail h a with
  | none => rw [he] at hb; exact Reply.noConfusion hb
  | some email =>
    rw [he] at hb
    injection hb with _ hbody
    exact ⟨email, rfl, hbody.symm⟩

/-! ### Rating of an updated review -/

/-- C29 (`updateReview`): when the owner of the review sends a rating outside
1 to 5, the stored reviews are unchanged in every case, and the response is
400 "Rating must be between 1 and 5" except for the rating 0, which passes the
test of the handler, fails the validator of the schema at `save()` and is
answered 500 "Server error". -/
theorem updateReview_rating_outside_range (h : Host) (now : Nat)
    (reviews : List Mongo.Review) (req : Mongo.UpdateReviewRequest) (key : String) (i : Nat)
    (review : Mongo.Review) (r : Int)
    (hid : h.toObjectId req.id = some key)
    (hidx : findIndex (fun x : Mongo.Review => x._id == key) reviews = some i)
    (hget : reviews.get? i = some review)
    (hown : valToString review.userId = some (Mongo.reviewerId req.user))
    (hr : req.rating = some r) (hout : r < 1 ∨ 5 < r) :
    Mongo.updateReview h now reviews req =
      (if r = 0 then Reply.error 500 "Server error"
        else Reply.error 400 "Rating must be between 1 and 5", reviews) := by
  unfold Mongo.updateReview
  simp only [hid, hidx, hget, hown, hr]
  by_cases h0 : r = 0
  · subst h0
    cases req.comment <;> simp [Mongo.ratingRejected, Mongo.validReview]
  · have hrej : Mongo.ratingRejected (some r) = true := by
      simp only [Mongo.ratingRejected, Bool.and_eq_true, Bool.or_eq_true, decide_eq_true_eq,
        bne_iff_ne, ne_eq]
      exact ⟨h0, hout⟩
    simp [hrej, h0]

theorem updateReview_rating_outside_range_witness :
    Mongo.updateReview sampleHost 1700000000100 [Mongo.review1] (Mongo.ratingRequest 0)
      = (Reply.error 500 "Server error", [Mongo.review1]) ∧
    Mongo.updateReview sampleHost 1700000000100 [Mongo.review1] (Mongo.ratingRequest (-2))
      = (Reply.error 400 "Rating must be between 1 and 5", [Mongo.review1]) :=
  ⟨updateReview_rating_outside_range sampleHost 1700000000100 [Mongo.review1]
      (Mongo.ratingRequest 0) "64e000000000000000000001" 0 Mongo.review1 0
      (by decide) (by decide) (by decide) (by decide) rfl (Or.inl (by decide)),
    updateReview_rating_outside_range sampleHost 1700000000100 [Mongo.review1]
      (Mongo.ratingRequest (-2)) "64e000000000000000000001" 0 Mongo.review1 (-2)
      (by decide) (by decide) (by decide) (by decide) rfl (Or.inl (by decide))⟩

/-- A saved review carries a rating between 1 and 5: the body of a 200
response of `updateReview` has such a rating. -/
theorem updateReview_saved_rating_in_range (h : Host) (now : Nat)
    (reviews : List Mongo.Review) (req : Mongo.UpdateReviewRequest) (saved : Mongo.Review)
    (hok : (Mongo.updateReview h now reviews req).1 = Reply.ok 200 saved) :
    1 ≤ saved.rating ∧ saved.rating ≤ 5 := by
  unfold Mongo.updateReview at hok
  dsimp only at hok
  split at hok
  · exact Reply.noConfusion hok
  · split at hok
    · exact Reply.noConfusion hok
    · split at hok
      · exact Reply.noConfusion hok
      · split at hok
        · exact Reply.noConfusion hok
        · split at hok
          · exact Reply.noConfusion hok
          · split at hok
            · exact Reply.noConfusion hok
            · split at hok
              · rename_i hv
                injection hok with _ hbody
                subst hbody
                simp only [Mongo.validReview, Bool.and_eq_true, decide_eq_true_eq] at hv
                exact ⟨hv.1.1.1.1.1.1, hv.1.1.1.1.1.2⟩
              · exact Reply.noConfusion hok

/-! ### Duplicate check of the catalogue -/

/-- C30 (`addItem`, document database): a body whose `id` is used by no stored
car but whose make, model and year are those of a stored car is answered 409
and nothing is stored. -/
theorem addItem_rejects_same_specs (h : Host) (describe : Mongo.CarData → String)
    (newId : String) (cars : List Mongo.CarDoc) (carData : Mongo.CarData)
    (make model : String) (year : Int) (existing : Mongo.CarDoc)
    (hid : ∀ c ∈ cars, some c.id ≠ carData.id)
    (hmake : carData.make = some make) (hmodel : carData.model = some model)
    (hyear : carData.year = some year)
    (hex : existing ∈ cars)
    (hsame : existing.make = Mongo.jsTrim make ∧ existing.model = Mongo.jsTrim model ∧
      existing.year = year) :
    Mongo.addItem h describe newId cars carData =
      (Reply.error 409
        ("Car \x22" ++ toString year ++ " " ++ make ++ " " ++ model ++ "\x22 already exists."),
        cars) := by
  have hnoid : (carData.id.getD "" != "" &&
      (Mongo.findCarDocById cars (carData.id.getD "")).isSome) = false := by
    cases hc : carData.id with
    | none => simp
    | some id =>
      have hnone : Mongo.findCarDocById cars id = none := by
        unfold Mongo.findCarDocById
        rw [List.find?_eq_none]
        intro c hcm hceq
        have : c.id = id := by simpa using hceq
        exact hid c hcm (by rw [hc, this])
      simp [hnone]
  have hspec : (Mongo.findCarDocBySpecs cars carData).isSome = true := by
    unfold Mongo.findCarDocBySpecs
    rw [hmake, hmodel, hyear]
    obtain ⟨c, hc, _, _⟩ := find?_of_mem
      (fun c : Mongo.CarDoc =>
        c.make == Mongo.jsTrim make && c.model == Mongo.jsTrim model && c.year == year)
      cars existing hex (by simp [hsame.1, hsame.2.1, hsame.2.2])
    simp only [hc, Option.isSome_some]
  unfold Mongo.addItem
  simp only [hnoid, hspec, hmake, hmodel, hyear, Option.getD_some, if_true]
  simp

theorem addItem_rejects_same_specs_witness :
    Mongo.addItem sampleHost Mongo.sampleDescribe "64c000000000000000000012" [Mongo.corolla]
        Mongo.secondCorolla
      = (Reply.error 409 "Car \x222020 Toyota Corolla\x22 already exists.", [Mongo.corolla]) :=
  addItem_rejects_same_specs sampleHost Mongo.sampleDescribe "64c000000000000000000012"
    [Mongo.corolla] Mongo.secondCorolla "Toyota" "Corolla" 2020 Mongo.corolla
    (by decide) rfl rfl rfl (by decide) (by decide)

/-- A body with an unused `id` and specs that no stored car has is stored and
answered 201. -/
theorem addItem_accepts_new_specs :
    Mongo.addItem sampleHost Mongo.sampleDescribe "64c000000000000000000012" [Mongo.corolla]
        Mongo.newerCorolla
      = (Reply.ok 201
          { Mongo.corolla with
            _id := "64c000000000000000000012", id := "c2", year := 2021, price_per_day := 45 },
        [Mongo.corolla,
          { Mongo.corolla with
            _id := "64c000000000000000000012", id := "c2", year := 2021, price_per_day := 45 }]) := by
  decide

end Bydrive
